import Mathlib

/-!
# SmartMeetingAI front end: status polling and the reel gallery

A shallow embedding of `static/js/app.js` (class `SmartMeetingAI`): the status
polling loop started by `startStatusCheck`, the completion handler
`handleGenerationComplete`, the gallery store `addReelToGallery`,
`saveReels`, `loadReels`, and around them file selection
(`handleFileSelect`), batch submission (`generateReels`) and the poster and
blog pipelines (`handleGeneratePoster`, `handleGenerateBlog`).

Conventions of the embedding.

* JavaScript values that travel through JSON are values of `JsVal`; a property
  read that yields `undefined` is `none : Option JsVal`.  An own property
  holding `undefined` is represented like an absent property: every read in
  the program and `JSON.stringify` treat the two alike.
* Numbers are integers (counts, percentages, durations in seconds).
* `JSON.stringify` and `JSON.parse` are a writer and a reader of JSON text
  over `JsVal`, following the JSON grammar and the quoting rules of
  `JSON.stringify`; strings are sequences of Unicode scalar values.
* The page is a record of the few DOM facts the code writes; the DOM elements
  the code looks up are taken to exist.
* What the code does to the outside (requests, notifications, storage writes,
  gallery renders) is appended to `App.log`, oldest entry first.
* The callback of the interval timer is `async`: it runs up to
  `await fetch(...)` when a period of its timer elapses (`beginCallback`) and
  from there to its end when the query is answered (`resumeCallback`); the
  timer, and everything else on the page, goes on in between (`Happening`,
  `happen`).  The two `await`s of the callback, on `fetch` and on
  `response.json()`, are one suspension: the callback does nothing to the
  page between them.
* `statusTick` and `poll` are the schedule on which every status query is
  answered within the period it is issued in (`answer_after_period`,
  `happen_inPeriod`).
-/

namespace SmartMeetingAI

/-! ## JSON data -/

/-- JSON data: what `JSON.parse` produces and `JSON.stringify` consumes. -/
inductive JsVal where
  | null
  | bool (b : Bool)
  | num (n : Int)
  | str (s : String)
  | arr (xs : List JsVal)
  | obj (kvs : List (String × JsVal))
  deriving Repr, Inhabited

namespace JsVal

/-- JavaScript `ToBoolean`, as used by `if (v)`, `v && w` and `v || w`. -/
def truthy : JsVal → Bool
  | null => false
  | bool b => b
  | num n => n != 0
  | str s => s != ""
  | arr _ => true
  | obj _ => true

/-- Decimal digit `d < 10` as a character. -/
def digitChar (d : Nat) : Char := Char.ofNat (48 + d)

/-- Decimal digits of `n`, most significant first, in front of `acc`. -/
def decimalAux : Nat → Nat → List Char → List Char
  | 0, _, acc => acc
  | fuel + 1, n, acc =>
    if n < 10 then digitChar n :: acc
    else decimalAux fuel (n / 10) (digitChar (n % 10) :: acc)

/-- Decimal numeral of a natural number. -/
def decimal (n : Nat) : List Char := decimalAux (n + 1) n []

/-- Decimal numeral of an integer, as JavaScript prints an integral number
(one that a double holds exactly, below `10^21` in magnitude). -/
def intChars : Int → List Char
  | Int.ofNat n => decimal n
  | Int.negSucc n => '-' :: decimal (n + 1)

mutual
/-- JavaScript `ToString`, as used by template literals and by `"..." + v`. -/
def toStr : JsVal → List Char
  | null => "null".data
  | bool true => "true".data
  | bool false => "false".data
  | num n => intChars n
  | str s => s.data
  | arr xs => joinElems xs
  | obj _ => "[object Object]".data
/-- `Array.prototype.join(",")`: a `null` element contributes nothing. -/
def joinElems : List JsVal → List Char
  | [] => []
  | [null] => []
  | [x] => toStr x
  | null :: xs => ',' :: joinElems xs
  | x :: xs => toStr x ++ ',' :: joinElems xs
end

end JsVal

open JsVal

/-- `String(v)` for a property read: `undefined` prints as `undefined`. -/
def jsString : Option JsVal → String
  | none => "undefined"
  | some v => String.mk (toStr v)

/-- Truthiness of a property read: `undefined` is falsy. -/
def jsTruthy : Option JsVal → Bool
  | none => false
  | some v => v.truthy

/-- An object literal: properties whose value is `undefined` are left out. -/
def mkObj : List (String × Option JsVal) → JsVal
  | kvs => JsVal.obj (kvs.filterMap fun kv => kv.2.map fun v => (kv.1, v))

/-! ## `JSON.stringify` -/

namespace JSON

/-- Hexadecimal digit `d < 16`, lower case. -/
def hexChar (d : Nat) : Char :=
  if d < 10 then Char.ofNat (48 + d) else Char.ofNat (87 + d)

/-- One character inside a JSON string literal (`QuoteJSONString`). -/
def quoteChar (c : Char) : List Char :=
  if c = '"' then ['\\', '"']
  else if c = '\\' then ['\\', '\\']
  else if c = '\x08' then ['\\', 'b']
  else if c = '\x0c' then ['\\', 'f']
  else if c = '\n' then ['\\', 'n']
  else if c = '\r' then ['\\', 'r']
  else if c = '\t' then ['\\', 't']
  else if c.toNat < 32 then
    ['\\', 'u', '0', '0', hexChar (c.toNat / 16), hexChar (c.toNat % 16)]
  else [c]

/-- The characters of a string literal between its quotes. -/
def quoteBody : List Char → List Char
  | [] => []
  | c :: cs => quoteChar c ++ quoteBody cs

/-- A quoted JSON string literal. -/
def quote (s : String) : List Char := '"' :: quoteBody s.data ++ ['"']

mutual
/-- Compact JSON text of a value. -/
def write : JsVal → List Char
  | JsVal.null => "null".data
  | JsVal.bool true => "true".data
  | JsVal.bool false => "false".data
  | JsVal.num n => intChars n
  | JsVal.str s => quote s
  | JsVal.arr xs => '[' :: writeElems xs
  | JsVal.obj kvs => '{' :: writeMembers kvs
/-- Elements of an array after the opening bracket, with the closing one. -/
def writeElems : List JsVal → List Char
  | [] => [']']
  | [x] => write x ++ [']']
  | x :: xs => write x ++ ',' :: writeElems xs
/-- Members of an object after the opening brace, with the closing one. -/
def writeMembers : List (String × JsVal) → List Char
  | [] => ['}']
  | [(k, v)] => quote k ++ ':' :: write v ++ ['}']
  | (k, v) :: kvs => quote k ++ ':' :: write v ++ ',' :: writeMembers kvs
end

/-- `JSON.stringify(v)` for JSON data `v`. -/
def stringify (v : JsVal) : String := String.mk (write v)

/-! ## `JSON.parse` -/

/-- JSON white space. -/
def isWs (c : Char) : Bool := c = ' ' || c = '\t' || c = '\n' || c = '\r'

/-- Drop leading white space. -/
def skipWs : List Char → List Char
  | [] => []
  | c :: cs => if isWs c then skipWs cs else c :: cs

/-- Decimal digits. -/
def isDigit (c : Char) : Bool := 48 ≤ c.toNat && c.toNat ≤ 57

/-- Read the longest run of digits, continuing the numeral `acc`. -/
def readDigits : Nat → List Char → Nat × List Char
  | acc, [] => (acc, [])
  | acc, c :: cs =>
    if isDigit c then readDigits (acc * 10 + (c.toNat - 48)) cs else (acc, c :: cs)

/-- Read the integer part of a number: `0`, or a digit run that does not
start with `0`. -/
def readNat : List Char → Option (Nat × List Char)
  | [] => none
  | c :: cs =>
    if c = '0' then some (0, cs)
    else if isDigit c then some (readDigits (c.toNat - 48) cs)
    else none

/-- Value of a hexadecimal digit. -/
def hexVal (c : Char) : Option Nat :=
  if 48 ≤ c.toNat && c.toNat ≤ 57 then some (c.toNat - 48)
  else if 97 ≤ c.toNat && c.toNat ≤ 102 then some (c.toNat - 87)
  else if 65 ≤ c.toNat && c.toNat ≤ 70 then some (c.toNat - 55)
  else none

/-- The character of the escape `\uabcd`; surrogate code units have none. -/
def hex4 (a b c d : Char) : Option Char :=
  match hexVal a, hexVal b, hexVal c, hexVal d with
  | some x, some y, some z, some w =>
    let n := ((x * 16 + y) * 16 + z) * 16 + w
    if 0xD800 ≤ n && n ≤ 0xDFFF then none else some (Char.ofNat n)
  | _, _, _, _ => none

/-- The character of a two-character escape `\e`. -/
def unescape (e : Char) : Option Char :=
  if e = '"' then some '"'
  else if e = '\\' then some '\\'
  else if e = '/' then some '/'
  else if e = 'b' then some '\x08'
  else if e = 'f' then some '\x0c'
  else if e = 'n' then some '\n'
  else if e = 'r' then some '\r'
  else if e = 't' then some '\t'
  else none

/-- Read a string literal after its opening quote: its characters and what
follows the closing quote. -/
def readString : List Char → Option (List Char × List Char)
  | [] => none
  | c :: cs =>
    if c = '"' then some ([], cs)
    else if c = '\\' then
      match cs with
      | [] => none
      | e :: cs1 =>
        if e = 'u' then
          match cs1 with
          | a :: b :: x :: y :: cs2 =>
            match hex4 a b x y, readString cs2 with
            | some ch, some (body, rest) => some (ch :: body, rest)
            | _, _ => none
          | _ => none
        else
          match unescape e, readString cs1 with
          | some ch, some (body, rest) => some (ch :: body, rest)
          | _, _ => none
    else if c.toNat < 32 then none
    else
      match readString cs with
      | some (body, rest) => some (c :: body, rest)
      | none => none

/-- Strip the literal `word` from the front. -/
def expect : List Char → List Char → Option (List Char)
  | [], cs => some cs
  | _ :: _, [] => none
  | w :: ws, c :: cs => if w = c then expect ws cs else none

mutual
/-- Read one JSON value; `fuel` bounds the nesting of calls. -/
def readValue : Nat → List Char → Option (JsVal × List Char)
  | 0, _ => none
  | fuel + 1, cs =>
    match skipWs cs with
    | [] => none
    | c :: rest =>
      if c = 'n' then (expect ['u', 'l', 'l'] rest).map fun r => (JsVal.null, r)
      else if c = 't' then (expect ['r', 'u', 'e'] rest).map fun r => (JsVal.bool true, r)
      else if c = 'f' then
        (expect ['a', 'l', 's', 'e'] rest).map fun r => (JsVal.bool false, r)
      else if c = '"' then
        (readString rest).map fun p => (JsVal.str (String.mk p.1), p.2)
      else if c = '[' then
        match skipWs rest with
        | ']' :: r => some (JsVal.arr [], r)
        | r => (readElems fuel r).map fun p => (JsVal.arr p.1, p.2)
      else if c = '{' then
        match skipWs rest with
        | '}' :: r => some (JsVal.obj [], r)
        | r => (readMembers fuel r).map fun p => (JsVal.obj p.1, p.2)
      else if c = '-' then
        (readNat rest).map fun p => (JsVal.num (-(p.1 : Int)), p.2)
      else (readNat (c :: rest)).map fun p => (JsVal.num (p.1 : Int), p.2)
/-- Read the elements of a non-empty array and its closing bracket. -/
def readElems : Nat → List Char → Option (List JsVal × List Char)
  | 0, _ => none
  | fuel + 1, cs =>
    match readValue fuel cs with
    | none => none
    | some (v, r) =>
      match skipWs r with
      | c :: r1 =>
        if c = ',' then (readElems fuel r1).map fun p => (v :: p.1, p.2)
        else if c = ']' then some ([v], r1)
        else none
      | [] => none
/-- Read the members of a non-empty object and its closing brace. -/
def readMembers : Nat → List Char → Option (List (String × JsVal) × List Char)
  | 0, _ => none
  | fuel + 1, cs =>
    match skipWs cs with
    | c :: r =>
      if c = '"' then
        match readString r with
        | none => none
        | some (k, r1) =>
          match skipWs r1 with
          | c1 :: r2 =>
            if c1 = ':' then
              match readValue fuel r2 with
              | none => none
              | some (v, r3) =>
                match skipWs r3 with
                | c2 :: r4 =>
                  if c2 = ',' then
                    (readMembers fuel r4).map fun p => ((String.mk k, v) :: p.1, p.2)
                  else if c2 = '}' then some ([(String.mk k, v)], r4)
                  else none
                | [] => none
            else none
          | [] => none
      else none
    | [] => none
end

/-- `JSON.parse(text)`: the value, or the message of the `SyntaxError`.  A
number literal with a fraction or an exponent, and an escape that denotes a
surrogate code unit, have no value in `JsVal` and are reported as errors. -/
def parse (text : String) : Except String JsVal :=
  match readValue (text.length + 1) text.data with
  | some (v, rest) =>
    match skipWs rest with
    | [] => Except.ok v
    | _ :: _ => Except.error "Unexpected non-whitespace character after JSON"
  | none => Except.error "Unexpected token in JSON"

end JSON

/-! ## Requests, responses and the clock -/

/-- One entry of `reels` in a status body. -/
structure ReelInfo where
  id : Option JsVal
  duration : Option JsVal
  style : Option JsVal
  url : Option JsVal
  thumbnail : Option JsVal
  deriving Repr, Inhabited

/-- The parsed body of `GET /status/<file_id>`: a JSON object whose `reels`,
when present and not `null`, is an array of objects. -/
structure StatusBody where
  status : Option JsVal
  progress : Option JsVal
  message : Option JsVal
  reels : Option (List ReelInfo)
  file_id : Option JsVal
  deriving Repr, Inhabited

/-- How one `fetch` of the status ends. -/
inductive FetchResult where
  /-- The promise of `fetch` rejects with `error.message = msg`. -/
  | networkError (msg : String)
  /-- The response arrives with `response.ok` false and this `response.status`. -/
  | httpError (status : Nat)
  /-- The promise of `response.json()` rejects with `error.message = msg`. -/
  | bodyError (msg : String)
  /-- The response is ok and its body parses to `body`. -/
  | ok (body : StatusBody)
  deriving Repr, Inhabited

/-- One `new Date()`: the two renderings of that instant the code uses. -/
structure Date where
  localeString : String
  isoString : String
  deriving Repr, Inhabited

/-! ## Application state -/

/-- What the code does to its surroundings. -/
inductive Event where
  /-- The callback of timer `timer` runs `fetch` on `/status/<fileId>`. -/
  | statusQuery (timer : Nat) (fileId : String)
  /-- The call `updateProgress(data)` by the callback of `timer`. -/
  | progress (timer : Nat) (data : StatusBody)
  /-- The call `handleGenerationComplete(data)` by the callback of `timer`. -/
  | completed (timer : Nat) (data : StatusBody)
  /-- The call `showError(msg)`. -/
  | error (msg : String)
  /-- The call `showSuccess(msg)`. -/
  | success (msg : String)
  /-- The call `localStorage.setItem("smartMeetingReels", value)`. -/
  | setItem (value : String)
  /-- The call `updateReelsGallery()` that renders the gallery `reels`. -/
  | render (reels : JsVal)
  deriving Repr, Inhabited

/-- The closure of one `setInterval` call in `startStatusCheck`, with the
timer that owns it. -/
structure Loop where
  fileId : String
  checkCount : Nat
  /-- The timer is scheduled: `clearInterval` has not been called on it. -/
  active : Bool
  deriving Repr, Inhabited

/-- The instance of `SmartMeetingAI` with the part of the browser it uses. -/
structure App where
  /-- The field `this.statusCheckInterval`: `null` or a timer id. -/
  statusCheckInterval : Option Nat
  /-- The timers created so far: timer id `k + 1` is entry `k`. -/
  timers : List Loop
  /-- The field `this.reels`. -/
  reels : JsVal
  /-- The value of `localStorage` under `smartMeetingReels`, if any. -/
  storage : Option String
  /-- Whether `#progressSection` is displayed (`block`) or not (`none`). -/
  progressSection : Bool
  /-- Whether `#reelOptions` is displayed. -/
  reelOptions : Bool
  /-- Whether `#reelsGallery` is displayed. -/
  reelsGallery : Bool
  /-- The width of `#progressFill`. -/
  progressFill : String
  /-- The text of `#progressText`. -/
  progressText : String
  /-- The text of `#progressStatus`. -/
  progressStatus : String
  log : List Event
  deriving Repr, Inhabited

/-- The state the constructor leaves before it calls `init`, on a page with
`storage` in `localStorage`. -/
def App.fresh (storage : Option String) : App where
  statusCheckInterval := none
  timers := []
  reels := JsVal.arr []
  storage := storage
  progressSection := false
  reelOptions := false
  reelsGallery := false
  progressFill := ""
  progressText := ""
  progressStatus := ""
  log := []

/-- The value a function call leaves: a state, or the thrown `error.message`
with the state at the throw. -/
abbrev Outcome := Except (String × App) App

/-- Append an event to the log. -/
def App.emit (s : App) (e : Event) : App := { s with log := s.log ++ [e] }

/-- The loop of timer `id`, when that timer was ever created. -/
def App.timer (s : App) : Nat → Option Loop
  | 0 => none
  | k + 1 => s.timers[k]?

/-- Browser `clearInterval(id)`: unschedules that timer, if there is one. -/
def clearInterval (id : Option Nat) (s : App) : App :=
  match id with
  | some (k + 1) =>
    match s.timers[k]? with
    | some l => { s with timers := s.timers.set k { l with active := false } }
    | none => s
  | _ => s

/-- `showError(message)`. -/
def showError (msg : String) (s : App) : App := s.emit (Event.error msg)

/-- `showSuccess(message)`. -/
def showSuccess (msg : String) (s : App) : App := s.emit (Event.success msg)

/-! ## The gallery store -/

/-- `saveReels()`: writes `JSON.stringify(this.reels)` to `localStorage`. -/
def saveReels (s : App) : App :=
  { s with storage := some (JSON.stringify s.reels) }.emit
    (Event.setItem (JSON.stringify s.reels))

/-- `updateReelsGallery()` where it returns: renders the current `this.reels`.
The values of `this.reels` on which the call throws are told apart by
`tryUpdateReelsGallery`. -/
def updateReelsGallery (s : App) : App := s.emit (Event.render s.reels)

/-- `addReelToGallery(reel)`: `this.reels.push(reel)`, then `saveReels()`, then
`updateReelsGallery()`.  `push` exists on arrays only: on any other value of
`this.reels` the call throws a `TypeError` before anything is changed. -/
def addReelToGallery (reel : JsVal) (s : App) : Outcome :=
  match s.reels with
  | JsVal.arr xs =>
    Except.ok (updateReelsGallery (saveReels { s with reels := JsVal.arr (xs ++ [reel]) }))
  | _ => Except.error ("this.reels.push is not a function", s)

/-- `showReelsGallery()`. -/
def showReelsGallery (s : App) : App :=
  updateReelsGallery
    { s with progressSection := false, reelOptions := false, reelsGallery := true }

/-- `loadReels()`: reads `localStorage`; a missing or empty item leaves
`this.reels` alone, a `SyntaxError` of `JSON.parse` resets it to `[]`. -/
def loadReels (s : App) : App :=
  match s.storage with
  | none => s
  | some saved =>
    if saved = "" then s
    else
      match JSON.parse saved with
      | Except.ok v => { s with reels := v }
      | Except.error _ => { s with reels := JsVal.arr [] }

/-- The constructor followed by `init()` on a page with `storage` in
`localStorage`, where it returns: `loadReels()`, then `updateReelsGallery()`.
`App.tryInit` tells the stored values apart on which it throws. -/
def App.init (storage : Option String) : App :=
  updateReelsGallery (loadReels (App.fresh storage))

/-! ## Completion -/

/-- The object literal `reelData` that `handleGenerationComplete` builds for
`reel`; `stamp` is the `new Date()` of `timestamp`, `created` the one of
`created_at`. -/
def reelData (fileId : Option JsVal) (reel : ReelInfo) (stamp created : Date) : JsVal :=
  mkObj
    [("id", reel.id),
     ("file_id", fileId),
     ("name", some (JsVal.str (jsString reel.id ++ " (" ++ stamp.localeString ++ ")"))),
     ("duration", reel.duration),
     ("style", reel.style),
     ("url", reel.url),
     ("thumbnail", reel.thumbnail),
     ("created_at", some (JsVal.str created.isoString))]

/-- The body of `data.reels.forEach(...)` over the reels from position `i` on:
reel `j` reads the clock twice, readings `2 * j` and `2 * j + 1` of `dates`. -/
def forEachReel (dates : Nat → Date) (fileId : Option JsVal) :
    Nat → List ReelInfo → App → Outcome
  | _, [], s => Except.ok s
  | i, reel :: rest, s =>
    match addReelToGallery (reelData fileId reel (dates (2 * i)) (dates (2 * i + 1))) s with
    | Except.ok s1 => forEachReel dates fileId (i + 1) rest s1
    | Except.error e => Except.error e

/-- `handleGenerationComplete(data)`; `dates` are the readings of the clock
during the call. -/
def handleGenerationComplete (dates : Nat → Date) (data : StatusBody) (s : App) : Outcome :=
  let appended : Outcome :=
    match data.reels with
    | some (reel :: rest) => forEachReel dates data.file_id 0 (reel :: rest) s
    | _ => Except.ok s
  match appended with
  | Except.ok s1 =>
    Except.ok
      (showSuccess "All reels generated successfully!"
        (showReelsGallery { s1 with progressSection := false }))
  | Except.error e => Except.error e

/-! ## Polling -/

/-- `updateProgress(data)`. -/
def updateProgress (data : StatusBody) (s : App) : App :=
  let s1 :=
    match data.progress with
    | some p =>
      { s with progressFill := jsString (some p) ++ "%",
               progressText := jsString (some p) ++ "%" }
    | none => s
  if jsTruthy data.message then { s1 with progressStatus := jsString data.message } else s1

/-- The test `v === text` for a property read `v` and a string literal. -/
def strictEq (v : Option JsVal) (text : String) : Bool :=
  match v with
  | some (JsVal.str t) => t == text
  | _ => false

/-- The constant `maxChecks` of `startStatusCheck`. -/
def maxChecks : Nat := 30

/-- The message of the timeout notification. -/
def timeoutMessage : String := "Generation timed out. Please check the status manually."

/-- The two statements that follow `showError` on every failure path: hide
`#progressSection`, show `#reelOptions`. -/
def backToOptions (s : App) : App :=
  { s with progressSection := false, reelOptions := true }

/-- The `try` block of the interval callback of timer `id`, after `fetch` has
ended as `resp`. -/
def tryBlock (dates : Nat → Date) (id : Nat) (resp : FetchResult) (s : App) : Outcome :=
  match resp with
  | FetchResult.networkError msg => Except.error (msg, s)
  | FetchResult.httpError status =>
    Except.error ("Status check failed: " ++ toString status, s)
  | FetchResult.bodyError msg => Except.error (msg, s)
  | FetchResult.ok result =>
    if strictEq result.status "completed" then
      handleGenerationComplete dates result
        ((clearInterval s.statusCheckInterval s).emit (Event.completed id result))
    else if strictEq result.status "failed" then
      Except.ok
        (backToOptions
          (showError ("Generation failed: " ++ jsString result.message)
            (clearInterval s.statusCheckInterval s)))
    else
      Except.ok (updateProgress result (s.emit (Event.progress id result)))

/-- The `catch` block of the interval callback. -/
def catchBlock (msg : String) (s : App) : App :=
  backToOptions
    (showError ("Status check failed: " ++ msg) (clearInterval s.statusCheckInterval s))

/-- The interval callback of timer `id`, whose loop is `l`, when its `fetch`
ends as `resp` before anything else happens on the page: the callback runs
from `checkCount++` to its end in one piece (`beginCallback`, then at once
`resumeCallback`). -/
def statusCallback (dates : Nat → Date) (id : Nat) (l : Loop) (resp : FetchResult)
    (s : App) : App :=
  let checkCount := l.checkCount + 1
  let s1 : App :=
    { s with timers := s.timers.set (id - 1) { l with checkCount := checkCount } }.emit
      (Event.statusQuery id l.fileId)
  let s2 : App :=
    match tryBlock dates id resp s1 with
    | Except.ok s2 => s2
    | Except.error (msg, s2) => catchBlock msg s2
  if checkCount ≥ maxChecks then
    backToOptions
      (showError timeoutMessage (clearInterval s2.statusCheckInterval s2))
  else s2

/-- One period of the timer `id` whose status query is answered within the
period: the browser runs the callback when the timer is scheduled, and does
nothing otherwise. -/
def statusTick (dates : Nat → Date) (id : Nat) (resp : FetchResult) (s : App) : App :=
  match s.timer id with
  | some l => if l.active then statusCallback dates id l resp s else s
  | none => s

/-- `startStatusCheck(fileId)`: clears the recorded timer, then creates the
new one with `checkCount = 0`. -/
def startStatusCheck (fileId : String) (s : App) : App :=
  let s1 :=
    match s.statusCheckInterval with
    | some (k + 1) => clearInterval (some (k + 1)) s
    | _ => s
  { s1 with
    timers := s1.timers ++ [{ fileId := fileId, checkCount := 0, active := true }],
    statusCheckInterval := some (s1.timers.length + 1) }

/-- The state after `n` periods of timer `id`, when the `k`-th period reads the
clock as `clock k` and a query issued in it ends as `responses k` within that
period. -/
def poll (clock : Nat → Nat → Date) (responses : Nat → FetchResult) (id : Nat) :
    Nat → App → App
  | 0, s => s
  | n + 1, s => statusTick (clock (n + 1)) id (responses (n + 1)) (poll clock responses id n s)

/-! ## Observations on the log -/

/-- The status queries issued by timer `id`, counted. -/
def App.queries (s : App) (id : Nat) : Nat :=
  s.log.countP fun e => match e with
    | Event.statusQuery t _ => t == id
    | _ => false

/-- The messages passed to `showError`, oldest first. -/
def App.errors (s : App) : List String :=
  s.log.filterMap fun e => match e with
    | Event.error msg => some msg
    | _ => none

/-- The bodies passed to `handleGenerationComplete`, oldest first. -/
def App.completions (s : App) : List StatusBody :=
  s.log.filterMap fun e => match e with
    | Event.completed _ data => some data
    | _ => none

/-- The bodies passed to `updateProgress`, oldest first. -/
def App.progressCalls (s : App) : List StatusBody :=
  s.log.filterMap fun e => match e with
    | Event.progress _ data => some data
    | _ => none

/-- Whether timer `id` is scheduled. -/
def App.active (s : App) (id : Nat) : Bool :=
  match s.timer id with
  | some l => l.active
  | none => false

/-! ## Vocabulary of the statements -/

/-- The three classes of a status body. -/
inductive StatusClass where
  | completed
  | failed
  | running
  deriving Repr, DecidableEq, Inhabited

/-- The class the `if` chain of the interval callback gives a `status`. -/
def classify (status : Option JsVal) : StatusClass :=
  if strictEq status "completed" then StatusClass.completed
  else if strictEq status "failed" then StatusClass.failed
  else StatusClass.running

/-- A query that succeeds with a status other than `completed` and `failed`. -/
def FetchResult.nonTerminal : FetchResult → Bool
  | FetchResult.ok body => !strictEq body.status "completed" && !strictEq body.status "failed"
  | _ => false

/-- The `error.message` the `catch` block receives when the query fails. -/
def FetchResult.failure : FetchResult → Option String
  | FetchResult.networkError msg => some msg
  | FetchResult.httpError status => some ("Status check failed: " ++ toString status)
  | FetchResult.bodyError msg => some msg
  | FetchResult.ok _ => none

/-- What can happen on the page after `init` when every status query is
answered within its period: a submission starts a loop, or a period of some
timer elapses. -/
inductive Action where
  | start (fileId : String)
  | tick (id : Nat) (dates : Nat → Date) (resp : FetchResult)

/-- The effect of one action. -/
def Action.apply : Action → App → App
  | Action.start fileId, s => startStatusCheck fileId s
  | Action.tick id dates resp, s => statusTick dates id resp s

/-- The effect of a sequence of actions, first action first. -/
def run : List Action → App → App
  | [], s => s
  | a :: rest, s => run rest (a.apply s)

/-- The loop of timer `id` is scheduled with `checkCount = c` on file `f`, and
`this.statusCheckInterval` records it. -/
def Polling (s : App) (id : Nat) (f : String) (c : Nat) : Prop :=
  s.timer id = some { fileId := f, checkCount := c, active := true } ∧
    s.statusCheckInterval = some id

/-! ## Sample data -/

namespace Sample

/-- A status body of a job in progress. -/
def running : StatusBody :=
  { status := some (JsVal.str "running"), progress := some (JsVal.num 40),
    message := some (JsVal.str "Generating reels"), reels := none, file_id := none }

/-- A reel of a completed job. -/
def reel (id url : String) : ReelInfo :=
  { id := some (JsVal.str id), duration := some (JsVal.num 30),
    style := some (JsVal.str "casual"), url := some (JsVal.str url),
    thumbnail := none }

/-- A status body of a completed job with two reels. -/
def done : StatusBody :=
  { status := some (JsVal.str "completed"), progress := some (JsVal.num 100),
    message := none, reels := some [reel "reel_1" "/r/1.mp4", reel "reel_2" "/r/2.mp4"],
    file_id := some (JsVal.str "abc") }

/-- A clock that stands still. -/
def clock : Nat → Nat → Date :=
  fun _ _ => { localeString := "1/5/2026, 10:00:00 AM", isoString := "2026-01-05T10:00:00.000Z" }

/-- A server that always answers `running`. -/
def alwaysRunning : Nat → FetchResult := fun _ => FetchResult.ok running

/-- A server that answers `completed` to query `k` and `running` otherwise. -/
def completesAt (k : Nat) : Nat → FetchResult :=
  fun j => if j = k then FetchResult.ok done else FetchResult.ok running

/-- A server whose query `k` fails with HTTP status 500 and that answers
`running` otherwise. -/
def failsAt (k : Nat) : Nat → FetchResult :=
  fun j => if j = k then FetchResult.httpError 500 else FetchResult.ok running

end Sample

/-- The artifacts `forEachReel` appends, in order, for the reels from position
`i` on. -/
def artifacts (dates : Nat → Date) (fileId : Option JsVal) : Nat → List ReelInfo → List JsVal
  | _, [] => []
  | i, reel :: rest =>
    reelData fileId reel (dates (2 * i)) (dates (2 * i + 1)) :: artifacts dates fileId (i + 1) rest

/-- The artifacts `handleGenerationComplete(data)` appends to the gallery. -/
def StatusBody.artifacts (data : StatusBody) (dates : Nat → Date) : List JsVal :=
  SmartMeetingAI.artifacts dates data.file_id 0 (data.reels.getD [])

/-- Events of the gallery store: a storage write or a render. -/
def Event.isStore : Event → Bool
  | Event.setItem _ => true
  | Event.render _ => true
  | _ => false

/-- The timer whose callback an event belongs to, for the events that carry
one. -/
def Event.source : Event → Option Nat
  | Event.statusQuery t _ => some t
  | Event.progress t _ => some t
  | Event.completed t _ => some t
  | _ => none

/-- The events of the log that belong to the callback of timer `id`. -/
def App.eventsOf (s : App) (id : Nat) : List Event :=
  s.log.filter fun e => match e.source with
    | some t => t == id
    | none => false

/-- The state a call leaves, whether it returns or throws. -/
def Outcome.state : Outcome → App
  | Except.ok s => s
  | Except.error (_, s) => s

/-- What a call that does not touch the timers may do: it keeps the timer
table and `this.statusCheckInterval`, and logs events of no timer. -/
def Quiet (s t : App) : Prop :=
  t.timers = s.timers ∧ t.statusCheckInterval = s.statusCheckInterval ∧
    ∃ L, t.log = s.log ++ L ∧ ∀ e ∈ L, e.source = none

/-- What one period of timer `id` may do: it keeps `this.statusCheckInterval`
and the number of timers, schedules no timer, and logs events of timer `id`
or of no timer. -/
def Stepped (id : Nat) (s t : App) : Prop :=
  t.statusCheckInterval = s.statusCheckInterval ∧ t.timers.length = s.timers.length ∧
    (∀ i, t.active i = true → s.active i = true) ∧
    ∃ L, t.log = s.log ++ L ∧ ∀ e ∈ L, e.source = none ∨ e.source = some id

/-- At most one loop is scheduled, and it is the newest timer, the one
`this.statusCheckInterval` records. -/
def SingleLoop (s : App) : Prop :=
  ∀ id, s.active id = true → id = s.timers.length ∧ s.statusCheckInterval = some id

/-- Whether an event is a status query. -/
def Event.isQuery : Event → Bool
  | Event.statusQuery _ _ => true
  | _ => false

/-- What the part of a callback after its `fetch` may log: no status query. -/
def NoQuery (s t : App) : Prop :=
  ∃ L, t.log = s.log ++ L ∧ ∀ e ∈ L, e.isQuery = false

/-- Successive calls `addReelToGallery(a)` for the artifacts of a list, first
artifact first. -/
def addAll : List JsVal → App → Outcome
  | [], s => Except.ok s
  | a :: rest, s =>
    match addReelToGallery a s with
    | Except.ok s1 => addAll rest s1
    | Except.error e => Except.error e

namespace Sample

/-- A stored text that breaks off inside an object:
`[` + an opening brace + `"id":"reel_1"`. -/
def brokenText : String := "[\x7b\"id\":\"reel_1\""

/-- A stored gallery text with blanks: `[ ` + the object with the one member
`"id":"reel_1"` + ` ]`. -/
def spacedText : String := "[ \x7b\"id\":\"reel_1\"\x7d ]"

/-- The same gallery as `JSON.stringify` writes it, without blanks. -/
def compactText : String := "[\x7b\"id\":\"reel_1\"\x7d]"

/-- Three gallery artifacts. -/
def artifactA : JsVal :=
  reelData (some (JsVal.str "abc")) (reel "reel_1" "/r/1.mp4") (clock 0 0) (clock 0 1)

/-- The second artifact. -/
def artifactB : JsVal :=
  reelData (some (JsVal.str "abc")) (reel "reel_2" "/r/2.mp4") (clock 0 2) (clock 0 3)

/-- The third artifact, with a caption-like name that needs escaping. -/
def artifactC : JsVal :=
  mkObj [("id", some (JsVal.num 3)), ("name", some (JsVal.str "a \"quoted\"\n name")),
    ("tags", some (JsVal.arr [JsVal.bool true, JsVal.null, JsVal.num (-7)]))]

end Sample

/-! ## Reading artifacts -/

/-- The property read `o.key`: `undefined` when `o` is no object or has no
such property. -/
def JsVal.get : JsVal → String → Option JsVal
  | JsVal.obj kvs, key => kvs.lookup key
  | _, _ => none

/-- The template literal of the display name: the id, a blank, and the
timestamp in parentheses. -/
def displayName (id : Option JsVal) (timestamp : String) : String :=
  jsString id ++ " (" ++ timestamp ++ ")"

/-- The `name` of a gallery artifact, when it is a string. -/
def nameOf (artifact : JsVal) : Option String :=
  match artifact.get "name" with
  | some (JsVal.str n) => some n
  | _ => none

/-! ## The page around the reel pipeline -/

/-- A `File` of the file picker: the properties the code reads. -/
structure File where
  name : String
  type : String
  size : Nat
  deriving Repr, Inhabited, DecidableEq

/-- One reel configuration as `generateReels` reads it from the form. -/
structure ReelConfig where
  duration : Int
  style : String
  caption : String
  platforms : List String
  deriving Repr, Inhabited, DecidableEq

/-- The requests the page sends, with what their bodies carry. -/
inductive Request where
  /-- `POST /generate-reels` with `file_id` and `configs`. -/
  | generateReels (fileId : String) (configs : List ReelConfig)
  /-- `POST /generate-transcript` with `file_id`. -/
  | generateTranscript (fileId : JsVal)
  /-- `POST /generate-poster` with `file_id`. -/
  | generatePoster (fileId : JsVal)
  /-- `POST /generate-blog` with `file_id`. -/
  | generateBlog (fileId : JsVal)
  deriving Repr, Inhabited

/-- The `poster` object of a poster response. -/
structure PosterInfo where
  image_url : Option String
  deriving Repr, Inhabited

/-- The `blog` object of a blog response. -/
structure BlogInfo where
  blog_content : Option String
  deriving Repr, Inhabited

/-- The parsed body of a `POST` response: a JSON object. -/
structure ApiBody where
  success : Option JsVal
  message : Option JsVal
  poster : Option PosterInfo
  blog : Option BlogInfo
  deriving Repr, Inhabited

/-- How a `POST` whose `response.ok` the code does not look at ends. -/
inductive Reply where
  /-- The promise of `fetch` rejects with `error.message = msg`. -/
  | networkError (msg : String)
  /-- The promise of `response.json()` rejects with `error.message = msg`. -/
  | bodyError (msg : String)
  /-- The body parses to `body`. -/
  | body (body : ApiBody)
  deriving Repr, Inhabited

/-- How the `POST /generate-reels` ends. -/
inductive SubmitReply where
  /-- The promise of `fetch` rejects with `error.message = msg`. -/
  | networkError (msg : String)
  /-- A response arrives with this `response.ok` and `response.status`;
  `body` is what `response.json()` would give: the parsed body, or the
  `error.message` of its rejection. -/
  | response (ok : Bool) (status : Nat) (body : Except String ApiBody)
  deriving Repr, Inhabited

/-- The `message` of `new Error(v)`: empty when `v` is `undefined`. -/
def errorMessage : Option JsVal → String
  | none => ""
  | some v => jsString (some v)

/-- The instance of `SmartMeetingAI` with the page: the reel pipeline of `App`
and what file selection, submission and the poster and blog pipelines use. -/
structure Page extends App where
  /-- The field `this.currentFile`. -/
  currentFile : Option File
  /-- The field `this.isProcessing`. -/
  isProcessing : Bool
  /-- The field `this.posterBlogFileId`. -/
  posterBlogFileId : Option JsVal
  /-- The attribute `data-file-id` of `#generateBtn`. -/
  generateFileId : Option String
  /-- The property `disabled` of `#uploadBtn`. -/
  uploadBtnDisabled : Bool
  /-- Whether `#filePreview` is displayed. -/
  filePreview : Bool
  /-- Whether `#uploadZone` is displayed. -/
  uploadZone : Bool
  /-- The text of `#fileName`. -/
  fileName : String
  /-- Whether `#loadingOverlay` is displayed. -/
  loadingOverlay : Bool
  /-- Whether `#posterSection` is displayed. -/
  posterSection : Bool
  /-- The `src` of `#posterImage`, once set. -/
  posterImage : Option String
  /-- Whether `#blogSection` is displayed. -/
  blogSection : Bool
  /-- The HTML of `#blogContent`, once set. -/
  blogContent : Option String
  /-- The requests sent so far, oldest first. -/
  requests : List Request
  deriving Repr, Inhabited

/-- The page after the constructor and `init`, before any file is chosen. -/
def Page.init (storage : Option String) : Page where
  toApp := App.init storage
  currentFile := none
  isProcessing := false
  posterBlogFileId := none
  generateFileId := none
  uploadBtnDisabled := true
  filePreview := false
  uploadZone := true
  fileName := ""
  loadingOverlay := false
  posterSection := false
  posterImage := none
  blogSection := false
  blogContent := none
  requests := []

/-- The value a call on the page leaves: a page, or the thrown
`error.message` with the page at the throw. -/
abbrev PageOutcome := Except (String × Page) Page

/-- A `fetch` is started. -/
def Page.send (p : Page) (r : Request) : Page := { p with requests := p.requests ++ [r] }

/-- `showError(message)` on the page. -/
def Page.showError (msg : String) (p : Page) : Page :=
  { p with toApp := SmartMeetingAI.showError msg p.toApp }

/-- `showSuccess(message)` on the page. -/
def Page.showSuccess (msg : String) (p : Page) : Page :=
  { p with toApp := SmartMeetingAI.showSuccess msg p.toApp }

/-- `showLoading(show)`. -/
def showLoading (visible : Bool) (p : Page) : Page := { p with loadingOverlay := visible }

/-! ## File selection -/

/-- The list `allowedTypes` of `validateFile`. -/
def allowedTypes : List String :=
  ["video/mp4", "video/avi", "video/mov", "video/mkv", "video/wmv", "video/flv", "video/webm"]

/-- The list `allowedExtensions` of `validateFile`. -/
def allowedExtensions : List String :=
  [".mp4", ".avi", ".mov", ".mkv", ".wmv", ".flv", ".webm"]

/-- `validateFile(file)`; `toLowerCase` is the string method of that name. -/
def validateFile (toLowerCase : String → String) (file : File) : Bool :=
  let isValidType := allowedTypes.contains file.type
  let fileName := toLowerCase file.name
  let isValidExtension := allowedExtensions.any fun ext => ext.data.isSuffixOf fileName.data
  isValidType || isValidExtension

/-- The constant `maxSize` of `handleFileSelect`: `2 * 1024 * 1024 * 1024`. -/
def maxSize : Nat := 2 * 1024 * 1024 * 1024

/-- The message of the file type error. -/
def typeError : String :=
  "Please select a valid video file (MP4, AVI, MOV, MKV, WMV, FLV, WEBM)"

/-- The message of the file size error. -/
def sizeError : String := "File size must be less than 2GB"

/-- `showFilePreview(file)`: the name is shown, the preview replaces the
upload zone (the size text, a floating-point rendering, is left out). -/
def showFilePreview (file : File) (p : Page) : Page :=
  { p with fileName := file.name, filePreview := true, uploadZone := false }

/-- `handleFileSelect(file)`; `none` is a missing file. -/
def handleFileSelect (toLowerCase : String → String) (file : Option File) (p : Page) : Page :=
  match file with
  | none => p
  | some file =>
    if !validateFile toLowerCase file then p.showError typeError
    else if file.size > maxSize then p.showError sizeError
    else
      Page.showSuccess ("File \"" ++ file.name ++ "\" selected successfully!")
        { showFilePreview file { p with currentFile := some file } with
          uploadBtnDisabled := false }

/-! ## Batch submission -/

/-- `generateReels()`; `configs` is what the loop over the form collects and
`reply` how the `POST /generate-reels` ends. -/
def generateReels (configs : List ReelConfig) (reply : SubmitReply) (p : Page) : Page :=
  match p.generateFileId with
  | none => p
  | some fileId =>
    if fileId = "" then p
    else
      let p1 : Page :=
        { p with isProcessing := true, progressSection := true, reelOptions := false,
                 reelsGallery := false }
      let p2 := p1.send (Request.generateReels fileId configs)
      let tried : PageOutcome :=
        match reply with
        | SubmitReply.networkError msg => Except.error (msg, p2)
        | SubmitReply.response ok status body =>
          if !ok then Except.error ("Generation failed: " ++ toString status, p2)
          else
            match body with
            | Except.error msg => Except.error (msg, p2)
            | Except.ok result =>
              if jsTruthy result.success then
                Except.ok
                  (Page.showSuccess "Reel generation started!"
                    { p2 with toApp := startStatusCheck fileId p2.toApp })
              else
                Except.error
                  (if jsTruthy result.message then jsString result.message
                    else "Generation failed", p2)
      let p3 : Page :=
        match tried with
        | Except.ok q => q
        | Except.error (msg, q) =>
          { Page.showError ("Generation failed: " ++ msg) q with
            progressSection := false, reelOptions := true }
      { p3 with isProcessing := false }

/-! ## Poster and blog -/

/-- `showPoster(poster)`: reading `poster.image_url` throws when the response
had no `poster` object. -/
def showPoster (poster : Option PosterInfo) (p : Page) : PageOutcome :=
  let p1 : Page := { p with posterSection := true }
  match poster with
  | none => Except.error ("Cannot read properties of undefined (reading 'image_url')", p1)
  | some info =>
    match info.image_url with
    | some url => if url = "" then Except.ok p1 else Except.ok { p1 with posterImage := some url }
    | none => Except.ok p1

/-- The method call `replace(/\n/g, "<br>")`. -/
def breakLines : List Char → List Char
  | [] => []
  | c :: cs => if c = '\n' then "<br>".data ++ breakLines cs else c :: breakLines cs

/-- `showBlog(blog)`: reading `blog.blog_content` throws when the response had
no `blog` object. -/
def showBlog (blog : Option BlogInfo) (p : Page) : PageOutcome :=
  let p1 : Page := { p with blogSection := true }
  match blog with
  | none => Except.error ("Cannot read properties of undefined (reading 'blog_content')", p1)
  | some info =>
    match info.blog_content with
    | some text =>
      if text = "" then Except.ok p1
      else Except.ok { p1 with blogContent := some (String.mk (breakLines text.data)) }
    | none => Except.ok p1

/-- The body of the `try` block shared by `handleGeneratePoster` and
`handleGenerateBlog`: the transcript request, then the dependent request
`dependent`, then `display` on its body. -/
def transcriptThen (fileId : JsVal) (dependent : Request)
    (display : ApiBody → Page → PageOutcome) (transcript reply : Reply) (p : Page) :
    PageOutcome :=
  let p1 := p.send (Request.generateTranscript fileId)
  match transcript with
  | Reply.networkError msg => Except.error (msg, p1)
  | Reply.bodyError msg => Except.error (msg, p1)
  | Reply.body transcriptData =>
    if !jsTruthy transcriptData.success then
      Except.error (errorMessage transcriptData.message, p1)
    else
      let p2 := p1.send dependent
      match reply with
      | Reply.networkError msg => Except.error (msg, p2)
      | Reply.bodyError msg => Except.error (msg, p2)
      | Reply.body data =>
        if !jsTruthy data.success then Except.error (errorMessage data.message, p2)
        else display data p2

/-- `handleGeneratePoster()`; `transcript` is how the transcript request ends
and `poster` how the poster request ends, if it is sent. -/
def handleGeneratePoster (transcript poster : Reply) (p : Page) : Page :=
  match p.posterBlogFileId with
  | none => p
  | some fileId =>
    if !fileId.truthy then p
    else
      let tried :=
        transcriptThen fileId (Request.generatePoster fileId)
          (fun data q =>
            match showPoster data.poster q with
            | Except.ok q1 => Except.ok (Page.showSuccess "Poster generated successfully!" q1)
            | Except.error e => Except.error e)
          transcript poster (showLoading true p)
      let p1 : Page :=
        match tried with
        | Except.ok q => q
        | Except.error (msg, q) => Page.showError ("Poster generation failed: " ++ msg) q
      showLoading false p1

/-- `handleGenerateBlog()`; `transcript` is how the transcript request ends
and `blog` how the blog request ends, if it is sent. -/
def handleGenerateBlog (transcript blog : Reply) (p : Page) : Page :=
  match p.posterBlogFileId with
  | none => p
  | some fileId =>
    if !fileId.truthy then p
    else
      let tried :=
        transcriptThen fileId (Request.generateBlog fileId)
          (fun data q =>
            match showBlog data.blog q with
            | Except.ok q1 =>
              Except.ok (Page.showSuccess "Blog article generated successfully!" q1)
            | Except.error e => Except.error e)
          transcript blog (showLoading true p)
      let p1 : Page :=
        match tried with
        | Except.ok q => q
        | Except.error (msg, q) => Page.showError ("Blog generation failed: " ++ msg) q
      showLoading false p1

/-- Whether the reply of a step reports success: a body with truthy `success`. -/
def Reply.succeeded : Reply → Bool
  | Reply.body data => jsTruthy data.success
  | _ => false

/-- The `error.message` thrown by a step whose reply does not report success. -/
def Reply.failureMessage : Reply → String
  | Reply.networkError msg => msg
  | Reply.bodyError msg => msg
  | Reply.body data => errorMessage data.message

/-- Whether a submission reply is a failure: anything but an ok response
whose body parses and has a truthy `success`. -/
def SubmitReply.failed : SubmitReply → Bool
  | SubmitReply.response true _ (Except.ok result) => !jsTruthy result.success
  | _ => true

/-- The `error.message` the `catch` block of `generateReels` receives on a
failed submission. -/
def SubmitReply.failureMessage : SubmitReply → String
  | SubmitReply.networkError msg => msg
  | SubmitReply.response false status _ => "Generation failed: " ++ toString status
  | SubmitReply.response true _ (Except.error msg) => msg
  | SubmitReply.response true _ (Except.ok result) =>
    if jsTruthy result.message then jsString result.message else "Generation failed"

namespace Sample

/-- A completed payload whose two reels have the same id. -/
def twins : StatusBody :=
  { status := some (JsVal.str "completed"), progress := some (JsVal.num 100),
    message := none, reels := some [reel "reel_1" "/r/1.mp4", reel "reel_1" "/r/1b.mp4"],
    file_id := some (JsVal.str "abc") }

end Sample

/-- The page a call leaves, whether it returns or throws. -/
def PageOutcome.page : PageOutcome → Page
  | Except.ok p => p
  | Except.error (_, p) => p

/-- The messages passed to `showError` on the page, oldest first. -/
def Page.errors (p : Page) : List String := p.toApp.errors

namespace Sample

/-- A page on which an upload has set the file id `abc` for the poster and
blog buttons and for the generate button. -/
def uploaded : Page :=
  { Page.init none with
    posterBlogFileId := some (JsVal.str "abc"), generateFileId := some "abc",
    reelOptions := true }

/-- A body that reports success. -/
def okBody : ApiBody :=
  { success := some (JsVal.bool true), message := none,
    poster := some { image_url := some "/static/posters/abc.jpg" },
    blog := some { blog_content := some "Title\nText" } }

/-- A body that reports failure with a message. -/
def failBody : ApiBody :=
  { success := some (JsVal.bool false), message := some (JsVal.str "No audio track"),
    poster := none, blog := none }

/-- One reel configuration. -/
def config : ReelConfig :=
  { duration := 30, style := "casual", caption := "", platforms := ["instagram"] }

/-- A video file of exactly `2 * 1024 * 1024 * 1024` bytes. -/
def twoGigabytes : File := { name := "meeting.mp4", type := "video/mp4", size := 2147483648 }

/-- Lower case of the letters `A` to `Z`, other characters unchanged. -/
def asciiLower (s : String) : String := String.mk (s.data.map Char.toLower)

end Sample

/-! ## The interval callback and its `await` -/

/-- The interval callback of timer `id`, whose loop is `l`, up to its first
`await`: `checkCount++`, then `fetch` issues the status query.  There the
callback is suspended, and the timer runs on. -/
def beginCallback (id : Nat) (l : Loop) (s : App) : App :=
  { s with timers := s.timers.set (id - 1) { l with checkCount := l.checkCount + 1 } }.emit
    (Event.statusQuery id l.fileId)

/-- The variable `checkCount` in the closure of timer `id`. -/
def App.checkCount (s : App) (id : Nat) : Nat :=
  match s.timer id with
  | some l => l.checkCount
  | none => 0

/-- The interval callback of timer `id` from the moment its status query has
ended as `resp`: the rest of the `try` block, the `catch` block, then the test
of `checkCount`.  It runs on the page as it is at that moment, whether or not
the timer is still scheduled: `this.statusCheckInterval`, and `checkCount`,
which all callbacks of one timer share, are read then. -/
def resumeCallback (dates : Nat → Date) (id : Nat) (resp : FetchResult) (s : App) : App :=
  let s2 : App :=
    match tryBlock dates id resp s with
    | Except.ok s2 => s2
    | Except.error (msg, s2) => catchBlock msg s2
  if s2.checkCount id ≥ maxChecks then
    backToOptions
      (showError timeoutMessage (clearInterval s2.statusCheckInterval s2))
  else s2

/-- The page together with the interval callbacks suspended at their `await`:
`waiting` holds the timer of each status query that has no answer yet. -/
structure Browser where
  app : App
  waiting : List Nat
  deriving Repr, Inhabited

/-- The page after the constructor: no status query is under way. -/
def Browser.load (storage : Option String) : Browser :=
  { app := App.init storage, waiting := [] }

/-- What happens on the page after `init`, one entry of the event loop each. -/
inductive Happening where
  /-- A submission calls `startStatusCheck(fileId)`. -/
  | start (fileId : String)
  /-- A period of timer `id` elapses: the browser calls the callback when the
  timer is scheduled, and the callback runs up to its `await`. -/
  | period (id : Nat)
  /-- The status query of a suspended callback of timer `id` ends as `resp`,
  and that callback runs to its end; `dates` are the readings of the clock
  meanwhile. -/
  | answer (id : Nat) (dates : Nat → Date) (resp : FetchResult)

/-- The effect of one happening. -/
def Happening.apply : Happening → Browser → Browser
  | Happening.start fileId, b => { b with app := startStatusCheck fileId b.app }
  | Happening.period id, b =>
    match b.app.timer id with
    | some l =>
      if l.active then { app := beginCallback id l b.app, waiting := b.waiting ++ [id] } else b
    | none => b
  | Happening.answer id dates resp, b =>
    if b.waiting.contains id then
      { app := resumeCallback dates id resp b.app, waiting := b.waiting.erase id }
    else b

/-- The effect of a sequence of happenings, first one first. -/
def happen : List Happening → Browser → Browser
  | [], b => b
  | h :: rest, b => happen rest (h.apply b)

/-- The schedule on which every status query of timer `id` is answered within
the period it is issued in, for the first `n` periods: the query of period `k`
ends as `responses k`, and `clock k` are the readings of the clock while its
answer is handled. -/
def inPeriod (clock : Nat → Nat → Date) (responses : Nat → FetchResult) (id : Nat) :
    Nat → List Happening
  | 0 => []
  | n + 1 =>
    inPeriod clock responses id n
      ++ [Happening.period id, Happening.answer id (clock (n + 1)) (responses (n + 1))]

namespace Sample

/-- A status query of timer 1 ends as `resp`. -/
def answers (resp : FetchResult) : Happening := Happening.answer 1 (clock 0) resp

/-- A server that always answers `running`: the first twenty-nine answers
arrive within the period of their query, the thirtieth takes longer than a
period, so that the thirty-first period elapses before it. -/
def lateThirtieth : List Happening :=
  Happening.start "abc" :: (inPeriod clock alwaysRunning 1 29 ++
    [Happening.period 1, Happening.period 1,
      answers (FetchResult.ok running), answers (FetchResult.ok running)])

/-- A server that answers `running` twice, within the period of the query, and
`completed` from the third query on; the third answer takes longer than a
period. -/
def lateCompletion : List Happening :=
  Happening.start "abc" :: (inPeriod clock alwaysRunning 1 2 ++
    [Happening.period 1, Happening.period 1,
      answers (FetchResult.ok done), answers (FetchResult.ok done)])

/-- A server that answers `running` once, within the period of the query; the
second query fails with HTTP status 500 after more than a period, and the
third query ends as `third`. -/
def lateFailure (third : FetchResult) : List Happening :=
  Happening.start "abc" :: (inPeriod clock alwaysRunning 1 1 ++
    [Happening.period 1, Happening.period 1,
      answers (FetchResult.httpError 500), answers third])

/-- A second submission arrives while the first status query of the first loop
has no answer yet; the answer, which ends as `resp`, arrives afterwards. -/
def overtaken (resp : FetchResult) : List Happening :=
  [Happening.start "abc", Happening.period 1, Happening.start "xyz", answers resp]

/-- A second submission arrives while two status queries of the first loop
have no answer yet; both are answered `running` afterwards. -/
def overtakenTwice : List Happening :=
  [Happening.start "abc", Happening.period 1, Happening.period 1, Happening.start "xyz",
    answers (FetchResult.ok running), answers (FetchResult.ok running)]

end Sample

/-! ## The constructor on any stored value -/

/-- Whether a value is `null`. -/
def JsVal.isNull : JsVal → Bool
  | JsVal.null => true
  | _ => false

/-- `updateReelsGallery()` on any value of `this.reels`, with the `TypeError`
it throws where `updateReelsGallery` above renders: the read
`this.reels.length` throws on `null`; unless that length is `0`,
`this.reels.forEach` is called, which only an array has; and
`createReelCard(reel)` reads `reel.thumbnail`, which throws on a reel that is
`null`.  Cards of other reels are taken to render. -/
def tryUpdateReelsGallery (s : App) : Outcome :=
  match s.reels with
  | JsVal.null => Except.error ("Cannot read properties of null (reading 'length')", s)
  | JsVal.arr xs =>
    if xs.any JsVal.isNull then
      Except.error ("Cannot read properties of null (reading 'thumbnail')", s)
    else Except.ok (updateReelsGallery s)
  | JsVal.str t =>
    if t = "" then Except.ok (updateReelsGallery s)
    else Except.error ("this.reels.forEach is not a function", s)
  | JsVal.obj kvs =>
    match (JsVal.obj kvs).get "length" with
    | some (JsVal.num 0) => Except.ok (updateReelsGallery s)
    | _ => Except.error ("this.reels.forEach is not a function", s)
  | _ => Except.error ("this.reels.forEach is not a function", s)

/-- The constructor followed by `init()` on a page with `storage` in
`localStorage`, with the error that escapes it, if any: `loadReels()`, then
`updateReelsGallery()`. -/
def App.tryInit (storage : Option String) : Outcome :=
  tryUpdateReelsGallery (loadReels (App.fresh storage))

/-! ## Frame lemmas -/

@[simp] theorem emit_log (s : App) (e : Event) : (s.emit e).log = s.log ++ [e] := rfl
@[simp] theorem emit_timers (s : App) (e : Event) : (s.emit e).timers = s.timers := rfl
@[simp] theorem emit_interval (s : App) (e : Event) :
    (s.emit e).statusCheckInterval = s.statusCheckInterval := rfl
@[simp] theorem emit_reels (s : App) (e : Event) : (s.emit e).reels = s.reels := rfl
@[simp] theorem emit_storage (s : App) (e : Event) : (s.emit e).storage = s.storage := rfl

@[simp] theorem timer_zero (s : App) : s.timer 0 = none := rfl
@[simp] theorem timer_succ (s : App) (k : Nat) : s.timer (k + 1) = s.timers[k]? := rfl

@[simp] theorem clearInterval_log (i : Option Nat) (s : App) :
    (clearInterval i s).log = s.log := by
  unfold clearInterval; split
  · split <;> rfl
  · rfl

@[simp] theorem clearInterval_interval (i : Option Nat) (s : App) :
    (clearInterval i s).statusCheckInterval = s.statusCheckInterval := by
  unfold clearInterval; split
  · split <;> rfl
  · rfl

@[simp] theorem clearInterval_reels (i : Option Nat) (s : App) :
    (clearInterval i s).reels = s.reels := by
  unfold clearInterval; split
  · split <;> rfl
  · rfl

@[simp] theorem clearInterval_storage (i : Option Nat) (s : App) :
    (clearInterval i s).storage = s.storage := by
  unfold clearInterval; split
  · split <;> rfl
  · rfl

@[simp] theorem clearInterval_length (i : Option Nat) (s : App) :
    (clearInterval i s).timers.length = s.timers.length := by
  unfold clearInterval; split
  · split <;> simp
  · rfl

/-- After `clearInterval`, a timer is scheduled exactly when it was scheduled
before and is not the cleared one. -/
theorem clearInterval_active (i : Option Nat) (s : App) (id : Nat) :
    (clearInterval i s).active id = (s.active id && decide (i ≠ some id)) := by
  cases id with
  | zero =>
    simp [App.active]
  | succ k =>
    unfold clearInterval
    split
    · rename_i j
      split
      · rename_i l hl
        by_cases hjk : j = k
        · subst hjk
          have hlt : j < s.timers.length := by
            rcases List.getElem?_eq_some.1 hl with ⟨h, _⟩; exact h
          simp [App.active, List.getElem?_set, hlt]
        · have : ¬ (j + 1 = k + 1) := by omega
          simp [App.active, List.getElem?_set, hjk, this]
      · rename_i hl
        by_cases hjk : j = k
        · subst hjk
          simp [App.active, hl]
        · have : ¬ (j + 1 = k + 1) := by omega
          simp [App.active, this]
    · rename_i h
      have : i ≠ some (k + 1) := fun e => h k e
      simp [this]

@[simp] theorem showError_log (m : String) (s : App) :
    (showError m s).log = s.log ++ [Event.error m] := rfl
@[simp] theorem showError_timers (m : String) (s : App) : (showError m s).timers = s.timers := rfl
@[simp] theorem showError_interval (m : String) (s : App) :
    (showError m s).statusCheckInterval = s.statusCheckInterval := rfl
@[simp] theorem showError_reels (m : String) (s : App) : (showError m s).reels = s.reels := rfl
@[simp] theorem showError_storage (m : String) (s : App) :
    (showError m s).storage = s.storage := rfl

@[simp] theorem backToOptions_log (s : App) : (backToOptions s).log = s.log := rfl
@[simp] theorem backToOptions_timers (s : App) : (backToOptions s).timers = s.timers := rfl
@[simp] theorem backToOptions_interval (s : App) :
    (backToOptions s).statusCheckInterval = s.statusCheckInterval := rfl
@[simp] theorem backToOptions_reels (s : App) : (backToOptions s).reels = s.reels := rfl
@[simp] theorem backToOptions_storage (s : App) : (backToOptions s).storage = s.storage := rfl

@[simp] theorem updateProgress_log (d : StatusBody) (s : App) :
    (updateProgress d s).log = s.log := by
  unfold updateProgress; split <;> split <;> rfl
@[simp] theorem updateProgress_timers (d : StatusBody) (s : App) :
    (updateProgress d s).timers = s.timers := by
  unfold updateProgress; split <;> split <;> rfl
@[simp] theorem updateProgress_interval (d : StatusBody) (s : App) :
    (updateProgress d s).statusCheckInterval = s.statusCheckInterval := by
  unfold updateProgress; split <;> split <;> rfl
@[simp] theorem updateProgress_reels (d : StatusBody) (s : App) :
    (updateProgress d s).reels = s.reels := by
  unfold updateProgress; split <;> split <;> rfl
@[simp] theorem updateProgress_storage (d : StatusBody) (s : App) :
    (updateProgress d s).storage = s.storage := by
  unfold updateProgress; split <;> split <;> rfl

theorem active_eq (s : App) (id : Nat) : s.active id = ((s.timer id).map (·.active)).getD false := by
  unfold App.active; cases s.timer id <;> rfl

/-- A timer that is not scheduled does not run its callback. -/
theorem statusTick_inactive (dates : Nat → Date) (id : Nat) (resp : FetchResult) (s : App)
    (h : s.active id = false) : statusTick dates id resp s = s := by
  unfold statusTick
  unfold App.active at h
  cases ht : s.timer id with
  | none => rfl
  | some l => simp [ht] at h; simp [h]

theorem poll_inactive (clock : Nat → Nat → Date) (responses : Nat → FetchResult) (id : Nat)
    (s : App) (h : s.active id = false) (n : Nat) : poll clock responses id n s = s := by
  induction n with
  | zero => rfl
  | succ n ih => simp [poll, ih, statusTick_inactive _ _ _ _ h]

theorem poll_add (clock : Nat → Nat → Date) (responses : Nat → FetchResult) (id : Nat)
    (s : App) (n m : Nat) :
    poll clock responses id (n + m) s
      = poll (fun k => clock (n + k)) (fun k => responses (n + k)) id m
          (poll clock responses id n s) := by
  induction m with
  | zero => rfl
  | succ m ih => simp [poll, ← Nat.add_assoc, ih]

/-- Once the timer is unscheduled after `k` periods, later periods change nothing. -/
theorem poll_stopped (clock : Nat → Nat → Date) (responses : Nat → FetchResult) (id : Nat)
    (s : App) (k n : Nat) (hkn : k ≤ n)
    (h : (poll clock responses id k s).active id = false) :
    poll clock responses id n s = poll clock responses id k s := by
  obtain ⟨m, rfl⟩ := Nat.exists_eq_add_of_le hkn
  rw [poll_add, poll_inactive _ _ _ _ h]

theorem polling_pos {s : App} {id : Nat} {f : String} {c : Nat} (h : Polling s id f c) :
    ∃ k, id = k + 1 ∧ s.timers[k]? = some { fileId := f, checkCount := c, active := true } := by
  cases id with
  | zero => simp [Polling] at h
  | succ k => exact ⟨k, rfl, h.1⟩

theorem statusTick_polling {s : App} {id : Nat} {f : String} {c : Nat} (h : Polling s id f c)
    (dates : Nat → Date) (resp : FetchResult) :
    statusTick dates id resp s
      = statusCallback dates id { fileId := f, checkCount := c, active := true } resp s := by
  simp [statusTick, h.1]

theorem nonTerminal_ok {body : StatusBody} (hb : (FetchResult.ok body).nonTerminal = true) :
    strictEq body.status "completed" = false ∧ strictEq body.status "failed" = false := by
  simpa [FetchResult.nonTerminal] using hb

/-- The callback on a non-terminal body: the query, `updateProgress`, and the
timeout block when the count reaches `maxChecks`. -/
theorem step_running {s : App} {id : Nat} {f : String} {c : Nat} (h : Polling s id f c)
    (dates : Nat → Date) {body : StatusBody}
    (hb : (FetchResult.ok body).nonTerminal = true) :
    (statusTick dates id (FetchResult.ok body) s).log
        = s.log ++ [Event.statusQuery id f, Event.progress id body]
            ++ (if c + 1 < 30 then [] else [Event.error timeoutMessage]) ∧
      (statusTick dates id (FetchResult.ok body) s).timer id
        = some { fileId := f, checkCount := c + 1, active := decide (c + 1 < 30) } ∧
      (statusTick dates id (FetchResult.ok body) s).statusCheckInterval = some id ∧
      (statusTick dates id (FetchResult.ok body) s).reels = s.reels ∧
      (statusTick dates id (FetchResult.ok body) s).storage = s.storage := by
  rw [statusTick_polling h]
  obtain ⟨k, rfl, hk⟩ := polling_pos h
  obtain ⟨h1, h2⟩ := nonTerminal_ok hb
  have hlt : k < s.timers.length := (List.getElem?_eq_some.1 hk).1
  have hi := h.2
  by_cases hc : c + 1 < 30
  · have hc' : ¬ (c + 1 ≥ maxChecks) := by simp [maxChecks]; omega
    simp [statusCallback, tryBlock, h1, h2, hc, hc', hi, hlt]
  · have hc' : c + 1 ≥ maxChecks := by simp [maxChecks]; omega
    simp [statusCallback, tryBlock, h1, h2, hc, hc', hi, hlt, clearInterval]

/-! ## The polling loop -/

/-- `startStatusCheck` leaves the new loop scheduled and recorded, and touches
neither the log nor the gallery. -/
theorem startStatusCheck_polling (f : String) (s : App) :
    Polling (startStatusCheck f s) (s.timers.length + 1) f 0 ∧
      (startStatusCheck f s).log = s.log ∧
      (startStatusCheck f s).reels = s.reels ∧
      (startStatusCheck f s).storage = s.storage ∧
      (startStatusCheck f s).timers.length = s.timers.length + 1 := by
  unfold startStatusCheck Polling
  split <;> simp

/-- While fewer than `maxChecks` periods have elapsed and every response was
non-terminal, the loop is still scheduled and has only queried and reported
progress. -/
theorem poll_running {s : App} {id : Nat} {f : String} (h0 : Polling s id f 0)
    (clock : Nat → Nat → Date) (responses : Nat → FetchResult) (n : Nat) (hn : n < 30)
    (hr : ∀ k, 1 ≤ k → k ≤ n → (responses k).nonTerminal = true) :
    Polling (poll clock responses id n s) id f n ∧
      (poll clock responses id n s).queries id = s.queries id + n ∧
      (poll clock responses id n s).errors = s.errors ∧
      (poll clock responses id n s).completions = s.completions ∧
      (poll clock responses id n s).progressCalls.length = s.progressCalls.length + n ∧
      (poll clock responses id n s).reels = s.reels ∧
      (poll clock responses id n s).storage = s.storage := by
  induction n with
  | zero => exact ⟨h0, rfl, rfl, rfl, rfl, rfl, rfl⟩
  | succ n ih =>
    obtain ⟨hp, hq, he, hc, hpc, hre, hst⟩ :=
      ih (by omega) (fun k h1 h2 => hr k h1 (by omega))
    have hnt := hr (n + 1) (by omega) (by omega)
    cases hresp : responses (n + 1) with
    | ok body =>
      rw [hresp] at hnt
      obtain ⟨hl, ht, hi, hr', hs'⟩ := step_running hp (clock (n + 1)) hnt
      have hlt : n + 1 < 30 := hn
      simp only [hlt, if_true, List.append_nil, decide_True] at hl ht
      simp only [poll, hresp]
      refine ⟨⟨ht, hi⟩, ?_, ?_, ?_, ?_, ?_, ?_⟩
      · simp [App.queries, hl, List.countP_append, List.countP_cons] at hq ⊢
        omega
      · simp [App.errors, hl, List.filterMap_append] at he ⊢
        exact he
      · simp [App.completions, hl, List.filterMap_append] at hc ⊢
        exact hc
      · simp [App.progressCalls, hl, List.filterMap_append] at hpc ⊢
        omega
      · rw [hr', hre]
      · rw [hs', hst]
    | networkError m => rw [hresp] at hnt; simp [FetchResult.nonTerminal] at hnt
    | httpError m => rw [hresp] at hnt; simp [FetchResult.nonTerminal] at hnt
    | bodyError m => rw [hresp] at hnt; simp [FetchResult.nonTerminal] at hnt

/-- The thirtieth period on a non-terminal body: the query, `updateProgress`,
then the timeout block, which unschedules the timer. -/
theorem poll_thirty_running {s : App} {id : Nat} {f : String} (h0 : Polling s id f 0)
    (clock : Nat → Nat → Date) (responses : Nat → FetchResult)
    (hr : ∀ k, 1 ≤ k → k ≤ 30 → (responses k).nonTerminal = true) :
    (poll clock responses id 30 s).active id = false ∧
      (poll clock responses id 30 s).queries id = s.queries id + 30 ∧
      (poll clock responses id 30 s).errors = s.errors ++ [timeoutMessage] ∧
      (poll clock responses id 30 s).completions = s.completions ∧
      (poll clock responses id 30 s).reels = s.reels ∧
      (poll clock responses id 30 s).storage = s.storage := by
  obtain ⟨hp, hq, he, hc, -, hre, hst⟩ :=
    poll_running h0 clock responses 29 (by omega) (fun k h1 h2 => hr k h1 (by omega))
  have hnt := hr 30 (by omega) (by omega)
  cases hresp : responses 30 with
  | ok body =>
    rw [hresp] at hnt
    obtain ⟨hl, ht, -, hr', hs'⟩ := step_running hp (clock 30) hnt
    simp only [show ¬ (29 + 1 < 30) by omega, if_false, decide_False] at hl ht
    have hpoll : poll clock responses id 30 s
        = statusTick (clock 30) id (FetchResult.ok body) (poll clock responses id 29 s) := by
      show statusTick (clock (29 + 1)) id (responses (29 + 1)) _ = _
      rw [hresp]
    rw [hpoll]
    refine ⟨?_, ?_, ?_, ?_, ?_, ?_⟩
    · unfold App.active
      rw [ht]
    · simp [App.queries, hl, List.countP_append, List.countP_cons] at hq ⊢
      omega
    · simp [App.errors, hl, List.filterMap_append] at he ⊢
      exact he
    · simp [App.completions, hl, List.filterMap_append] at hc ⊢
      exact hc
    · rw [hr', hre]
    · rw [hs', hst]
  | networkError m => rw [hresp] at hnt; simp [FetchResult.nonTerminal] at hnt
  | httpError m => rw [hresp] at hnt; simp [FetchResult.nonTerminal] at hnt
  | bodyError m => rw [hresp] at hnt; simp [FetchResult.nonTerminal] at hnt

/-- When every status query is answered within the period it is issued in
(`poll`), and every answer is successful with a non-terminal status: the loop
started by `startStatusCheck` issues one query per period for thirty periods
and none afterwards.  After `n` periods it has issued `min n 30` queries; from
the thirtieth period on its timer is cleared and the one error surfaced is the
timeout error, nothing was handed to `handleGenerationComplete`, and the
gallery is as it was. -/
theorem running_in_period_times_out (s : App) (f : String) (clock : Nat → Nat → Date)
    (responses : Nat → FetchResult) (hr : ∀ k, (responses k).nonTerminal = true) (n : Nat) :
    (poll clock responses (s.timers.length + 1) n (startStatusCheck f s)).queries
        (s.timers.length + 1) = s.queries (s.timers.length + 1) + min n 30 ∧
      (poll clock responses (s.timers.length + 1) n (startStatusCheck f s)).active
        (s.timers.length + 1) = decide (n < 30) ∧
      (poll clock responses (s.timers.length + 1) n (startStatusCheck f s)).errors
        = s.errors ++ (if n < 30 then [] else [timeoutMessage]) ∧
      (poll clock responses (s.timers.length + 1) n (startStatusCheck f s)).completions
        = s.completions ∧
      (poll clock responses (s.timers.length + 1) n (startStatusCheck f s)).reels
        = s.reels := by
  obtain ⟨h0, hl0, hr0, hs0, -⟩ := startStatusCheck_polling f s
  have hq0 : (startStatusCheck f s).queries (s.timers.length + 1)
      = s.queries (s.timers.length + 1) := by simp [App.queries, hl0]
  have he0 : (startStatusCheck f s).errors = s.errors := by simp [App.errors, hl0]
  have hc0 : (startStatusCheck f s).completions = s.completions := by
    simp [App.completions, hl0]
  by_cases hn : n < 30
  · obtain ⟨hp, hq, he, hc, -, hre, -⟩ :=
      poll_running h0 clock responses n hn (fun k _ _ => hr k)
    refine ⟨?_, ?_, ?_, ?_, ?_⟩
    · rw [hq, hq0, Nat.min_eq_left (by omega)]
    · have := hp.1
      unfold App.active
      rw [this]
      simp [hn]
    · simp [he, he0, hn]
    · rw [hc, hc0]
    · rw [hre, hr0]
  · obtain ⟨ha, hq, he, hc, hre, -⟩ :=
      poll_thirty_running h0 clock responses (fun k _ _ => hr k)
    rw [poll_stopped clock responses _ _ 30 n (by omega) ha]
    refine ⟨?_, ?_, ?_, ?_, ?_⟩
    · rw [hq, hq0, Nat.min_eq_right (by omega)]
    · simp [ha, hn]
    · simp [he, he0, hn]
    · rw [hc, hc0]
    · rw [hre, hr0]

theorem store_events_queries {L : List Event} (h : ∀ e ∈ L, e.isStore = true) (id : Nat) :
    L.countP (fun e => match e with
      | Event.statusQuery t _ => t == id
      | _ => false) = 0 := by
  rw [List.countP_eq_zero]
  intro e he
  have := h e he
  cases e <;> simp_all [Event.isStore]

theorem store_events_errors {L : List Event} (h : ∀ e ∈ L, e.isStore = true) :
    L.filterMap (fun e => match e with
      | Event.error msg => some msg
      | _ => none) = [] := by
  rw [List.filterMap_eq_nil_iff]
  intro e he
  have := h e he
  cases e <;> simp_all [Event.isStore]

theorem store_events_completions {L : List Event} (h : ∀ e ∈ L, e.isStore = true) :
    L.filterMap (fun e => match e with
      | Event.completed _ data => some data
      | _ => none) = [] := by
  rw [List.filterMap_eq_nil_iff]
  intro e he
  have := h e he
  cases e <;> simp_all [Event.isStore]

/-- On an array gallery `addReelToGallery` returns: the gallery gains the reel
at its end, the new gallery is written to storage, then rendered. -/
theorem addReelToGallery_arr (reel : JsVal) (s : App) (g : List JsVal)
    (hg : s.reels = JsVal.arr g) :
    ∃ s1, addReelToGallery reel s = Except.ok s1 ∧
      s1.reels = JsVal.arr (g ++ [reel]) ∧
      s1.storage = some (JSON.stringify (JsVal.arr (g ++ [reel]))) ∧
      s1.log = s.log ++ [Event.setItem (JSON.stringify (JsVal.arr (g ++ [reel]))),
        Event.render (JsVal.arr (g ++ [reel]))] ∧
      s1.timers = s.timers ∧ s1.statusCheckInterval = s.statusCheckInterval := by
  unfold addReelToGallery
  rw [hg]
  exact ⟨_, rfl, rfl, rfl, by simp [updateReelsGallery, saveReels], rfl, rfl⟩

/-- On an array gallery `forEachReel` returns, having appended one artifact
per reel in order. -/
theorem forEachReel_arr (dates : Nat → Date) (fileId : Option JsVal) (reels : List ReelInfo) :
    ∀ (i : Nat) (s : App) (g : List JsVal), s.reels = JsVal.arr g →
      ∃ s1, forEachReel dates fileId i reels s = Except.ok s1 ∧
        s1.reels = JsVal.arr (g ++ artifacts dates fileId i reels) ∧
        s1.timers = s.timers ∧ s1.statusCheckInterval = s.statusCheckInterval ∧
        (reels = [] → s1.storage = s.storage) ∧
        (reels ≠ [] → s1.storage
          = some (JSON.stringify (JsVal.arr (g ++ artifacts dates fileId i reels)))) ∧
        ∃ L, s1.log = s.log ++ L ∧ ∀ e ∈ L, e.isStore = true := by
  induction reels with
  | nil =>
    intro i s g hg
    exact ⟨s, rfl, by simp [artifacts, hg], rfl, rfl, fun _ => rfl, fun h => absurd rfl h,
      [], by simp, by simp⟩
  | cons reel rest ih =>
    intro i s g hg
    obtain ⟨s1, h1, hr1, hs1, hl1, ht1, hi1⟩ :=
      addReelToGallery_arr (reelData fileId reel (dates (2 * i)) (dates (2 * i + 1))) s g hg
    obtain ⟨s2, h2, hr2, ht2, hi2, hsn, hsc, L, hL, hLs⟩ := ih (i + 1) s1 _ hr1
    refine ⟨s2, ?_, ?_, ?_, ?_, ?_, ?_, ?_⟩
    · simp [forEachReel, h1, h2]
    · simp [hr2, artifacts]
    · rw [ht2, ht1]
    · rw [hi2, hi1]
    · intro h; cases h
    · intro _
      cases rest with
      | nil =>
        have := hsn rfl
        rw [this, hs1]
        simp [artifacts]
      | cons r rs =>
        have := hsc (by simp)
        rw [this]
        simp [artifacts]
    · refine ⟨[Event.setItem (JSON.stringify (JsVal.arr
          (g ++ [reelData fileId reel (dates (2 * i)) (dates (2 * i + 1))]))),
        Event.render (JsVal.arr
          (g ++ [reelData fileId reel (dates (2 * i)) (dates (2 * i + 1))]))] ++ L, ?_, ?_⟩
      · rw [hL, hl1]; simp
      · intro e he
        simp only [List.mem_append, List.mem_cons, List.mem_singleton, List.not_mem_nil,
          or_false] at he
        rcases he with (rfl | rfl) | he
        · rfl
        · rfl
        · exact hLs e he

/-- On an array gallery `handleGenerationComplete` returns: every reel of the
payload is appended in order, the gallery is shown and success is reported. -/
theorem handleGenerationComplete_arr (dates : Nat → Date) (data : StatusBody) (s : App)
    (g : List JsVal) (hg : s.reels = JsVal.arr g) :
    ∃ s1, handleGenerationComplete dates data s = Except.ok s1 ∧
      s1.reels = JsVal.arr (g ++ data.artifacts dates) ∧
      s1.timers = s.timers ∧ s1.statusCheckInterval = s.statusCheckInterval ∧
      (data.artifacts dates = [] → s1.storage = s.storage) ∧
      (data.artifacts dates ≠ [] → s1.storage
        = some (JSON.stringify (JsVal.arr (g ++ data.artifacts dates)))) ∧
      ∃ L, s1.log = s.log ++ L ++ [Event.success "All reels generated successfully!"] ∧
        ∀ e ∈ L, e.isStore = true := by
  have key : ∀ (reels : List ReelInfo),
      data.artifacts dates = artifacts dates data.file_id 0 reels →
      ∀ s0, forEachReel dates data.file_id 0 reels s = Except.ok s0 →
      s0.reels = JsVal.arr (g ++ artifacts dates data.file_id 0 reels) →
      s0.timers = s.timers → s0.statusCheckInterval = s.statusCheckInterval →
      (reels = [] → s0.storage = s.storage) →
      (reels ≠ [] → s0.storage
        = some (JSON.stringify (JsVal.arr (g ++ artifacts dates data.file_id 0 reels)))) →
      (∃ L, s0.log = s.log ++ L ∧ ∀ e ∈ L, e.isStore = true) →
      ∃ s1, (Except.ok (showSuccess "All reels generated successfully!"
          (showReelsGallery { s0 with progressSection := false })) : Outcome) = Except.ok s1 ∧
        s1.reels = JsVal.arr (g ++ data.artifacts dates) ∧
        s1.timers = s.timers ∧ s1.statusCheckInterval = s.statusCheckInterval ∧
        (data.artifacts dates = [] → s1.storage = s.storage) ∧
        (data.artifacts dates ≠ [] → s1.storage
          = some (JSON.stringify (JsVal.arr (g ++ data.artifacts dates)))) ∧
        ∃ L, s1.log = s.log ++ L ++ [Event.success "All reels generated successfully!"] ∧
          ∀ e ∈ L, e.isStore = true := by
    intro reels ha s0 _ hr ht hi hsn hsc ⟨L, hL, hLs⟩
    refine ⟨_, rfl, ?_, ?_, ?_, ?_, ?_, ?_⟩
    · simp [showSuccess, showReelsGallery, updateReelsGallery, App.emit, hr, ha]
    · simp [showSuccess, showReelsGallery, updateReelsGallery, App.emit, ht]
    · simp [showSuccess, showReelsGallery, updateReelsGallery, App.emit, hi]
    · intro h0
      have hnil : reels = [] := by
        cases reels with
        | nil => rfl
        | cons r rs => rw [ha] at h0; simp [artifacts] at h0
      simpa [showSuccess, showReelsGallery, updateReelsGallery, App.emit] using hsn hnil
    · intro h0
      have hne : reels ≠ [] := by
        rintro rfl
        exact h0 (by rw [ha]; rfl)
      rw [ha]
      simpa [showSuccess, showReelsGallery, updateReelsGallery, App.emit] using hsc hne
    · refine ⟨L ++ [Event.render s0.reels], ?_, ?_⟩
      · simp [showSuccess, showReelsGallery, updateReelsGallery, App.emit, hL]
      · intro e he
        simp only [List.mem_append, List.mem_singleton] at he
        rcases he with he | rfl
        · exact hLs e he
        · rfl
  unfold handleGenerationComplete
  cases hreels : data.reels with
  | none =>
    exact key [] (by simp [StatusBody.artifacts, hreels]) s rfl (by simp [artifacts, hg]) rfl rfl
      (fun _ => rfl) (fun h => absurd rfl h) ⟨[], by simp, by simp⟩
  | some reels =>
    cases reels with
    | nil =>
      exact key [] (by simp [StatusBody.artifacts, hreels]) s rfl (by simp [artifacts, hg]) rfl
        rfl (fun _ => rfl) (fun h => absurd rfl h) ⟨[], by simp, by simp⟩
    | cons r rs =>
      obtain ⟨s0, h0, hr, ht, hi, hsn, hsc, hL⟩ :=
        forEachReel_arr dates data.file_id (r :: rs) 0 s g hg
      simp only [h0]
      exact key (r :: rs) (by simp [StatusBody.artifacts, hreels]) s0 h0 hr ht hi hsn hsc hL

theorem active_congr {s t : App} (h : s.timers = t.timers) (id : Nat) :
    s.active id = t.active id := by
  cases id with
  | zero => rfl
  | succ k => simp [App.active, h]

theorem strictEq_iff (v : Option JsVal) (text : String) :
    strictEq v text = true ↔ v = some (JsVal.str text) := by
  unfold strictEq
  split
  · rename_i t
    simp
  · rename_i h
    constructor
    · intro h'; cases h'
    · intro h'; exact absurd h' (fun e => h text e)

/-- The `try` block on a `completed` body, in a state whose gallery is an
array: the recorded timer is cleared and the body is handed to
`handleGenerationComplete`, which returns. -/
theorem tryBlock_completed (dates : Nat → Date) (id : Nat) (body : StatusBody) (s : App)
    (hb : body.status = some (JsVal.str "completed")) (g : List JsVal)
    (hg : s.reels = JsVal.arr g) :
    ∃ s2, tryBlock dates id (FetchResult.ok body) s = Except.ok s2 ∧
      s2.reels = JsVal.arr (g ++ body.artifacts dates) ∧
      s2.timers = (clearInterval s.statusCheckInterval s).timers ∧
      s2.statusCheckInterval = s.statusCheckInterval ∧
      (body.artifacts dates = [] → s2.storage = s.storage) ∧
      (body.artifacts dates ≠ [] → s2.storage
        = some (JSON.stringify (JsVal.arr (g ++ body.artifacts dates)))) ∧
      ∃ L, s2.log = s.log ++ [Event.completed id body] ++ L
          ++ [Event.success "All reels generated successfully!"] ∧
        ∀ e ∈ L, e.isStore = true := by
  have hs : strictEq body.status "completed" = true := (strictEq_iff _ _).2 hb
  obtain ⟨s2, h2, hr, ht, hi, hsn, hsc, L, hL, hLs⟩ :=
    handleGenerationComplete_arr dates body
      ((clearInterval s.statusCheckInterval s).emit (Event.completed id body)) g
      (by simp [hg])
  refine ⟨s2, ?_, hr, ?_, ?_, ?_, ?_, L, ?_, hLs⟩
  · simp [tryBlock, hs, h2]
  · simpa using ht
  · simpa using hi
  · intro h; simpa using hsn h
  · intro h; simpa using hsc h
  · simpa using hL

/-- The callback on a `completed` body in a state whose gallery is an array:
one query, the timer cleared, the body handed to `handleGenerationComplete`
and its artifacts appended; the timeout block still runs when the count has
reached `maxChecks`. -/
theorem step_completed {s : App} {id : Nat} {f : String} {c : Nat} (h : Polling s id f c)
    (dates : Nat → Date) {body : StatusBody}
    (hb : body.status = some (JsVal.str "completed")) (g : List JsVal)
    (hg : s.reels = JsVal.arr g) :
    (statusTick dates id (FetchResult.ok body) s).active id = false ∧
      (statusTick dates id (FetchResult.ok body) s).queries id = s.queries id + 1 ∧
      (statusTick dates id (FetchResult.ok body) s).errors
        = s.errors ++ (if c + 1 < 30 then [] else [timeoutMessage]) ∧
      (statusTick dates id (FetchResult.ok body) s).completions = s.completions ++ [body] ∧
      (statusTick dates id (FetchResult.ok body) s).reels
        = JsVal.arr (g ++ body.artifacts dates) ∧
      (body.artifacts dates = [] →
        (statusTick dates id (FetchResult.ok body) s).storage = s.storage) ∧
      (body.artifacts dates ≠ [] →
        (statusTick dates id (FetchResult.ok body) s).storage
          = some (JSON.stringify (JsVal.arr (g ++ body.artifacts dates)))) := by
  rw [statusTick_polling h]
  obtain ⟨k, rfl, hk⟩ := polling_pos h
  have hlt : k < s.timers.length := (List.getElem?_eq_some.1 hk).1
  have hi := h.2
  obtain ⟨s2, h2, hr, ht, hi2, hsn, hsc, L, hL, hLs⟩ :=
    tryBlock_completed dates (k + 1) body
      ({ s with timers := s.timers.set k { fileId := f, checkCount := c + 1, active := true } }.emit
        (Event.statusQuery (k + 1) f)) hb g (by simpa using hg)
  have hq := store_events_queries hLs (k + 1)
  have he := store_events_errors hLs
  have hc := store_events_completions hLs
  have hact : s2.active (k + 1) = false := by
    rw [active_congr ht, clearInterval_active]
    simp [hi]
  simp only [emit_interval, emit_log, emit_storage] at hi2 hL hsn hsc
  by_cases hcl : c + 1 < 30
  · have hc' : ¬ (c + 1 ≥ maxChecks) := by simp [maxChecks]; omega
    simp only [statusCallback, Nat.add_sub_cancel, h2, hc', if_false, hcl, if_true,
      List.append_nil]
    refine ⟨hact, ?_, ?_, ?_, hr, hsn, hsc⟩
    · simp [App.queries, hL, List.countP_append, List.countP_cons, hq]
    · simp [App.errors, hL, List.filterMap_append, he]
    · simp [App.completions, hL, List.filterMap_append, hc]
  · have hc' : c + 1 ≥ maxChecks := by simp [maxChecks]; omega
    simp only [statusCallback, Nat.add_sub_cancel, h2, hc', if_true, hcl, if_false]
    refine ⟨?_, ?_, ?_, ?_, ?_, ?_, ?_⟩
    · rw [active_congr (backToOptions_timers _), active_congr (showError_timers _ _),
        clearInterval_active, hact]
      rfl
    · simp [App.queries, hL, List.countP_append, List.countP_cons, hq]
    · simp [App.errors, hL, List.filterMap_append, he]
    · simp [App.completions, hL, List.filterMap_append, hc]
    · simpa using hr
    · intro h0; simpa using hsn h0
    · intro h0; simpa using hsc h0

theorem artifacts_length (dates : Nat → Date) (fileId : Option JsVal) (reels : List ReelInfo) :
    ∀ i, (artifacts dates fileId i reels).length = reels.length := by
  induction reels with
  | nil => intro i; rfl
  | cons r rs ih => intro i; simp [artifacts, ih]

/-- When every status query is answered within the period it is issued in
(`poll`), the first `k - 1` answers are non-terminal and the `k`-th, with
`1 ≤ k ≤ 30`, has status `completed`, and the gallery is an array: the loop
issues exactly `k` queries and its timer is cleared; the `k`-th body, and no
other, is handed to `handleGenerationComplete`, and the gallery gains one
artifact for every reel of that body, in order. -/
theorem completed_in_period_stops_loop (s : App) (f : String) (clock : Nat → Nat → Date)
    (responses : Nat → FetchResult) (k : Nat) (body : StatusBody) (g : List JsVal)
    (hk1 : 1 ≤ k) (hk30 : k ≤ 30)
    (hprev : ∀ j, 1 ≤ j → j < k → (responses j).nonTerminal = true)
    (hkth : responses k = FetchResult.ok body)
    (hb : body.status = some (JsVal.str "completed"))
    (hg : s.reels = JsVal.arr g) (n : Nat) (hn : k ≤ n) :
    (poll clock responses (s.timers.length + 1) n (startStatusCheck f s)).queries
        (s.timers.length + 1) = s.queries (s.timers.length + 1) + k ∧
      (poll clock responses (s.timers.length + 1) n (startStatusCheck f s)).active
        (s.timers.length + 1) = false ∧
      (poll clock responses (s.timers.length + 1) n (startStatusCheck f s)).completions
        = s.completions ++ [body] ∧
      (poll clock responses (s.timers.length + 1) n (startStatusCheck f s)).reels
        = JsVal.arr (g ++ body.artifacts (clock k)) ∧
      (body.artifacts (clock k)).length = (body.reels.getD []).length := by
  obtain ⟨h0, hl0, hr0, -, -⟩ := startStatusCheck_polling f s
  have hq0 : (startStatusCheck f s).queries (s.timers.length + 1)
      = s.queries (s.timers.length + 1) := by simp [App.queries, hl0]
  have hc0 : (startStatusCheck f s).completions = s.completions := by
    simp [App.completions, hl0]
  obtain ⟨m, rfl⟩ : ∃ m, k = m + 1 := ⟨k - 1, by omega⟩
  obtain ⟨hp, hq, -, hc, -, hre, -⟩ :=
    poll_running h0 clock responses m (by omega) (fun j h1 h2 => hprev j h1 (by omega))
  obtain ⟨ha, hq', -, hc', hr', -, -⟩ :=
    step_completed hp (clock (m + 1)) hb g (by rw [hre, hr0, hg])
  have hpoll : poll clock responses (s.timers.length + 1) (m + 1) (startStatusCheck f s)
      = statusTick (clock (m + 1)) (s.timers.length + 1) (FetchResult.ok body)
          (poll clock responses (s.timers.length + 1) m (startStatusCheck f s)) := by
    simp [poll, hkth]
  rw [poll_stopped clock responses _ _ (m + 1) n hn (by rw [hpoll]; exact ha), hpoll]
  refine ⟨?_, ha, ?_, hr', ?_⟩
  · rw [hq', hq, hq0]; omega
  · rw [hc', hc, hc0]
  · exact artifacts_length _ _ _ _

/-- The callback on a query that fails with `error.message = msg`: one query,
the timer cleared, one status-check error; the timeout block still runs when
the count has reached `maxChecks`. -/
theorem step_failure {s : App} {id : Nat} {f : String} {c : Nat} (h : Polling s id f c)
    (dates : Nat → Date) {resp : FetchResult} {msg : String}
    (hf : resp.failure = some msg) :
    (statusTick dates id resp s).active id = false ∧
      (statusTick dates id resp s).queries id = s.queries id + 1 ∧
      (statusTick dates id resp s).errors
        = s.errors ++ ["Status check failed: " ++ msg]
            ++ (if c + 1 < 30 then [] else [timeoutMessage]) ∧
      (statusTick dates id resp s).completions = s.completions ∧
      (statusTick dates id resp s).progressCalls = s.progressCalls ∧
      (statusTick dates id resp s).reels = s.reels ∧
      (statusTick dates id resp s).storage = s.storage := by
  rw [statusTick_polling h]
  obtain ⟨k, rfl, hk⟩ := polling_pos h
  have hlt : k < s.timers.length := (List.getElem?_eq_some.1 hk).1
  have hi := h.2
  have htry : ∀ s1, tryBlock dates (k + 1) resp s1 = Except.error (msg, s1) := by
    intro s1
    cases resp with
    | ok body => simp [FetchResult.failure] at hf
    | networkError m => simp [FetchResult.failure] at hf; simp [tryBlock, hf]
    | httpError m => simp [FetchResult.failure] at hf; simp [tryBlock, hf]
    | bodyError m => simp [FetchResult.failure] at hf; simp [tryBlock, hf]
  by_cases hcl : c + 1 < 30
  · have hc' : ¬ (c + 1 ≥ maxChecks) := by simp [maxChecks]; omega
    simp only [statusCallback, htry, hc', if_false, hcl, if_true, List.append_nil]
    refine ⟨?_, ?_, ?_, ?_, ?_, ?_, ?_⟩
    · simp [catchBlock, App.active, clearInterval, hi, hlt]
    · simp [catchBlock, App.queries, List.countP_append, List.countP_cons]
    · simp [catchBlock, App.errors, List.filterMap_append]
    · simp [catchBlock, App.completions, List.filterMap_append]
    · simp [catchBlock, App.progressCalls, List.filterMap_append]
    · simp [catchBlock]
    · simp [catchBlock]
  · have hc' : c + 1 ≥ maxChecks := by simp [maxChecks]; omega
    simp only [statusCallback, htry, hc', if_true, hcl, if_false]
    refine ⟨?_, ?_, ?_, ?_, ?_, ?_, ?_⟩
    · simp [catchBlock, App.active, clearInterval, hi, hlt]
    · simp [catchBlock, App.queries, List.countP_append, List.countP_cons]
    · simp [catchBlock, App.errors, List.filterMap_append]
    · simp [catchBlock, App.completions, List.filterMap_append]
    · simp [catchBlock, App.progressCalls, List.filterMap_append]
    · simp [catchBlock]
    · simp [catchBlock]

/-- The callback on a `failed` body: one query, the timer cleared, the
server's message surfaced; the timeout block still runs when the count has
reached `maxChecks`. -/
theorem step_failed {s : App} {id : Nat} {f : String} {c : Nat} (h : Polling s id f c)
    (dates : Nat → Date) {body : StatusBody}
    (hb : body.status = some (JsVal.str "failed")) :
    (statusTick dates id (FetchResult.ok body) s).active id = false ∧
      (statusTick dates id (FetchResult.ok body) s).queries id = s.queries id + 1 ∧
      (statusTick dates id (FetchResult.ok body) s).errors
        = s.errors ++ ["Generation failed: " ++ jsString body.message]
            ++ (if c + 1 < 30 then [] else [timeoutMessage]) ∧
      (statusTick dates id (FetchResult.ok body) s).completions = s.completions ∧
      (statusTick dates id (FetchResult.ok body) s).progressCalls = s.progressCalls ∧
      (statusTick dates id (FetchResult.ok body) s).reels = s.reels ∧
      (statusTick dates id (FetchResult.ok body) s).storage = s.storage := by
  rw [statusTick_polling h]
  obtain ⟨k, rfl, hk⟩ := polling_pos h
  have hlt : k < s.timers.length := (List.getElem?_eq_some.1 hk).1
  have hi := h.2
  have h1 : strictEq body.status "completed" = false := by
    rw [hb]; rfl
  have h2 : strictEq body.status "failed" = true := (strictEq_iff _ _).2 hb
  by_cases hcl : c + 1 < 30
  · have hc' : ¬ (c + 1 ≥ maxChecks) := by simp [maxChecks]; omega
    simp only [statusCallback, tryBlock, h1, h2, hc', if_false, hcl, if_true, List.append_nil]
    refine ⟨?_, ?_, ?_, ?_, ?_, ?_, ?_⟩
    · simp [App.active, clearInterval, hi, hlt]
    · simp [App.queries, List.countP_append, List.countP_cons]
    · simp [App.errors, List.filterMap_append]
    · simp [App.completions, List.filterMap_append]
    · simp [App.progressCalls, List.filterMap_append]
    · simp
    · simp
  · have hc' : c + 1 ≥ maxChecks := by simp [maxChecks]; omega
    simp only [statusCallback, tryBlock, h1, h2, hc', if_true, hcl, if_false]
    refine ⟨?_, ?_, ?_, ?_, ?_, ?_, ?_⟩
    · simp [App.active, clearInterval, hi, hlt]
    · simp [App.queries, List.countP_append, List.countP_cons]
    · simp [App.errors, List.filterMap_append]
    · simp [App.completions, List.filterMap_append]
    · simp [App.progressCalls, List.filterMap_append]
    · simp
    · simp

set_option maxRecDepth 1000000 in
/-- C3, the code at the failing input: twenty-nine `running` responses, then
`completed` on the thirtieth query.  The body is handed to
`handleGenerationComplete` and its two reels reach the gallery, and the same
callback then surfaces the timeout error and shows the reel options again. -/
theorem timeout_after_completion_on_thirtieth_query :
    (poll Sample.clock (Sample.completesAt 30) 1 30
        (startStatusCheck "abc" (App.init none))).completions = [Sample.done] ∧
      (poll Sample.clock (Sample.completesAt 30) 1 30
        (startStatusCheck "abc" (App.init none))).reels
          = JsVal.arr (Sample.done.artifacts (Sample.clock 30)) ∧
      (poll Sample.clock (Sample.completesAt 30) 1 30
        (startStatusCheck "abc" (App.init none))).errors = [timeoutMessage] ∧
      (poll Sample.clock (Sample.completesAt 30) 1 30
        (startStatusCheck "abc" (App.init none))).reelOptions = true := by
  refine ⟨?_, ?_, ?_, ?_⟩
  · rfl
  · rfl
  · rfl
  · rfl

/-- When every status query is answered within the period it is issued in
(`poll`), the first `k - 1` answers are non-terminal and the `k`-th query,
with `1 ≤ k ≤ 30`, fails with `error.message = msg` (the fetch rejects, the
response is not ok, or its body does not parse): the loop issues exactly `k`
queries and its timer is cleared; the errors surfaced are the one
status-check error carrying `msg`, followed by the timeout error when `k` is
thirty; nothing is handed to `handleGenerationComplete` and neither the
gallery nor its stored copy changes. -/
theorem failure_in_period_stops_loop (s : App) (f : String) (clock : Nat → Nat → Date)
    (responses : Nat → FetchResult) (k : Nat) (msg : String)
    (hk1 : 1 ≤ k) (hk30 : k ≤ 30)
    (hprev : ∀ j, 1 ≤ j → j < k → (responses j).nonTerminal = true)
    (hkth : (responses k).failure = some msg) (n : Nat) (hn : k ≤ n) :
    (poll clock responses (s.timers.length + 1) n (startStatusCheck f s)).queries
        (s.timers.length + 1) = s.queries (s.timers.length + 1) + k ∧
      (poll clock responses (s.timers.length + 1) n (startStatusCheck f s)).active
        (s.timers.length + 1) = false ∧
      (poll clock responses (s.timers.length + 1) n (startStatusCheck f s)).errors
        = s.errors ++ ["Status check failed: " ++ msg]
            ++ (if k < 30 then [] else [timeoutMessage]) ∧
      (poll clock responses (s.timers.length + 1) n (startStatusCheck f s)).completions
        = s.completions ∧
      (poll clock responses (s.timers.length + 1) n (startStatusCheck f s)).reels = s.reels ∧
      (poll clock responses (s.timers.length + 1) n (startStatusCheck f s)).storage
        = s.storage := by
  obtain ⟨h0, hl0, hr0, hs0, -⟩ := startStatusCheck_polling f s
  have hq0 : (startStatusCheck f s).queries (s.timers.length + 1)
      = s.queries (s.timers.length + 1) := by simp [App.queries, hl0]
  have he0 : (startStatusCheck f s).errors = s.errors := by simp [App.errors, hl0]
  have hc0 : (startStatusCheck f s).completions = s.completions := by
    simp [App.completions, hl0]
  obtain ⟨m, rfl⟩ : ∃ m, k = m + 1 := ⟨k - 1, by omega⟩
  obtain ⟨hp, hq, he, hc, -, hre, hst⟩ :=
    poll_running h0 clock responses m (by omega) (fun j h1 h2 => hprev j h1 (by omega))
  obtain ⟨ha, hq', he', hc', -, hr', hs'⟩ := step_failure hp (clock (m + 1)) hkth
  have hpoll : poll clock responses (s.timers.length + 1) (m + 1) (startStatusCheck f s)
      = statusTick (clock (m + 1)) (s.timers.length + 1) (responses (m + 1))
          (poll clock responses (s.timers.length + 1) m (startStatusCheck f s)) := rfl
  rw [poll_stopped clock responses _ _ (m + 1) n hn (by rw [hpoll]; exact ha), hpoll]
  refine ⟨?_, ha, ?_, ?_, ?_, ?_⟩
  · rw [hq', hq, hq0]; omega
  · rw [he', he, he0]
  · rw [hc', hc, hc0]
  · rw [hr', hre, hr0]
  · rw [hs', hst, hs0]

theorem classify_cases (status : Option JsVal) :
    (classify status = StatusClass.completed ↔ status = some (JsVal.str "completed")) ∧
      (classify status = StatusClass.failed ↔ status = some (JsVal.str "failed")) ∧
      (classify status = StatusClass.running ↔
        status ≠ some (JsVal.str "completed") ∧ status ≠ some (JsVal.str "failed")) := by
  unfold classify
  by_cases h1 : strictEq status "completed" = true
  · have e1 := (strictEq_iff _ _).1 h1
    subst e1
    simp [h1]
  · have n1 : status ≠ some (JsVal.str "completed") := fun e => h1 ((strictEq_iff _ _).2 e)
    by_cases h2 : strictEq status "failed" = true
    · have e2 := (strictEq_iff _ _).1 h2
      subst e2
      simp [h1, h2]
    · have n2 : status ≠ some (JsVal.str "failed") := fun e => h2 ((strictEq_iff _ _).2 e)
      simp [h1, h2, n1, n2]

/-- C5: a successful response whose `status` is neither `completed` nor
`failed` (any other value, or none at all) falls in the class `running`, the
three classes being told apart by the `status` field alone.  While the count
stays below thirty the callback on such a body is exactly: count the query,
issue it, call `updateProgress` with the body.  The loop stays scheduled, and
the gallery, its stored copy, the errors surfaced and the completions are as
before. -/
theorem other_status_is_running (s : App) (id : Nat) (f : String) (c : Nat)
    (dates : Nat → Date) (body : StatusBody) (h : Polling s id f c) (hc : c + 1 < 30)
    (h1 : body.status ≠ some (JsVal.str "completed"))
    (h2 : body.status ≠ some (JsVal.str "failed")) :
    classify body.status = StatusClass.running ∧
      (∀ status, (classify status = StatusClass.completed ↔
          status = some (JsVal.str "completed")) ∧
        (classify status = StatusClass.failed ↔ status = some (JsVal.str "failed"))) ∧
      statusTick dates id (FetchResult.ok body) s
        = updateProgress body
            (({ s with timers := s.timers.set (id - 1) (Loop.mk f (c + 1) true) }.emit
                (Event.statusQuery id f)).emit (Event.progress id body)) ∧
      Polling (statusTick dates id (FetchResult.ok body) s) id f (c + 1) ∧
      (statusTick dates id (FetchResult.ok body) s).progressCalls
        = s.progressCalls ++ [body] ∧
      (statusTick dates id (FetchResult.ok body) s).reels = s.reels ∧
      (statusTick dates id (FetchResult.ok body) s).storage = s.storage ∧
      (statusTick dates id (FetchResult.ok body) s).errors = s.errors ∧
      (statusTick dates id (FetchResult.ok body) s).completions = s.completions := by
  have hcls := ((classify_cases body.status).2.2).2 ⟨h1, h2⟩
  have e1 : strictEq body.status "completed" = false := by
    cases hs : strictEq body.status "completed" with
    | false => rfl
    | true => exact absurd ((strictEq_iff _ _).1 hs) h1
  have e2 : strictEq body.status "failed" = false := by
    cases hs : strictEq body.status "failed" with
    | false => rfl
    | true => exact absurd ((strictEq_iff _ _).1 hs) h2
  have hnt : (FetchResult.ok body).nonTerminal = true := by
    simp [FetchResult.nonTerminal, e1, e2]
  obtain ⟨hl, ht, hi, hr, hst⟩ := step_running h dates hnt
  simp only [hc, if_true, List.append_nil, decide_True] at hl ht
  refine ⟨hcls, fun st => ⟨(classify_cases st).1, (classify_cases st).2.1⟩, ?_, ⟨ht, hi⟩,
    ?_, hr, hst, ?_, ?_⟩
  · rw [statusTick_polling h]
    have hc' : ¬ (c + 1 ≥ maxChecks) := by simp [maxChecks]; omega
    simp [statusCallback, tryBlock, e1, e2, hc']
  · simp [App.progressCalls, hl, List.filterMap_append]
  · simp [App.errors, hl, List.filterMap_append]
  · simp [App.completions, hl, List.filterMap_append]

/-- Witness of C5: the first response on a freshly initialised page has no
`status` field at all. -/
theorem other_status_is_running_witness :
    Polling (startStatusCheck "abc" (App.init none)) 1 "abc" 0 ∧
      classify none = StatusClass.running ∧
      Polling (statusTick (Sample.clock 1) 1
          (FetchResult.ok { Sample.running with status := none })
          (startStatusCheck "abc" (App.init none))) 1 "abc" 1 ∧
      (statusTick (Sample.clock 1) 1
          (FetchResult.ok { Sample.running with status := none })
          (startStatusCheck "abc" (App.init none))).progressCalls
        = [{ Sample.running with status := none }] ∧
      (statusTick (Sample.clock 1) 1
          (FetchResult.ok { Sample.running with status := none })
          (startStatusCheck "abc" (App.init none))).errors = [] :=
  have hp : Polling (startStatusCheck "abc" (App.init none)) 1 "abc" 0 := ⟨rfl, rfl⟩
  have h := other_status_is_running (startStatusCheck "abc" (App.init none)) 1 "abc" 0
    (Sample.clock 1) { Sample.running with status := none } hp (by decide)
    (by simp) (by simp)
  ⟨hp, h.1, h.2.2.2.1, h.2.2.2.2.1, h.2.2.2.2.2.2.2.1⟩

/-! ## Cancellation and the single scheduled loop -/

theorem Quiet.qrefl (s : App) : Quiet s s := ⟨rfl, rfl, [], by simp, by simp⟩

theorem Quiet.qtrans {s t u : App} (h1 : Quiet s t) (h2 : Quiet t u) : Quiet s u := by
  obtain ⟨a1, b1, L1, c1, d1⟩ := h1
  obtain ⟨a2, b2, L2, c2, d2⟩ := h2
  refine ⟨a2.trans a1, b2.trans b1, L1 ++ L2, by rw [c2, c1, List.append_assoc], ?_⟩
  intro e he
  rcases List.mem_append.1 he with h | h
  · exact d1 e h
  · exact d2 e h

theorem addReelToGallery_quiet (reel : JsVal) (s : App) :
    Quiet s (addReelToGallery reel s).state := by
  unfold addReelToGallery
  split
  · rename_i xs _
    refine ⟨rfl, rfl, [Event.setItem (JSON.stringify (JsVal.arr (xs ++ [reel]))),
      Event.render (JsVal.arr (xs ++ [reel]))], ?_, ?_⟩
    · simp [Outcome.state, updateReelsGallery, saveReels]
    · intro e he
      simp only [List.mem_append, List.mem_singleton, List.mem_cons, List.not_mem_nil,
        or_false] at he
      rcases he with rfl | rfl <;> rfl
  · exact Quiet.qrefl s

theorem forEachReel_quiet (dates : Nat → Date) (fileId : Option JsVal) (reels : List ReelInfo) :
    ∀ (i : Nat) (s : App), Quiet s (forEachReel dates fileId i reels s).state := by
  induction reels with
  | nil => intro i s; exact Quiet.qrefl s
  | cons r rs ih =>
    intro i s
    have h1 := addReelToGallery_quiet (reelData fileId r (dates (2 * i)) (dates (2 * i + 1))) s
    unfold forEachReel
    cases hadd : addReelToGallery (reelData fileId r (dates (2 * i)) (dates (2 * i + 1))) s with
    | ok s1 =>
      rw [hadd] at h1
      exact Quiet.qtrans h1 (ih (i + 1) s1)
    | error e =>
      rw [hadd] at h1
      exact h1

theorem handleGenerationComplete_quiet (dates : Nat → Date) (data : StatusBody) (s : App) :
    Quiet s (handleGenerationComplete dates data s).state := by
  have tail : ∀ s1 : App, Quiet s1 (showSuccess "All reels generated successfully!"
      (showReelsGallery { s1 with progressSection := false })) := by
    intro s1
    refine ⟨rfl, rfl, [Event.render s1.reels,
      Event.success "All reels generated successfully!"], ?_, ?_⟩
    · simp [showSuccess, showReelsGallery, updateReelsGallery, App.emit]
    · intro e he
      simp only [List.mem_cons, List.mem_singleton, List.not_mem_nil, or_false] at he
      rcases he with rfl | rfl <;> rfl
  have key : ∀ o : Outcome, Quiet s o.state →
      Quiet s (Outcome.state (match o with
        | Except.ok s1 => Except.ok (showSuccess "All reels generated successfully!"
            (showReelsGallery { s1 with progressSection := false }))
        | Except.error e => Except.error e)) := by
    intro o ho
    cases o with
    | ok s1 => exact Quiet.qtrans ho (tail s1)
    | error e => exact ho
  unfold handleGenerationComplete
  cases hreels : data.reels with
  | none => exact key (Except.ok s) (Quiet.qrefl s)
  | some reels =>
    cases reels with
    | nil => exact key (Except.ok s) (Quiet.qrefl s)
    | cons r rs => exact key _ (forEachReel_quiet dates data.file_id (r :: rs) 0 s)

theorem Stepped.srefl (id : Nat) (s : App) : Stepped id s s :=
  ⟨rfl, rfl, fun _ h => h, [], by simp, by simp⟩

theorem Stepped.strans {id : Nat} {s t u : App} (h1 : Stepped id s t) (h2 : Stepped id t u) :
    Stepped id s u := by
  obtain ⟨a1, b1, c1, L1, d1, e1⟩ := h1
  obtain ⟨a2, b2, c2, L2, d2, e2⟩ := h2
  refine ⟨a2.trans a1, b2.trans b1, fun i h => c1 i (c2 i h), L1 ++ L2,
    by rw [d2, d1, List.append_assoc], ?_⟩
  intro e he
  rcases List.mem_append.1 he with h | h
  · exact e1 e h
  · exact e2 e h

theorem Quiet.stepped {s t : App} (h : Quiet s t) (id : Nat) : Stepped id s t := by
  obtain ⟨a, b, L, c, d⟩ := h
  exact ⟨b, by rw [a], fun i hi => by rw [← active_congr a i]; exact hi, L, c,
    fun e he => Or.inl (d e he)⟩

theorem stepped_of_fields {id : Nat} {s t : App} (ht : t.timers = s.timers)
    (hi : t.statusCheckInterval = s.statusCheckInterval) (hl : t.log = s.log) :
    Stepped id s t :=
  ⟨hi, by rw [ht], fun i h => by rw [← active_congr ht i]; exact h, [], by simp [hl], by simp⟩

theorem stepped_clear (id : Nat) (i : Option Nat) (s : App) :
    Stepped id s (clearInterval i s) := by
  refine ⟨clearInterval_interval i s, clearInterval_length i s, ?_, [], by simp, by simp⟩
  intro j hj
  rw [clearInterval_active] at hj
  simp only [Bool.and_eq_true] at hj
  exact hj.1

theorem stepped_emit (id : Nat) (s : App) (e : Event)
    (he : e.source = none ∨ e.source = some id) : Stepped id s (s.emit e) := by
  refine ⟨rfl, rfl, fun _ h => h, [e], rfl, ?_⟩
  intro e' h'
  simp only [List.mem_singleton] at h'
  subst h'
  exact he

theorem stepped_showError (id : Nat) (m : String) (s : App) : Stepped id s (showError m s) :=
  stepped_emit id s _ (Or.inl rfl)

theorem stepped_backToOptions (id : Nat) (s : App) : Stepped id s (backToOptions s) :=
  stepped_of_fields rfl rfl rfl

theorem stepped_updateProgress (id : Nat) (d : StatusBody) (s : App) :
    Stepped id s (updateProgress d s) :=
  stepped_of_fields (updateProgress_timers d s) (updateProgress_interval d s)
    (updateProgress_log d s)

theorem stepped_stop (id : Nat) (m : String) (s : App) :
    Stepped id s (backToOptions (showError m (clearInterval s.statusCheckInterval s))) :=
  ((stepped_clear id _ s).strans (stepped_showError id m _)).strans (stepped_backToOptions id _)

theorem tryBlock_stepped (dates : Nat → Date) (id : Nat) (resp : FetchResult) (s : App) :
    Stepped id s (tryBlock dates id resp s).state := by
  unfold tryBlock
  cases resp with
  | networkError m => exact Stepped.srefl id s
  | httpError m => exact Stepped.srefl id s
  | bodyError m => exact Stepped.srefl id s
  | ok body =>
    simp only
    split
    · exact ((stepped_clear id _ s).strans
        (stepped_emit id _ (Event.completed id body) (Or.inr rfl))).strans
        ((handleGenerationComplete_quiet dates body _).stepped id)
    · split
      · exact stepped_stop id _ s
      · exact (stepped_emit id s (Event.progress id body) (Or.inr rfl)).strans
          (stepped_updateProgress id body _)

/-- One period of timer `id` schedules no timer, keeps
`this.statusCheckInterval`, and logs only events of timer `id` or of none. -/
theorem statusTick_stepped (dates : Nat → Date) (id : Nat) (resp : FetchResult) (s : App) :
    Stepped id s (statusTick dates id resp s) := by
  unfold statusTick
  cases ht : s.timer id with
  | none => exact Stepped.srefl id s
  | some l =>
    simp only
    split
    · rename_i hact
      cases id with
      | zero => simp at ht
      | succ k =>
        simp only [timer_succ] at ht
        have hlt : k < s.timers.length := (List.getElem?_eq_some.1 ht).1
        have hbump : Stepped (k + 1) s
            ({ s with timers := s.timers.set k (Loop.mk l.fileId (l.checkCount + 1) l.active) }.emit
              (Event.statusQuery (k + 1) l.fileId)) := by
          refine ⟨rfl, by simp, ?_, [Event.statusQuery (k + 1) l.fileId], rfl, ?_⟩
          · intro i hi
            cases i with
            | zero => simp [App.active] at hi
            | succ j =>
              by_cases hjk : k = j
              · subst hjk
                simp [App.active, ht, hact]
              · simpa [App.active, List.getElem?_set, hjk] using hi
          · intro e he
            simp only [List.mem_singleton] at he
            subst he
            exact Or.inr rfl
        unfold statusCallback
        simp only [Nat.add_sub_cancel]
        have htry := tryBlock_stepped dates (k + 1) resp
          ({ s with timers := s.timers.set k (Loop.mk l.fileId (l.checkCount + 1) l.active) }.emit
            (Event.statusQuery (k + 1) l.fileId))
        have h2 : Stepped (k + 1) s
            (match tryBlock dates (k + 1) resp
                ({ s with timers :=
                    s.timers.set k (Loop.mk l.fileId (l.checkCount + 1) l.active) }.emit
                  (Event.statusQuery (k + 1) l.fileId)) with
              | Except.ok s2 => s2
              | Except.error (msg, s2) => catchBlock msg s2) := by
          cases htb : tryBlock dates (k + 1) resp
              ({ s with timers :=
                  s.timers.set k (Loop.mk l.fileId (l.checkCount + 1) l.active) }.emit
                (Event.statusQuery (k + 1) l.fileId)) with
          | ok s2 =>
            rw [htb] at htry
            exact hbump.strans htry
          | error e =>
            obtain ⟨msg, s2⟩ := e
            rw [htb] at htry
            exact (hbump.strans htry).strans (stepped_stop (k + 1) _ s2)
        split
        · exact h2.strans (stepped_stop (k + 1) _ _)
        · exact h2
    · exact Stepped.srefl id s

theorem init_timers (storage : Option String) :
    (App.init storage).timers = [] ∧ (App.init storage).statusCheckInterval = none := by
  unfold App.init updateReelsGallery loadReels App.fresh
  split
  · exact ⟨rfl, rfl⟩
  · split
    · exact ⟨rfl, rfl⟩
    · split <;> exact ⟨rfl, rfl⟩

theorem active_le_length (s : App) (id : Nat) (h : s.active id = true) :
    1 ≤ id ∧ id ≤ s.timers.length := by
  cases id with
  | zero => simp [App.active] at h
  | succ k =>
    unfold App.active at h
    simp only [timer_succ] at h
    cases hk : s.timers[k]? with
    | none => simp [hk] at h
    | some l =>
      have := (List.getElem?_eq_some.1 hk).1
      omega

theorem singleLoop_init (storage : Option String) : SingleLoop (App.init storage) := by
  intro id h
  have := active_le_length _ _ h
  rw [(init_timers storage).1] at this
  simp at this
  omega

/-- After `startStatusCheck` the one scheduled timer is the new one. -/
theorem startStatusCheck_active (f : String) (s : App) (hs : SingleLoop s) (id : Nat) :
    (startStatusCheck f s).active id = decide (id = s.timers.length + 1) := by
  have hlen : ∀ i : Option Nat, (clearInterval i s).timers.length = s.timers.length :=
    fun i => clearInterval_length i s
  cases id with
  | zero => simp [App.active]
  | succ k =>
    have hold : ∀ s1 : App, s1.timers.length = s.timers.length →
        (k < s.timers.length → s1.active (k + 1) = false) →
        (({ s1 with
            timers := s1.timers ++ [{ fileId := f, checkCount := 0, active := true }],
            statusCheckInterval := some (s1.timers.length + 1) } : App).active (k + 1))
          = decide (k + 1 = s.timers.length + 1) := by
      intro s1 hl hin
      by_cases hk : k < s.timers.length
      · have h1 := hin hk
        have hk1 : k < s1.timers.length := by omega
        have hne : ¬ (k = s.timers.length) := by omega
        simp only [App.active, timer_succ] at h1 ⊢
        rw [List.getElem?_append_left hk1]
        simp [h1, hne]
      · by_cases hk2 : k = s.timers.length
        · subst hk2
          simp [App.active, ← hl]
        · have : s1.timers.length + 1 ≤ k := by omega
          have hnone : (s1.timers ++ [({ fileId := f, checkCount := 0, active := true } : Loop)])[k]?
              = none := by
            rw [List.getElem?_eq_none]
            simp
            omega
          simp [App.active, hnone, hk2]
    unfold startStatusCheck
    split
    · rename_i j hj
      apply hold _ (hlen _)
      intro hk
      rw [clearInterval_active]
      by_cases ha : s.active (k + 1) = true
      · have := (hs _ ha).2
        rw [hj] at this
        simp [this]
      · simp [ha]
    · rename_i hj
      apply hold _ rfl
      intro hk
      by_cases ha : s.active (k + 1) = true
      · have := (hs _ ha).2
        cases hi : s.statusCheckInterval with
        | none => rw [hi] at this; cases this
        | some i =>
          rw [hi] at this
          injection this with this
          subst this
          exact absurd hi (hj k)
      · simpa using ha

theorem startStatusCheck_fields (f : String) (s : App) :
    (startStatusCheck f s).timers.length = s.timers.length + 1 ∧
      (startStatusCheck f s).statusCheckInterval = some (s.timers.length + 1) ∧
      (startStatusCheck f s).log = s.log := by
  unfold startStatusCheck
  split <;> simp

theorem singleLoop_start (f : String) (s : App) (hs : SingleLoop s) :
    SingleLoop (startStatusCheck f s) := by
  intro id h
  rw [startStatusCheck_active f s hs] at h
  simp only [decide_eq_true_eq] at h
  obtain ⟨hl, hi, -⟩ := startStatusCheck_fields f s
  subst h
  exact ⟨hl.symm, hi⟩

theorem clearInterval_idem (id : Option Nat) (s : App) :
    clearInterval id (clearInterval id s) = clearInterval id s := by
  cases id with
  | none => rfl
  | some i =>
    cases i with
    | zero => rfl
    | succ k =>
      cases hk : s.timers[k]? with
      | none => simp [clearInterval, hk]
      | some l =>
        have hlt : k < s.timers.length := (List.getElem?_eq_some.1 hk).1
        simp [clearInterval, hk, List.getElem?_set, hlt]

theorem quiet_events {s t : App} {j id : Nat} (hne : j ≠ id)
    (h : ∃ L, t.log = s.log ++ L ∧ ∀ e ∈ L, e.source = none ∨ e.source = some j) :
    t.eventsOf id = s.eventsOf id ∧ t.queries id = s.queries id := by
  obtain ⟨L, hL, hs⟩ := h
  constructor
  · unfold App.eventsOf
    rw [hL, List.filter_append]
    have : L.filter (fun e => match e.source with
        | some t => t == id
        | none => false) = [] := by
      rw [List.filter_eq_nil_iff]
      intro e he
      rcases hs e he with h0 | h0 <;> simp [h0, hne]
    rw [this, List.append_nil]
  · unfold App.queries
    rw [hL, List.countP_append]
    have : L.countP (fun e => match e with
        | Event.statusQuery t _ => t == id
        | _ => false) = 0 := by
      rw [List.countP_eq_zero]
      intro e he
      rcases hs e he with h0 | h0 <;> cases e <;> simp_all [Event.source]
    rw [this, Nat.add_zero]

/-- A timer that exists and is not scheduled stays so under every action,
and no action logs an event of it. -/
theorem silent_step (a : Action) (s : App) (id : Nat) (hid : id ≤ s.timers.length)
    (ha : s.active id = false) :
    id ≤ (a.apply s).timers.length ∧ (a.apply s).active id = false ∧
      (a.apply s).eventsOf id = s.eventsOf id ∧ (a.apply s).queries id = s.queries id := by
  cases a with
  | start f =>
    obtain ⟨hl, -, hlog⟩ := startStatusCheck_fields f s
    refine ⟨by simp only [Action.apply]; omega, ?_, ?_, ?_⟩
    · simp only [Action.apply]
      cases id with
      | zero => simp [App.active]
      | succ k =>
        have hk : k < s.timers.length := by omega
        have hlen : ∀ i : Option Nat, (clearInterval i s).timers.length = s.timers.length :=
          fun i => clearInterval_length i s
        unfold startStatusCheck
        split
        · rename_i j hj
          have h1 : (clearInterval (some (j + 1)) s).active (k + 1) = false := by
            rw [clearInterval_active, ha]; rfl
          have hk1 : k < (clearInterval (some (j + 1)) s).timers.length := by
            rw [hlen]; exact hk
          simp only [App.active, timer_succ] at h1 ⊢
          rw [List.getElem?_append_left hk1]
          exact h1
        · simp only [App.active, timer_succ] at ha ⊢
          rw [List.getElem?_append_left hk]
          exact ha
    · simp [Action.apply, App.eventsOf, hlog]
    · simp [Action.apply, App.queries, hlog]
  | tick j dates resp =>
    simp only [Action.apply]
    by_cases hj : j = id
    · subst hj
      rw [statusTick_inactive dates j resp s ha]
      exact ⟨hid, ha, rfl, rfl⟩
    · obtain ⟨-, hl, hact, hL⟩ := statusTick_stepped dates j resp s
      obtain ⟨he, hq⟩ := quiet_events hj hL
      refine ⟨by omega, ?_, he, hq⟩
      cases h : (statusTick dates j resp s).active id with
      | false => rfl
      | true => rw [hact id h] at ha; cases ha

theorem NoQuery.nrefl (s : App) : NoQuery s s := ⟨[], by simp, by simp⟩

theorem NoQuery.ntrans {s t u : App} (h1 : NoQuery s t) (h2 : NoQuery t u) : NoQuery s u := by
  obtain ⟨L1, c1, d1⟩ := h1
  obtain ⟨L2, c2, d2⟩ := h2
  refine ⟨L1 ++ L2, by rw [c2, c1, List.append_assoc], ?_⟩
  intro e he
  rcases List.mem_append.1 he with h | h
  · exact d1 e h
  · exact d2 e h

theorem Quiet.noQuery {s t : App} (h : Quiet s t) : NoQuery s t := by
  obtain ⟨-, -, L, c, d⟩ := h
  refine ⟨L, c, ?_⟩
  intro e he
  have := d e he
  cases e <;> simp_all [Event.source, Event.isQuery]

theorem noQuery_of_log {s t : App} (h : t.log = s.log) : NoQuery s t :=
  ⟨[], by simp [h], by simp⟩

theorem noQuery_emit (s : App) (e : Event) (he : e.isQuery = false) : NoQuery s (s.emit e) := by
  refine ⟨[e], rfl, ?_⟩
  intro e' h'
  simp only [List.mem_singleton] at h'
  subst h'
  exact he

theorem noQuery_stop (m : String) (s : App) :
    NoQuery s (backToOptions (showError m (clearInterval s.statusCheckInterval s))) :=
  ((noQuery_of_log (clearInterval_log _ s)).ntrans (noQuery_emit _ (Event.error m) rfl)).ntrans
    (noQuery_of_log rfl)

theorem tryBlock_noQuery (dates : Nat → Date) (id : Nat) (resp : FetchResult) (s : App) :
    NoQuery s (tryBlock dates id resp s).state := by
  unfold tryBlock
  cases resp with
  | networkError m => exact NoQuery.nrefl s
  | httpError m => exact NoQuery.nrefl s
  | bodyError m => exact NoQuery.nrefl s
  | ok body =>
    simp only
    split
    · exact ((noQuery_of_log (clearInterval_log _ s)).ntrans
        (noQuery_emit _ (Event.completed id body) rfl)).ntrans
        (handleGenerationComplete_quiet dates body _).noQuery
    · split
      · exact noQuery_stop _ s
      · exact (noQuery_emit s (Event.progress id body) rfl).ntrans
          (noQuery_of_log (updateProgress_log body _))

theorem loadReels_log (s : App) : (loadReels s).log = s.log := by
  unfold loadReels
  split
  · rfl
  · split
    · rfl
    · split <;> rfl

/-! ## `JSON.parse` reads back what `JSON.stringify` writes -/

namespace JSON

theorem digitChar_facts : ∀ d, d < 10 →
    isDigit (digitChar d) = true ∧ (digitChar d).toNat - 48 = d ∧
      (digitChar d = '0' ↔ d = 0) ∧ isWs (digitChar d) = false ∧
      digitChar d ≠ 'n' ∧ digitChar d ≠ 't' ∧ digitChar d ≠ 'f' ∧ digitChar d ≠ '"' ∧
      digitChar d ≠ '[' ∧ digitChar d ≠ '{' ∧ digitChar d ≠ '-' ∧ digitChar d ≠ ']' := by
  decide

/-- The text does not go on with a digit. -/
theorem readDigits_stop (a : Nat) (rest : List Char)
    (hr : ∀ c cs, rest = c :: cs → isDigit c = false) : readDigits a rest = (a, rest) := by
  cases rest with
  | nil => rfl
  | cons c cs => simp [readDigits, hr c cs rfl]

theorem readDigits_digit (a d : Nat) (hd : d < 10) (cs : List Char) :
    readDigits a (digitChar d :: cs) = readDigits (a * 10 + d) cs := by
  obtain ⟨h1, h2, -⟩ := digitChar_facts d hd
  simp [readDigits, h1, h2]

theorem readDigits_decimalAux (rest : List Char) :
    ∀ (fuel n : Nat) (acc : List Char) (k m : Nat), n < fuel →
      (∀ a, readDigits a (acc ++ rest) = (a * 10 ^ m + k, rest)) →
      ∃ m', ∀ a, readDigits a (decimalAux fuel n acc ++ rest)
        = (a * 10 ^ m' + (n * 10 ^ m + k), rest) := by
  intro fuel
  induction fuel with
  | zero => intro n acc k m h; omega
  | succ fuel ih =>
    intro n acc k m hn hacc
    unfold decimalAux
    by_cases h10 : n < 10
    · refine ⟨m + 1, fun a => ?_⟩
      simp only [h10, if_true, List.cons_append]
      rw [readDigits_digit a n h10, hacc]
      congr 1
      ring
    · simp only [h10, if_false]
      have hlt : n / 10 < fuel := by omega
      have hmod : n % 10 < 10 := Nat.mod_lt _ (by decide)
      obtain ⟨m', hm'⟩ := ih (n / 10) (digitChar (n % 10) :: acc)
        (n % 10 * 10 ^ m + k) (m + 1) hlt (fun a => by
          simp only [List.cons_append]
          rw [readDigits_digit a _ hmod, hacc]
          congr 1
          ring)
      refine ⟨m', fun a => ?_⟩
      rw [hm' a]
      congr 1
      have : n = 10 * (n / 10) + n % 10 := (Nat.div_add_mod n 10).symm
      have e : n / 10 * 10 ^ (m + 1) + (n % 10 * 10 ^ m + k)
          = (10 * (n / 10) + n % 10) * 10 ^ m + k := by ring
      rw [e, ← this]

theorem decimalAux_head :
    ∀ (fuel n : Nat) (acc : List Char), n < fuel → 0 < n →
      ∃ d ds, decimalAux fuel n acc = digitChar d :: ds ∧ 0 < d ∧ d < 10 := by
  intro fuel
  induction fuel with
  | zero => intro n acc h; omega
  | succ fuel ih =>
    intro n acc hn hpos
    unfold decimalAux
    by_cases h10 : n < 10
    · exact ⟨n, acc, by simp [h10], hpos, h10⟩
    · simp only [h10, if_false]
      exact ih (n / 10) _ (by omega) (by omega)

/-- Reading the decimal numeral of `n` gives `n`, when no digit follows. -/
theorem readNat_decimal (n : Nat) (rest : List Char)
    (hr : ∀ c cs, rest = c :: cs → isDigit c = false) :
    readNat (decimal n ++ rest) = some (n, rest) := by
  by_cases h0 : n = 0
  · subst h0
    rfl
  · obtain ⟨d, ds, hd, hpos, hlt⟩ := decimalAux_head (n + 1) n [] (by omega) (by omega)
    obtain ⟨m', hm'⟩ := readDigits_decimalAux rest (n + 1) n [] 0 0 (by omega)
      (fun a => by simp [readDigits_stop a rest hr])
    have hall := hm' 0
    unfold decimal
    rw [hd] at hall ⊢
    obtain ⟨h1, h2, h3, -⟩ := digitChar_facts d hlt
    have hne : digitChar d ≠ '0' := fun e => by
      have := h3.1 e
      omega
    simp only [List.cons_append] at hall ⊢
    rw [readDigits_digit 0 d hlt] at hall
    simp only [readNat, hne, if_false, h1, if_true, h2]
    simp only [Nat.zero_mul, Nat.zero_add, Nat.pow_zero, Nat.mul_one, Nat.add_zero] at hall
    rw [hall]

theorem decimal_head (n : Nat) : ∃ d ds, decimal n = digitChar d :: ds ∧ d < 10 := by
  by_cases h0 : n = 0
  · subst h0
    exact ⟨0, [], rfl, by decide⟩
  · obtain ⟨d, ds, hd, -, hlt⟩ := decimalAux_head (n + 1) n [] (by omega) (by omega)
    exact ⟨d, ds, hd, hlt⟩

theorem hexVal_hexChar : ∀ d, d < 16 → hexVal (hexChar d) = some d := by decide

theorem hexVal_zero : hexVal '0' = some 0 := by decide

theorem readString_cons (c : Char) (cs : List Char) :
    readString (c :: cs) =
      if c = '"' then some ([], cs)
      else if c = '\\' then
        match cs with
        | [] => none
        | e :: cs1 =>
          if e = 'u' then
            match cs1 with
            | a :: b :: x :: y :: cs2 =>
              match hex4 a b x y, readString cs2 with
              | some ch, some (body, rest) => some (ch :: body, rest)
              | _, _ => none
            | _ => none
          else
            match unescape e, readString cs1 with
            | some ch, some (body, rest) => some (ch :: body, rest)
            | _, _ => none
      else if c.toNat < 32 then none
      else
        match readString cs with
        | some (body, rest) => some (c :: body, rest)
        | none => none := by
  rw [readString.eq_def]

/-- Reading one quoted character gives the character back. -/
theorem readString_quoteChar (c : Char) (tail body rest : List Char)
    (ih : readString tail = some (body, rest)) :
    readString (quoteChar c ++ tail) = some (c :: body, rest) := by
  unfold quoteChar
  by_cases h1 : c = '"'
  · subst h1
    simp [readString_cons, unescape, ih]
  by_cases h2 : c = '\\'
  · subst h2
    simp [readString_cons, unescape, ih]
  by_cases h3 : c = '\x08'
  · subst h3
    simp [readString_cons, unescape, ih]
  by_cases h4 : c = '\x0c'
  · subst h4
    simp [readString_cons, unescape, ih]
  by_cases h5 : c = '\n'
  · subst h5
    simp [readString_cons, unescape, ih]
  by_cases h6 : c = '\r'
  · subst h6
    simp [readString_cons, unescape, ih]
  by_cases h7 : c = '\t'
  · subst h7
    simp [readString_cons, unescape, ih]
  by_cases h8 : c.toNat < 32
  · have hq : c.toNat / 16 < 16 := by omega
    have hm : c.toNat % 16 < 16 := Nat.mod_lt _ (by decide)
    have hval : ((0 * 16 + 0) * 16 + c.toNat / 16) * 16 + c.toNat % 16 = c.toNat := by
      have := Nat.div_add_mod c.toNat 16
      omega
    have hns : ¬ (0xD800 ≤ c.toNat ∧ c.toNat ≤ 0xDFFF) := by omega
    simp only [h1, h2, h3, h4, h5, h6, h7, h8, if_false, if_true, List.cons_append,
      List.nil_append]
    rw [readString_cons]
    have hval2 : c.toNat / 16 * 16 + c.toNat % 16 = c.toNat := by omega
    simp [hex4, hexVal_hexChar _ hq, hexVal_hexChar _ hm, hexVal_zero, hval2, ih,
      Char.ofNat_toNat]
    rw [if_neg hns]
  · simp only [h1, h2, h3, h4, h5, h6, h7, h8, if_false, List.cons_append, List.nil_append]
    rw [readString_cons]
    simp [h1, h2, h8, ih]

/-- Reading a quoted string body up to its closing quote gives the string. -/
theorem readString_quoteBody (cs rest : List Char) :
    readString (quoteBody cs ++ '"' :: rest) = some (cs, rest) := by
  induction cs with
  | nil => simp [quoteBody, readString_cons]
  | cons c cs ih =>
    simp only [quoteBody, List.append_assoc]
    exact readString_quoteChar c _ cs rest ih

theorem skipWs_cons (c : Char) (cs : List Char) (h : isWs c = false) :
    skipWs (c :: cs) = c :: cs := by
  simp [skipWs, h]

theorem digitChar_ne_brace : ∀ d, d < 10 → digitChar d ≠ '}' := by decide

/-- A value's text starts with a character that is neither white space nor a
closing bracket, and that tells which kind of value follows. -/
theorem write_head (v : JsVal) :
    ∃ c cs, write v = c :: cs ∧ isWs c = false ∧ c ≠ ']' ∧ c ≠ '}' := by
  cases v with
  | null => exact ⟨'n', _, rfl, by decide, by decide, by decide⟩
  | bool b =>
    cases b
    · exact ⟨'f', _, rfl, by decide, by decide, by decide⟩
    · exact ⟨'t', _, rfl, by decide, by decide, by decide⟩
  | num n =>
    cases n with
    | ofNat n =>
      obtain ⟨d, ds, hd, hlt⟩ := decimal_head n
      have hf := digitChar_facts d hlt
      exact ⟨digitChar d, ds, by simp [write, intChars, hd], hf.2.2.2.1,
        hf.2.2.2.2.2.2.2.2.2.2.2, digitChar_ne_brace d hlt⟩
    | negSucc n => exact ⟨'-', _, rfl, by decide, by decide, by decide⟩
  | str s => exact ⟨'"', _, rfl, by decide, by decide, by decide⟩
  | arr xs => exact ⟨'[', _, rfl, by decide, by decide, by decide⟩
  | obj kvs => exact ⟨'{', _, rfl, by decide, by decide, by decide⟩

theorem write_length_pos (v : JsVal) : 1 ≤ (write v).length := by
  obtain ⟨c, cs, h, -⟩ := write_head v
  rw [h]
  simp

theorem readValue_succ (fuel : Nat) (c : Char) (rest : List Char) (h : isWs c = false) :
    readValue (fuel + 1) (c :: rest) =
      if c = 'n' then (expect ['u', 'l', 'l'] rest).map fun r => (JsVal.null, r)
      else if c = 't' then (expect ['r', 'u', 'e'] rest).map fun r => (JsVal.bool true, r)
      else if c = 'f' then
        (expect ['a', 'l', 's', 'e'] rest).map fun r => (JsVal.bool false, r)
      else if c = '"' then
        (readString rest).map fun p => (JsVal.str (String.mk p.1), p.2)
      else if c = '[' then
        match skipWs rest with
        | ']' :: r => some (JsVal.arr [], r)
        | r => (readElems fuel r).map fun p => (JsVal.arr p.1, p.2)
      else if c = '{' then
        match skipWs rest with
        | '}' :: r => some (JsVal.obj [], r)
        | r => (readMembers fuel r).map fun p => (JsVal.obj p.1, p.2)
      else if c = '-' then
        (readNat rest).map fun p => (JsVal.num (-(p.1 : Int)), p.2)
      else (readNat (c :: rest)).map fun p => (JsVal.num (p.1 : Int), p.2) := by
  rw [readValue, skipWs_cons c rest h]

theorem readValue_num (fuel : Nat) (n : Int) (rest : List Char)
    (hr : ∀ c cs, rest = c :: cs → isDigit c = false) :
    readValue (fuel + 1) (write (JsVal.num n) ++ rest) = some (JsVal.num n, rest) := by
  cases n with
  | ofNat n =>
    obtain ⟨d, ds, hd, hlt⟩ := decimal_head n
    obtain ⟨-, -, -, hw, h1, h2, h3, h4, h5, h6, h7, -⟩ := digitChar_facts d hlt
    have hnat := readNat_decimal n rest hr
    simp only [write, intChars]
    rw [hd] at hnat ⊢
    simp only [List.cons_append] at hnat ⊢
    rw [readValue_succ fuel _ _ hw]
    simp [h1, h2, h3, h4, h5, h6, h7, hnat]
  | negSucc n =>
    have hnat := readNat_decimal (n + 1) rest hr
    simp only [write, intChars, List.cons_append]
    rw [readValue_succ fuel _ _ (by decide)]
    simp [hnat]
    rw [Int.negSucc_eq]
    ring

theorem readValue_str (fuel : Nat) (s : String) (rest : List Char) :
    readValue (fuel + 1) (write (JsVal.str s) ++ rest) = some (JsVal.str s, rest) := by
  simp only [write, quote, List.cons_append, List.append_assoc, List.singleton_append]
  rw [readValue_succ fuel _ _ (by decide)]
  simp [readString_quoteBody]

theorem not_digit_head (c : Char) (rest : List Char) (h : isDigit c = false) :
    ∀ d ds, c :: rest = d :: ds → isDigit d = false := by
  intro d ds e
  injection e with e1 _
  rw [← e1]
  exact h

theorem readElems_succ (fuel : Nat) (cs : List Char) :
    readElems (fuel + 1) cs =
      match readValue fuel cs with
      | none => none
      | some (v, r) =>
        match skipWs r with
        | c :: r1 =>
          if c = ',' then (readElems fuel r1).map fun p => (v :: p.1, p.2)
          else if c = ']' then some ([v], r1)
          else none
        | [] => none := by
  rw [readElems]

theorem readMembers_succ (fuel : Nat) (cs : List Char) :
    readMembers (fuel + 1) cs =
      match skipWs cs with
      | c :: r =>
        if c = '"' then
          match readString r with
          | none => none
          | some (k, r1) =>
            match skipWs r1 with
            | c1 :: r2 =>
              if c1 = ':' then
                match readValue fuel r2 with
                | none => none
                | some (v, r3) =>
                  match skipWs r3 with
                  | c2 :: r4 =>
                    if c2 = ',' then
                      (readMembers fuel r4).map fun p => ((String.mk k, v) :: p.1, p.2)
                    else if c2 = '}' then some ([(String.mk k, v)], r4)
                    else none
                  | [] => none
              else none
            | [] => none
        else none
      | [] => none := by
  rw [readMembers]

mutual
/-- Reading the text of a value gives the value and leaves what follows, when
the fuel covers the length of the text and no digit follows. -/
theorem readValue_write : ∀ (v : JsVal) (fuel : Nat) (rest : List Char),
    (write v).length ≤ fuel → (∀ c cs, rest = c :: cs → isDigit c = false) →
    readValue fuel (write v ++ rest) = some (v, rest)
  | JsVal.null, fuel, rest, hf, _ => by
    obtain ⟨f, rfl⟩ : ∃ f, fuel = f + 1 := ⟨fuel - 1, by simp [write] at hf; omega⟩
    simp only [write, List.cons_append]
    rw [readValue_succ f _ _ (by decide)]
    simp [expect]
  | JsVal.bool true, fuel, rest, hf, _ => by
    obtain ⟨f, rfl⟩ : ∃ f, fuel = f + 1 := ⟨fuel - 1, by simp [write] at hf; omega⟩
    simp only [write, List.cons_append]
    rw [readValue_succ f _ _ (by decide)]
    simp [expect]
  | JsVal.bool false, fuel, rest, hf, _ => by
    obtain ⟨f, rfl⟩ : ∃ f, fuel = f + 1 := ⟨fuel - 1, by simp [write] at hf; omega⟩
    simp only [write, List.cons_append]
    rw [readValue_succ f _ _ (by decide)]
    simp [expect]
  | JsVal.num n, fuel, rest, hf, hr => by
    have := write_length_pos (JsVal.num n)
    obtain ⟨f, rfl⟩ : ∃ f, fuel = f + 1 := ⟨fuel - 1, by omega⟩
    exact readValue_num f n rest hr
  | JsVal.str s, fuel, rest, hf, _ => by
    have := write_length_pos (JsVal.str s)
    obtain ⟨f, rfl⟩ : ∃ f, fuel = f + 1 := ⟨fuel - 1, by omega⟩
    exact readValue_str f s rest
  | JsVal.arr xs, fuel, rest, hf, _ => by
    have := write_length_pos (JsVal.arr xs)
    obtain ⟨f, rfl⟩ : ∃ f, fuel = f + 1 := ⟨fuel - 1, by omega⟩
    simp only [write, List.cons_append, List.length_cons] at hf ⊢
    rw [readValue_succ f _ _ (by decide)]
    simp only [show ¬ ('[' = 'n') by decide, show ¬ ('[' = 't') by decide,
      show ¬ ('[' = 'f') by decide, show ¬ ('[' = '"') by decide, if_false, if_true]
    match xs, hf with
    | [], _ => simp [writeElems, skipWs, isWs]
    | x :: xs', hf =>
      have ih := readElems_write (x :: xs') f rest (by simp) (by omega)
      obtain ⟨c, cs, hc, hw, hb, -⟩ := write_head x
      have hstart : ∃ tl, writeElems (x :: xs') ++ rest = c :: tl := by
        cases xs' with
        | nil => exact ⟨cs ++ ']' :: rest, by simp [writeElems, hc]⟩
        | cons y ys =>
          exact ⟨cs ++ ',' :: (writeElems (y :: ys) ++ rest), by simp [writeElems, hc]⟩
      obtain ⟨tl, htl⟩ := hstart
      rw [htl] at ih ⊢
      rw [skipWs_cons c tl hw]
      split
      · rename_i r heq
        injection heq with h1 _
        exact absurd h1 hb
      · rw [ih]
        rfl
  | JsVal.obj kvs, fuel, rest, hf, _ => by
    have := write_length_pos (JsVal.obj kvs)
    obtain ⟨f, rfl⟩ : ∃ f, fuel = f + 1 := ⟨fuel - 1, by omega⟩
    simp only [write, List.cons_append, List.length_cons] at hf ⊢
    rw [readValue_succ f _ _ (by decide)]
    simp only [show ¬ ('{' = 'n') by decide, show ¬ ('{' = 't') by decide,
      show ¬ ('{' = 'f') by decide, show ¬ ('{' = '"') by decide,
      show ¬ ('{' = '[') by decide, if_false, if_true]
    match kvs, hf with
    | [], _ => simp [writeMembers, skipWs, isWs]
    | (k, v) :: kvs', hf =>
      have ih := readMembers_write ((k, v) :: kvs') f rest (by simp) (by omega)
      have hstart : ∃ tl, writeMembers ((k, v) :: kvs') ++ rest = '"' :: tl := by
        cases kvs' with
        | nil =>
          exact ⟨quoteBody k.data ++ '"' :: ':' :: (write v ++ '}' :: rest),
            by simp [writeMembers, quote]⟩
        | cons y ys =>
          exact ⟨quoteBody k.data ++ '"' :: ':' :: (write v ++ ',' ::
            (writeMembers (y :: ys) ++ rest)), by simp [writeMembers, quote]⟩
      obtain ⟨tl, htl⟩ := hstart
      rw [htl] at ih ⊢
      rw [skipWs_cons '"' tl (by decide)]
      split
      · rename_i r heq
        injection heq with h1 _
        exact absurd h1 (by decide)
      · rw [ih]
        rfl
/-- Reading the text of the elements of a non-empty array. -/
theorem readElems_write : ∀ (xs : List JsVal) (fuel : Nat) (rest : List Char),
    xs ≠ [] → (writeElems xs).length ≤ fuel →
    readElems fuel (writeElems xs ++ rest) = some (xs, rest)
  | [], _, _, h, _ => absurd rfl h
  | [x], fuel, rest, _, hf => by
    have := write_length_pos x
    simp only [writeElems, List.length_append, List.length_singleton] at hf
    obtain ⟨f, rfl⟩ : ∃ f, fuel = f + 1 := ⟨fuel - 1, by omega⟩
    have ih := readValue_write x f (']' :: rest) (by omega)
      (not_digit_head ']' rest (by decide))
    simp only [writeElems, List.append_assoc, List.singleton_append]
    rw [readElems_succ, ih]
    simp [skipWs, isWs]
  | x :: y :: ys, fuel, rest, _, hf => by
    have := write_length_pos x
    simp only [writeElems, List.length_append, List.length_cons] at hf
    obtain ⟨f, rfl⟩ : ∃ f, fuel = f + 1 := ⟨fuel - 1, by omega⟩
    have ih := readValue_write x f (',' :: (writeElems (y :: ys) ++ rest)) (by omega)
      (not_digit_head ',' _ (by decide))
    have ih2 := readElems_write (y :: ys) f rest (by simp) (by omega)
    simp only [writeElems, List.append_assoc, List.cons_append]
    rw [readElems_succ, ih]
    simp [skipWs, isWs, ih2]
/-- Reading the text of the members of a non-empty object. -/
theorem readMembers_write : ∀ (kvs : List (String × JsVal)) (fuel : Nat) (rest : List Char),
    kvs ≠ [] → (writeMembers kvs).length ≤ fuel →
    readMembers fuel (writeMembers kvs ++ rest) = some (kvs, rest)
  | [], _, _, h, _ => absurd rfl h
  | [(k, v)], fuel, rest, _, hf => by
    have := write_length_pos v
    simp only [writeMembers, quote, List.length_append, List.length_cons,
      List.length_singleton] at hf
    obtain ⟨f, rfl⟩ : ∃ f, fuel = f + 1 := ⟨fuel - 1, by omega⟩
    have ih := readValue_write v f ('}' :: rest) (by omega)
      (not_digit_head '}' rest (by decide))
    simp only [writeMembers, quote, List.append_assoc, List.cons_append,
      List.singleton_append, List.nil_append]
    rw [readMembers_succ, skipWs_cons '"' _ (by decide)]
    simp [readString_quoteBody, skipWs, isWs, ih]
  | (k, v) :: kv :: kvs, fuel, rest, _, hf => by
    have := write_length_pos v
    simp only [writeMembers, quote, List.length_append, List.length_cons,
      List.length_singleton] at hf
    obtain ⟨f, rfl⟩ : ∃ f, fuel = f + 1 := ⟨fuel - 1, by omega⟩
    have ih := readValue_write v f (',' :: (writeMembers (kv :: kvs) ++ rest)) (by omega)
      (not_digit_head ',' _ (by decide))
    have ih2 := readMembers_write (kv :: kvs) f rest (by simp) (by omega)
    simp only [writeMembers, quote, List.append_assoc, List.cons_append,
      List.singleton_append, List.nil_append]
    rw [readMembers_succ, skipWs_cons '"' _ (by decide)]
    simp [readString_quoteBody, skipWs, isWs, ih, ih2]
end

/-- `JSON.parse(JSON.stringify(v))` is `v`, for every JSON value `v`. -/
theorem parse_stringify (v : JsVal) : parse (stringify v) = Except.ok v := by
  have h := readValue_write v ((write v).length + 1) [] (by omega)
    (fun c cs e => by cases e)
  simp only [List.append_nil] at h
  simp [parse, stringify, String.length, h, skipWs]

/-- The text of an array is not the empty string. -/
theorem stringify_arr_ne_empty (xs : List JsVal) : stringify (JsVal.arr xs) ≠ "" := by
  intro h
  have := congrArg String.data h
  simp [stringify, write] at this

end JSON

/-! ## The gallery store and its stored copy -/

/-- On an array gallery `addAll` returns: the artifacts are appended in order
and, when there is one, the stored text is that of the whole new gallery. -/
theorem addAll_arr (as : List JsVal) :
    ∀ (s : App) (g : List JsVal), s.reels = JsVal.arr g →
      ∃ s1, addAll as s = Except.ok s1 ∧ s1.reels = JsVal.arr (g ++ as) ∧
        (as = [] → s1.storage = s.storage) ∧
        (as ≠ [] → s1.storage = some (JSON.stringify (JsVal.arr (g ++ as)))) := by
  induction as with
  | nil =>
    intro s g hg
    exact ⟨s, rfl, by simpa using hg, fun _ => rfl, fun h => absurd rfl h⟩
  | cons a rest ih =>
    intro s g hg
    obtain ⟨s1, h1, hr1, hs1, -⟩ := addReelToGallery_arr a s g hg
    obtain ⟨s2, h2, hr2, hsn, hsc⟩ := ih s1 (g ++ [a]) hr1
    refine ⟨s2, by simp [addAll, h1, h2], by simpa using hr2, fun h => (by cases h), fun _ => ?_⟩
    cases rest with
    | nil => rw [hsn rfl, hs1]
    | cons b bs =>
      rw [hsc (by simp)]
      simp

/-- What `loadReels` makes of a stored text that `JSON.parse` accepts. -/
theorem loadReels_parsed (s : App) (saved : String) (v : JsVal) (hs : s.storage = some saved)
    (hne : saved ≠ "") (hp : JSON.parse saved = Except.ok v) :
    loadReels s = { s with reels := v } := by
  simp [loadReels, hs, hne, hp]

/-- C8: appending any artifacts `A1..An` with `addReelToGallery` to the empty
gallery of a freshly initialised page succeeds, and a fresh store that then
loads what was persisted holds the gallery `[A1..An]`: the same artifacts in
the same order.  The same holds for the constructor followed by `init`. -/
theorem gallery_round_trip (as : List JsVal) :
    ∃ s1, addAll as (App.init none) = Except.ok s1 ∧
      s1.reels = JsVal.arr as ∧
      (loadReels (App.fresh s1.storage)).reels = JsVal.arr as ∧
      (App.init s1.storage).reels = JsVal.arr as := by
  obtain ⟨s1, h1, hr, hsn, hsc⟩ := addAll_arr as (App.init none) [] rfl
  simp only [List.nil_append] at hr hsc
  have hload : (loadReels (App.fresh s1.storage)).reels = JsVal.arr as := by
    cases as with
    | nil =>
      rw [hsn rfl]
      rfl
    | cons a rest =>
      rw [hsc (by simp)]
      rw [loadReels_parsed _ _ _ rfl (JSON.stringify_arr_ne_empty _) (JSON.parse_stringify _)]
  exact ⟨s1, h1, hr, hload, hload⟩

set_option maxRecDepth 100000 in
/-- C8 on the artifacts A, B, C: the text persisted after the three appends
loads into a fresh store as `[A, B, C]`. -/
theorem gallery_round_trip_abc :
    ∃ s1, addAll [Sample.artifactA, Sample.artifactB, Sample.artifactC] (App.init none)
        = Except.ok s1 ∧
      (loadReels (App.fresh s1.storage)).reels
        = JsVal.arr [Sample.artifactA, Sample.artifactB, Sample.artifactC] :=
  ⟨_, rfl, rfl⟩

/-- C10, counterexample: `loadReels` sets the in-memory gallery and writes
nothing.  With a stored gallery text that has blanks in it, `this.reels`
changes from `[]` to the parsed one-reel gallery while the stored text stays
the one read, which is not `JSON.stringify` of the gallery now in memory, and
`init` renders that gallery with no storage write before it.  With a stored
text that `JSON.parse` rejects, `this.reels` is set to `[]` while the stored
text stays the rejected one, the serialization of no gallery at all. -/
theorem load_changes_gallery_without_write :
    (App.fresh (some Sample.spacedText)).reels = JsVal.arr [] ∧
      (loadReels (App.fresh (some Sample.spacedText))).reels
        = JsVal.arr [JsVal.obj [("id", JsVal.str "reel_1")]] ∧
      (loadReels (App.fresh (some Sample.spacedText))).storage
        = some Sample.spacedText ∧
      JSON.stringify (loadReels (App.fresh (some Sample.spacedText))).reels
        = Sample.compactText ∧
      (loadReels (App.fresh (some Sample.spacedText))).storage
        ≠ some (JSON.stringify (loadReels (App.fresh (some Sample.spacedText))).reels) ∧
      (App.init (some Sample.spacedText)).log
        = [Event.render (JsVal.arr [JsVal.obj [("id", JsVal.str "reel_1")]])] ∧
      (loadReels (App.fresh (some Sample.brokenText))).reels = JsVal.arr [] ∧
      (loadReels (App.fresh (some Sample.brokenText))).storage = some Sample.brokenText ∧
      JSON.parse Sample.brokenText = Except.error "Unexpected token in JSON" ∧
      (loadReels (App.fresh (some Sample.brokenText))).storage
        ≠ some (JSON.stringify (loadReels (App.fresh (some Sample.brokenText))).reels) := by
  refine ⟨rfl, rfl, rfl, rfl, ?_, rfl, rfl, rfl, rfl, ?_⟩
  · have h1 : (loadReels (App.fresh (some Sample.spacedText))).storage
        = some Sample.spacedText := rfl
    have h2 : JSON.stringify (loadReels (App.fresh (some Sample.spacedText))).reels
        = Sample.compactText := rfl
    rw [h1, h2]
    decide
  · have h1 : (loadReels (App.fresh (some Sample.brokenText))).storage
        = some Sample.brokenText := rfl
    have h2 : JSON.stringify (loadReels (App.fresh (some Sample.brokenText))).reels
        = "[]" := rfl
    rw [h1, h2]
    decide

/-- C10, amended: `addReelToGallery` on an array gallery appends the reel,
then stores `JSON.stringify` of the gallery now in memory, and only then
renders that gallery: these two events, in this order, are all it logs.  A
fresh store that loads the text so stored holds a gallery whose
serialization is that stored text. -/
theorem append_is_stored_before_render (reel : JsVal) (s : App) (g : List JsVal)
    (hg : s.reels = JsVal.arr g) :
    ∃ s1, addReelToGallery reel s = Except.ok s1 ∧
      s1.reels = JsVal.arr (g ++ [reel]) ∧
      s1.storage = some (JSON.stringify s1.reels) ∧
      s1.log = s.log ++ [Event.setItem (JSON.stringify s1.reels), Event.render s1.reels] ∧
      (loadReels (App.fresh s1.storage)).reels = s1.reels ∧
      (loadReels (App.fresh s1.storage)).storage
        = some (JSON.stringify (loadReels (App.fresh s1.storage)).reels) := by
  obtain ⟨s1, h1, hr, hs, hl, -, -⟩ := addReelToGallery_arr reel s g hg
  have hload : loadReels (App.fresh s1.storage)
      = { App.fresh s1.storage with reels := JsVal.arr (g ++ [reel]) } := by
    rw [hs]
    exact loadReels_parsed _ _ _ rfl (JSON.stringify_arr_ne_empty _) (JSON.parse_stringify _)
  refine ⟨s1, h1, hr, by rw [hs, hr], by rw [hl, hr], by rw [hload, hr], ?_⟩
  rw [hload]
  simp [App.fresh, hs]

/-- Witness of C10 amended: the first append on a freshly initialised page. -/
theorem append_is_stored_before_render_witness :
    (App.init none).reels = JsVal.arr [] ∧
      ∃ s1, addReelToGallery Sample.artifactA (App.init none) = Except.ok s1 ∧
        s1.reels = JsVal.arr [Sample.artifactA] ∧
        s1.storage = some (JSON.stringify s1.reels) ∧
        s1.log = (App.init none).log
          ++ [Event.setItem (JSON.stringify s1.reels), Event.render s1.reels] :=
  have h := append_is_stored_before_render Sample.artifactA (App.init none) [] rfl
  ⟨rfl, h.choose, h.choose_spec.1, h.choose_spec.2.1, h.choose_spec.2.2.1,
    h.choose_spec.2.2.2.1⟩

/-! ## Normalized artifacts and their names -/

theorem artifacts_getElem (dates : Nat → Date) (fileId : Option JsVal) (reels : List ReelInfo) :
    ∀ (i k : Nat), (artifacts dates fileId i reels)[k]?
      = (reels[k]?).map fun r =>
          reelData fileId r (dates (2 * (i + k))) (dates (2 * (i + k) + 1)) := by
  induction reels with
  | nil => intro i k; simp [artifacts]
  | cons r rs ih =>
    intro i k
    cases k with
    | zero => simp [artifacts]
    | succ k =>
      simp only [artifacts, List.getElem?_cons_succ]
      rw [ih (i + 1) k]
      have : i + 1 + k = i + (k + 1) := by omega
      rw [this]

/-- The properties of the object literal `reelData`. -/
theorem reelData_get (fileId : Option JsVal) (reel : ReelInfo) (stamp created : Date) :
    (reelData fileId reel stamp created).get "id" = reel.id ∧
      (reelData fileId reel stamp created).get "file_id" = fileId ∧
      (reelData fileId reel stamp created).get "name"
        = some (JsVal.str (displayName reel.id stamp.localeString)) ∧
      (reelData fileId reel stamp created).get "duration" = reel.duration ∧
      (reelData fileId reel stamp created).get "style" = reel.style ∧
      (reelData fileId reel stamp created).get "url" = reel.url ∧
      (reelData fileId reel stamp created).get "thumbnail" = reel.thumbnail ∧
      (reelData fileId reel stamp created).get "created_at"
        = some (JsVal.str created.isoString) := by
  obtain ⟨id, duration, style, url, thumbnail⟩ := reel
  cases id <;> cases fileId <;> cases duration <;> cases style <;> cases url <;>
    cases thumbnail <;>
    exact ⟨rfl, rfl, rfl, rfl, rfl, rfl, rfl, rfl⟩

/-- C11: on a gallery `G` that is an array, `handleGenerationComplete(data)`
returns and leaves the gallery equal to `G` followed by one artifact per
reel of the payload, in payload order.  The `i`-th new artifact has the `id`,
`duration`, `style`, `url` and `thumbnail` of the `i`-th reel (a property the
reel lacks is lacking in the artifact), the payload's `file_id`, the display
name made of that id and the timestamp read for that reel, and the
`created_at` read for it.  A payload without reels leaves the gallery as it
was. -/
theorem completion_appends_normalized (dates : Nat → Date) (data : StatusBody) (s : App)
    (g : List JsVal) (hg : s.reels = JsVal.arr g) :
    ∃ s1, handleGenerationComplete dates data s = Except.ok s1 ∧
      s1.reels = JsVal.arr (g ++ data.artifacts dates) ∧
      (data.artifacts dates).length = (data.reels.getD []).length ∧
      (∀ i r, (data.reels.getD [])[i]? = some r →
        ∃ a, (data.artifacts dates)[i]? = some a ∧
          a.get "id" = r.id ∧ a.get "duration" = r.duration ∧ a.get "style" = r.style ∧
          a.get "url" = r.url ∧ a.get "thumbnail" = r.thumbnail ∧
          a.get "file_id" = data.file_id ∧
          a.get "name" = some (JsVal.str (displayName r.id (dates (2 * i)).localeString)) ∧
          a.get "created_at" = some (JsVal.str (dates (2 * i + 1)).isoString)) ∧
      (data.reels.getD [] = [] → s1.reels = s.reels) := by
  obtain ⟨s1, h1, hr, -⟩ := handleGenerationComplete_arr dates data s g hg
  refine ⟨s1, h1, hr, artifacts_length _ _ _ _, ?_, ?_⟩
  · intro i r hi
    have hk := artifacts_getElem dates data.file_id (data.reels.getD []) 0 i
    rw [hi] at hk
    simp only [Option.map_some', Nat.zero_add] at hk
    obtain ⟨a1, a2, a3, a4, a5, a6, a7, a8⟩ :=
      reelData_get data.file_id r (dates (2 * i)) (dates (2 * i + 1))
    exact ⟨_, hk, a1, a4, a5, a6, a7, a2, a3, a8⟩
  · intro h0
    rw [hr, hg]
    simp [StatusBody.artifacts, h0, artifacts]

/-- Witness of C11: the two-reel payload on the empty gallery of a freshly
initialised page. -/
theorem completion_appends_normalized_witness :
    (App.init none).reels = JsVal.arr [] ∧
      ∃ s1, handleGenerationComplete (Sample.clock 3) Sample.done (App.init none) = Except.ok s1 ∧
        s1.reels = JsVal.arr ([] ++ Sample.done.artifacts (Sample.clock 3)) ∧
        (Sample.done.artifacts (Sample.clock 3)).length = 2 :=
  match completion_appends_normalized (Sample.clock 3) Sample.done (App.init none) [] rfl with
  | ⟨s1, h1, h2, h3, _⟩ => ⟨rfl, s1, h1, h2, h3⟩

theorem displayName_data (id : Option JsVal) (t : String) :
    (displayName id t).data = (jsString id).data ++ ' ' :: '(' :: (t.data ++ [')']) := by
  simp [displayName, String.data_append]

theorem nameOf_reelData (fileId : Option JsVal) (reel : ReelInfo) (stamp created : Date) :
    nameOf (reelData fileId reel stamp created)
      = some (displayName reel.id stamp.localeString) := by
  unfold nameOf
  rw [(reelData_get fileId reel stamp created).2.2.1]

/-- Equal display names with equal timestamps have equal id texts, and equal
display names with equal id texts have equal timestamps. -/
theorem displayName_inj (id1 id2 : Option JsVal) (t1 t2 : String)
    (h : displayName id1 t1 = displayName id2 t2) :
    (t1 = t2 → jsString id1 = jsString id2) ∧ (jsString id1 = jsString id2 → t1 = t2) := by
  have hd := congrArg String.data h
  rw [displayName_data, displayName_data] at hd
  constructor
  · intro ht
    subst ht
    exact String.ext ((List.append_left_inj _).1 hd)
  · intro hi
    rw [hi] at hd
    have h1 := (List.append_right_inj _).1 hd
    simp only [List.cons.injEq, true_and] at h1
    exact String.ext ((List.append_left_inj _).1 h1)

theorem split_at_paren (T1 T2 : List Char) (h1 : '(' ∉ T1) (h2 : '(' ∉ T2) :
    ∀ A1 A2 : List Char, A1 ++ '(' :: T1 = A2 ++ '(' :: T2 → A1 = A2 ∧ T1 = T2 := by
  intro A1
  induction A1 with
  | nil =>
    intro A2 h
    cases A2 with
    | nil =>
      simp only [List.nil_append, List.cons.injEq, true_and] at h
      exact ⟨rfl, h⟩
    | cons c cs =>
      simp only [List.nil_append, List.cons_append, List.cons.injEq] at h
      exact absurd (by rw [h.2]; simp) h1
  | cons a as ih =>
    intro A2 h
    cases A2 with
    | nil =>
      simp only [List.nil_append, List.cons_append, List.cons.injEq] at h
      exact absurd (by rw [← h.2]; simp) h2
    | cons c cs =>
      simp only [List.cons_append, List.cons.injEq] at h
      obtain ⟨e1, e2⟩ := ih cs h.2
      exact ⟨by rw [h.1, e1], e2⟩

/-- When the timestamps hold no opening parenthesis, equal display names have
equal id texts and equal timestamps. -/
theorem displayName_eq_iff (id1 id2 : Option JsVal) (t1 t2 : String)
    (h1 : '(' ∉ t1.data) (h2 : '(' ∉ t2.data) :
    displayName id1 t1 = displayName id2 t2 ↔ jsString id1 = jsString id2 ∧ t1 = t2 := by
  constructor
  · intro h
    have hd := congrArg String.data h
    rw [displayName_data, displayName_data] at hd
    have e : ∀ (I T : List Char), I ++ ' ' :: '(' :: (T ++ [')'])
        = (I ++ [' ']) ++ '(' :: (T ++ [')']) := by
      intro I T; simp
    rw [e, e] at hd
    have n1 : '(' ∉ t1.data ++ [')'] := by
      simp only [List.mem_append, List.mem_singleton, not_or]
      exact ⟨h1, by decide⟩
    have n2 : '(' ∉ t2.data ++ [')'] := by
      simp only [List.mem_append, List.mem_singleton, not_or]
      exact ⟨h2, by decide⟩
    obtain ⟨a, b⟩ := split_at_paren _ _ n1 n2 _ _ hd
    exact ⟨String.ext ((List.append_left_inj _).1 a), String.ext ((List.append_left_inj _).1 b)⟩
  · rintro ⟨a, b⟩
    unfold displayName
    rw [a, b]

set_option maxRecDepth 100000 in
/-- C12, counterexample: a completion payload whose two reels share the id
`reel_1`, handled while the clock reads the same second for both.
`handleGenerationComplete` appends two artifacts with one and the same
`name`. -/
theorem same_id_same_second_same_name :
    ∃ s1 a b, handleGenerationComplete (Sample.clock 3) Sample.twins (App.init none)
        = Except.ok s1 ∧
      s1.reels = JsVal.arr [a, b] ∧
      a.get "id" = some (JsVal.str "reel_1") ∧ b.get "id" = some (JsVal.str "reel_1") ∧
      a.get "url" = some (JsVal.str "/r/1.mp4") ∧ b.get "url" = some (JsVal.str "/r/1b.mp4") ∧
      nameOf a = some "reel_1 (1/5/2026, 10:00:00 AM)" ∧
      nameOf b = some "reel_1 (1/5/2026, 10:00:00 AM)" :=
  ⟨_, _, _, rfl, rfl, rfl, rfl, rfl, rfl, rfl, rfl⟩

/-- C12, amended: take two artifacts that `handleGenerationComplete` appends,
the `i`-th of one payload and the `j`-th of another or of the same payload.
When the timestamps read for them hold no opening parenthesis, their `name`
values are equal exactly when their ids print alike and the two timestamps
are the same text; so the names differ as soon as the ids print differently
or the timestamps differ. -/
theorem names_differ_with_id_or_timestamp (data1 data2 : StatusBody)
    (dates1 dates2 : Nat → Date) (i j : Nat) (r1 r2 : ReelInfo)
    (hi : (data1.reels.getD [])[i]? = some r1) (hj : (data2.reels.getD [])[j]? = some r2)
    (h1 : '(' ∉ (dates1 (2 * i)).localeString.data)
    (h2 : '(' ∉ (dates2 (2 * j)).localeString.data) :
    ∃ a b, (data1.artifacts dates1)[i]? = some a ∧ (data2.artifacts dates2)[j]? = some b ∧
      (nameOf a = nameOf b ↔
        jsString r1.id = jsString r2.id ∧
          (dates1 (2 * i)).localeString = (dates2 (2 * j)).localeString) := by
  have ha := artifacts_getElem dates1 data1.file_id (data1.reels.getD []) 0 i
  have hb := artifacts_getElem dates2 data2.file_id (data2.reels.getD []) 0 j
  rw [hi] at ha
  rw [hj] at hb
  simp only [Option.map_some', Nat.zero_add] at ha hb
  refine ⟨_, _, ha, hb, ?_⟩
  rw [nameOf_reelData, nameOf_reelData]
  rw [← displayName_eq_iff _ _ _ _ h1 h2]
  constructor
  · intro h; injection h
  · intro h; rw [h]

/-- Witness of C12 amended: the two reels of the sample payload, `reel_1` and
`reel_2`, handled in the same second, get different names. -/
theorem names_differ_with_id_or_timestamp_witness :
    ∃ a b, (Sample.done.artifacts (Sample.clock 3))[0]? = some a ∧
      (Sample.done.artifacts (Sample.clock 3))[1]? = some b ∧
      nameOf a ≠ nameOf b :=
  match names_differ_with_id_or_timestamp Sample.done Sample.done (Sample.clock 3)
      (Sample.clock 3) 0 1 (Sample.reel "reel_1" "/r/1.mp4") (Sample.reel "reel_2" "/r/2.mp4")
      rfl rfl (by decide) (by decide) with
  | ⟨a, b, ha, hb, h⟩ => ⟨a, b, ha, hb, fun e => absurd (h.1 e).1 (by decide)⟩

/-! ## Poster and blog after the transcript -/

/-- The requests and the error of the shared `try` block: the transcript
request always, the dependent request exactly when the transcript reply
reports success; a transcript reply that does not throws its message. -/
theorem transcriptThen_requests (fileId : JsVal) (dependent : Request)
    (display : ApiBody → Page → PageOutcome)
    (hd : ∀ d q, (display d q).page.requests = q.requests)
    (transcript reply : Reply) (p : Page) :
    (transcriptThen fileId dependent display transcript reply p).page.requests
        = p.requests ++ Request.generateTranscript fileId
            :: (if transcript.succeeded then [dependent] else []) ∧
      (transcript.succeeded = false →
        transcriptThen fileId dependent display transcript reply p
          = Except.error (transcript.failureMessage, p.send (Request.generateTranscript fileId))) := by
  unfold transcriptThen
  cases transcript with
  | networkError m => simp [Reply.succeeded, Reply.failureMessage, PageOutcome.page, Page.send]
  | bodyError m => simp [Reply.succeeded, Reply.failureMessage, PageOutcome.page, Page.send]
  | body t =>
    by_cases hs : jsTruthy t.success = true
    · simp only [Reply.succeeded, hs, Bool.not_true, if_true]
      constructor
      · cases reply with
        | networkError m => simp [PageOutcome.page, Page.send]
        | bodyError m => simp [PageOutcome.page, Page.send]
        | body d =>
          by_cases hds : jsTruthy d.success = true
          · simp [hds, hd, Page.send]
          · simp [hds, PageOutcome.page, Page.send]
      · intro h; cases h
    · simp [Reply.succeeded, Reply.failureMessage, hs, PageOutcome.page, Page.send]

theorem showPoster_requests (poster : Option PosterInfo) (q : Page) :
    (PageOutcome.page (match showPoster poster q with
      | Except.ok q1 => Except.ok (Page.showSuccess "Poster generated successfully!" q1)
      | Except.error e => Except.error e)).requests = q.requests := by
  unfold showPoster
  cases poster with
  | none => rfl
  | some info =>
    obtain ⟨u⟩ := info
    cases u with
    | none => rfl
    | some url =>
      by_cases h : url = ""
      · simp [h, PageOutcome.page, Page.showSuccess]
      · simp [h, PageOutcome.page, Page.showSuccess]

theorem showBlog_requests (blog : Option BlogInfo) (q : Page) :
    (PageOutcome.page (match showBlog blog q with
      | Except.ok q1 => Except.ok (Page.showSuccess "Blog article generated successfully!" q1)
      | Except.error e => Except.error e)).requests = q.requests := by
  unfold showBlog
  cases blog with
  | none => rfl
  | some info =>
    obtain ⟨u⟩ := info
    cases u with
    | none => rfl
    | some text =>
      by_cases h : text = ""
      · simp [h, PageOutcome.page, Page.showSuccess]
      · simp [h, PageOutcome.page, Page.showSuccess]

/-- What the `catch` and `finally` of the two pipelines keep of the `try`
block: its requests, and on a throw one error with the given prefix. -/
theorem pipeline_finish (prefixText : String) (tried : PageOutcome) :
    (showLoading false (match tried with
      | Except.ok q => q
      | Except.error (msg, q) => Page.showError (prefixText ++ msg) q)).requests
        = tried.page.requests ∧
      ∀ msg q, tried = Except.error (msg, q) →
        (showLoading false (match tried with
          | Except.ok q => q
          | Except.error (msg, q) => Page.showError (prefixText ++ msg) q)).errors
            = q.errors ++ [prefixText ++ msg] := by
  constructor
  · cases tried with
    | ok q => rfl
    | error e => rfl
  · intro msg q h
    subst h
    simp [showLoading, Page.showError, Page.errors, App.errors, showError, App.emit,
      List.filterMap_append]

/-- C13: with a file id set for the poster and blog buttons, and whatever the
server does, `handleGeneratePoster` and `handleGenerateBlog` send the
`/generate-transcript` request first; the dependent request
(`/generate-poster`, resp. `/generate-blog`) follows exactly when the
transcript reply reports success, and nothing else is sent.  When the
transcript reply does not report success (the fetch rejects, the body does
not parse, or `success` is falsy) the one error surfaced carries the message
of the transcript step. -/
theorem transcript_precedes_dependent (p : Page) (fileId : JsVal)
    (hf : p.posterBlogFileId = some fileId) (ht : fileId.truthy = true)
    (transcript reply : Reply) :
    (handleGeneratePoster transcript reply p).requests
        = p.requests ++ Request.generateTranscript fileId
            :: (if transcript.succeeded then [Request.generatePoster fileId] else []) ∧
      (handleGenerateBlog transcript reply p).requests
        = p.requests ++ Request.generateTranscript fileId
            :: (if transcript.succeeded then [Request.generateBlog fileId] else []) ∧
      (transcript.succeeded = false →
        (handleGeneratePoster transcript reply p).errors
            = p.errors ++ ["Poster generation failed: " ++ transcript.failureMessage] ∧
          (handleGenerateBlog transcript reply p).errors
            = p.errors ++ ["Blog generation failed: " ++ transcript.failureMessage]) := by
  have hP := transcriptThen_requests fileId (Request.generatePoster fileId)
    (fun data q =>
      match showPoster data.poster q with
      | Except.ok q1 => Except.ok (Page.showSuccess "Poster generated successfully!" q1)
      | Except.error e => Except.error e)
    (fun d q => showPoster_requests d.poster q) transcript reply (showLoading true p)
  have hB := transcriptThen_requests fileId (Request.generateBlog fileId)
    (fun data q =>
      match showBlog data.blog q with
      | Except.ok q1 => Except.ok (Page.showSuccess "Blog article generated successfully!" q1)
      | Except.error e => Except.error e)
    (fun d q => showBlog_requests d.blog q) transcript reply (showLoading true p)
  have eP : handleGeneratePoster transcript reply p
      = showLoading false (match transcriptThen fileId (Request.generatePoster fileId)
          (fun data q =>
            match showPoster data.poster q with
            | Except.ok q1 => Except.ok (Page.showSuccess "Poster generated successfully!" q1)
            | Except.error e => Except.error e)
          transcript reply (showLoading true p) with
        | Except.ok q => q
        | Except.error (msg, q) => Page.showError ("Poster generation failed: " ++ msg) q) := by
    simp [handleGeneratePoster, hf, ht]
  have eB : handleGenerateBlog transcript reply p
      = showLoading false (match transcriptThen fileId (Request.generateBlog fileId)
          (fun data q =>
            match showBlog data.blog q with
            | Except.ok q1 =>
              Except.ok (Page.showSuccess "Blog article generated successfully!" q1)
            | Except.error e => Except.error e)
          transcript reply (showLoading true p) with
        | Except.ok q => q
        | Except.error (msg, q) => Page.showError ("Blog generation failed: " ++ msg) q) := by
    simp [handleGenerateBlog, hf, ht]
  refine ⟨?_, ?_, ?_⟩
  · rw [eP, (pipeline_finish _ _).1, hP.1]
    rfl
  · rw [eB, (pipeline_finish _ _).1, hB.1]
    rfl
  · intro hfail
    constructor
    · rw [eP, (pipeline_finish _ _).2 _ _ (hP.2 hfail)]
      rfl
    · rw [eB, (pipeline_finish _ _).2 _ _ (hB.2 hfail)]
      rfl

/-- Witness of C13: on the uploaded page, a transcript reply that reports
failure with a message; only the transcript request is sent and its message
is surfaced. -/
theorem transcript_precedes_dependent_witness :
    (Sample.uploaded.posterBlogFileId = some (JsVal.str "abc") ∧
        (JsVal.str "abc").truthy = true) ∧
      (handleGeneratePoster (Reply.body Sample.failBody) (Reply.body Sample.okBody)
          Sample.uploaded).requests = [Request.generateTranscript (JsVal.str "abc")] ∧
      (handleGeneratePoster (Reply.body Sample.okBody) (Reply.body Sample.okBody)
          Sample.uploaded).requests
        = [Request.generateTranscript (JsVal.str "abc"),
            Request.generatePoster (JsVal.str "abc")] ∧
      (handleGenerateBlog (Reply.body Sample.failBody) (Reply.body Sample.okBody)
          Sample.uploaded).errors = ["Blog generation failed: No audio track"] :=
  have h1 := transcript_precedes_dependent Sample.uploaded (JsVal.str "abc") rfl rfl
    (Reply.body Sample.failBody) (Reply.body Sample.okBody)
  have h2 := transcript_precedes_dependent Sample.uploaded (JsVal.str "abc") rfl rfl
    (Reply.body Sample.okBody) (Reply.body Sample.okBody)
  ⟨⟨rfl, rfl⟩, by rw [h1.1]; rfl, by rw [h2.1]; rfl, (h1.2.2 rfl).2⟩

/-! ## A failed batch submission -/

/-- C14, counterexample: the server answers the submission with status 400
and a body that has `success` false and the message `No audio track`.  One
request was sent and no loop started, but the response is not ok, so its
body is never read: the error surfaced is the status text, and the server's
message is no part of it. -/
theorem not_ok_reply_drops_server_message :
    Sample.failBody.message = some (JsVal.str "No audio track") ∧
      (generateReels [Sample.config]
          (SubmitReply.response false 400 (Except.ok Sample.failBody)) Sample.uploaded).errors
        = ["Generation failed: Generation failed: 400"] ∧
      ¬ ("No audio track".data <:+: "Generation failed: Generation failed: 400".data) ∧
      (generateReels [Sample.config]
          (SubmitReply.response false 400 (Except.ok Sample.failBody)) Sample.uploaded).requests
        = [Request.generateReels "abc" [Sample.config]] ∧
      (generateReels [Sample.config]
          (SubmitReply.response false 400 (Except.ok Sample.failBody)) Sample.uploaded).timers
        = [] := by
  refine ⟨rfl, rfl, ?_, rfl, rfl⟩
  decide

/-- C14, amended: when the submission of `generateReels` for the file id of
the generate button fails, exactly one `/generate-reels` request was sent, no
timer was created and `this.statusCheckInterval` is untouched, one error is
surfaced, the progress section is hidden, the reel options are shown and
`isProcessing` is false.  The error is `Generation failed: ` followed by the
status text `Generation failed: <status>` for a response that is not ok,
the message of the rejection when the fetch or the parsing of the body
rejects, the body's `message` when the response is ok with `success` falsy
and a truthy `message`, and `Generation failed` when that body has no such
message. -/
theorem failed_submission_returns_to_options (configs : List ReelConfig)
    (reply : SubmitReply) (p : Page) (fileId : String)
    (hf : p.generateFileId = some fileId) (hne : fileId ≠ "")
    (hfail : reply.failed = true) :
    (generateReels configs reply p).requests
        = p.requests ++ [Request.generateReels fileId configs] ∧
      (generateReels configs reply p).timers = p.timers ∧
      (generateReels configs reply p).statusCheckInterval = p.statusCheckInterval ∧
      (generateReels configs reply p).errors
        = p.errors ++ ["Generation failed: " ++ reply.failureMessage] ∧
      (generateReels configs reply p).progressSection = false ∧
      (generateReels configs reply p).reelOptions = true ∧
      (generateReels configs reply p).isProcessing = false ∧
      (∀ status body, reply = SubmitReply.response false status body →
        reply.failureMessage = "Generation failed: " ++ toString status) ∧
      (∀ msg, reply = SubmitReply.networkError msg → reply.failureMessage = msg) ∧
      (∀ status msg, reply = SubmitReply.response true status (Except.error msg) →
        reply.failureMessage = msg) ∧
      (∀ status result, reply = SubmitReply.response true status (Except.ok result) →
        reply.failureMessage
          = if jsTruthy result.message then jsString result.message
            else "Generation failed") := by
  have key : ∀ q : Page, q.requests = p.requests ++ [Request.generateReels fileId configs] →
      q.timers = p.timers → q.statusCheckInterval = p.statusCheckInterval →
      q.errors = p.errors →
      let r : Page := { ({ Page.showError ("Generation failed: " ++ reply.failureMessage) q with
          progressSection := false, reelOptions := true } : Page) with isProcessing := false }
      r.requests = p.requests ++ [Request.generateReels fileId configs] ∧
        r.timers = p.timers ∧ r.statusCheckInterval = p.statusCheckInterval ∧
        r.errors = p.errors ++ ["Generation failed: " ++ reply.failureMessage] ∧
        r.progressSection = false ∧ r.reelOptions = true ∧ r.isProcessing = false := by
    intro q h1 h2 h3 h4
    refine ⟨h1, h2, h3, ?_, rfl, rfl, rfl⟩
    simp only [Page.errors] at h4 ⊢
    simp [Page.showError, App.errors, showError, App.emit, List.filterMap_append] at h4 ⊢
    exact h4
  have hq := key
    (Page.send { p with isProcessing := true, progressSection := true, reelOptions := false,
                        reelsGallery := false } (Request.generateReels fileId configs))
    rfl rfl rfl rfl
  refine ⟨?_, ?_, ?_, ?_, ?_, ?_, ?_, ?_, ?_, ?_, ?_⟩
  all_goals first
    | (intro status body h; subst h; rfl)
    | (intro msg h; subst h; rfl)
    | skip
  all_goals
    cases reply with
    | networkError msg =>
      simp only [generateReels, hf, hne, if_false]
      try first
        | exact hq.1 | exact hq.2.1 | exact hq.2.2.1 | exact hq.2.2.2.1
        | exact hq.2.2.2.2.1 | exact hq.2.2.2.2.2.1 | exact hq.2.2.2.2.2.2
    | response ok status body =>
      cases ok with
      | false =>
        simp only [generateReels, hf, hne, if_false, Bool.not_false, if_true]
        try first
          | exact hq.1 | exact hq.2.1 | exact hq.2.2.1 | exact hq.2.2.2.1
          | exact hq.2.2.2.2.1 | exact hq.2.2.2.2.2.1 | exact hq.2.2.2.2.2.2
      | true =>
        cases body with
        | error msg =>
          simp only [generateReels, hf, hne, if_false, Bool.not_true]
          try first
            | exact hq.1 | exact hq.2.1 | exact hq.2.2.1 | exact hq.2.2.2.1
            | exact hq.2.2.2.2.1 | exact hq.2.2.2.2.2.1 | exact hq.2.2.2.2.2.2
        | ok result =>
          have hs : jsTruthy result.success = false := by
            simpa [SubmitReply.failed] using hfail
          simp only [generateReels, hf, hne, if_false, Bool.not_true, hs]
          try first
            | exact hq.1 | exact hq.2.1 | exact hq.2.2.1 | exact hq.2.2.2.1
            | exact hq.2.2.2.2.1 | exact hq.2.2.2.2.2.1 | exact hq.2.2.2.2.2.2

/-- Witness of C14 amended: an ok response whose body has `success` false and
the message `No audio track`, on the uploaded page. -/
theorem failed_submission_returns_to_options_witness :
    (Sample.uploaded.generateFileId = some "abc" ∧
        (SubmitReply.response true 200 (Except.ok Sample.failBody)).failed = true) ∧
      (generateReels [Sample.config] (SubmitReply.response true 200 (Except.ok Sample.failBody))
          Sample.uploaded).requests = [Request.generateReels "abc" [Sample.config]] ∧
      (generateReels [Sample.config] (SubmitReply.response true 200 (Except.ok Sample.failBody))
          Sample.uploaded).timers = [] ∧
      (generateReels [Sample.config] (SubmitReply.response true 200 (Except.ok Sample.failBody))
          Sample.uploaded).errors = ["Generation failed: No audio track"] ∧
      (generateReels [Sample.config] (SubmitReply.response true 200 (Except.ok Sample.failBody))
          Sample.uploaded).reelOptions = true :=
  have h := failed_submission_returns_to_options [Sample.config]
    (SubmitReply.response true 200 (Except.ok Sample.failBody)) Sample.uploaded "abc" rfl
    (by decide) rfl
  ⟨⟨rfl, rfl⟩, h.1, h.2.1, h.2.2.2.1, h.2.2.2.2.2.1⟩

/-! ## File selection -/

/-- What `handleFileSelect` does with a file, by its type check and size:
accepted exactly when the file is valid and its size is at most `maxSize`. -/
theorem handleFileSelect_cases (toLowerCase : String → String) (file : File) (p : Page) :
    (validateFile toLowerCase file = true → file.size ≤ maxSize →
        (handleFileSelect toLowerCase (some file) p).currentFile = some file ∧
          (handleFileSelect toLowerCase (some file) p).uploadBtnDisabled = false ∧
          (handleFileSelect toLowerCase (some file) p).errors = p.errors) ∧
      (validateFile toLowerCase file = true → maxSize < file.size →
        (handleFileSelect toLowerCase (some file) p).currentFile = p.currentFile ∧
          (handleFileSelect toLowerCase (some file) p).errors = p.errors ++ [sizeError]) ∧
      (validateFile toLowerCase file = false →
        (handleFileSelect toLowerCase (some file) p).currentFile = p.currentFile ∧
          (handleFileSelect toLowerCase (some file) p).errors = p.errors ++ [typeError]) := by
  refine ⟨?_, ?_, ?_⟩
  · intro hv hs
    have : ¬ (file.size > maxSize) := by omega
    simp [handleFileSelect, hv, this, Page.showSuccess, showFilePreview, Page.errors,
      App.errors, showSuccess, App.emit, List.filterMap_append]
  · intro hv hs
    have : file.size > maxSize := hs
    simp [handleFileSelect, hv, this, Page.showError, Page.errors, App.errors, showError,
      App.emit, List.filterMap_append]
  · intro hv
    simp [handleFileSelect, hv, Page.showError, Page.errors, App.errors, showError,
      App.emit, List.filterMap_append]

/-- C15, the code at the failing input: a video file of exactly
`2 * 1024 * 1024 * 1024` bytes.  `handleFileSelect` stores it in
`currentFile`, enables the upload button and surfaces no error: the size
check rejects only sizes above `maxSize`. -/
theorem two_gigabyte_file_is_accepted :
    Sample.twoGigabytes.size = 2 * 1024 ^ 3 ∧
      (Page.init none).currentFile = none ∧
      (handleFileSelect Sample.asciiLower (some Sample.twoGigabytes)
        (Page.init none)).currentFile = some Sample.twoGigabytes ∧
      (handleFileSelect Sample.asciiLower (some Sample.twoGigabytes)
        (Page.init none)).uploadBtnDisabled = false ∧
      (handleFileSelect Sample.asciiLower (some Sample.twoGigabytes)
        (Page.init none)).errors = [] := by
  have h := (handleFileSelect_cases Sample.asciiLower Sample.twoGigabytes (Page.init none)).1
    (by decide) (by decide)
  exact ⟨by decide, rfl, h.1, h.2.1, h.2.2⟩

/-! ## The interval callback split at its `await` -/

theorem checkCount_congr {s t : App} (h : t.timers = s.timers) (id : Nat) :
    t.checkCount id = s.checkCount id := by
  cases id with
  | zero => rfl
  | succ k => simp [App.checkCount, h]

theorem clearInterval_checkCount (i : Option Nat) (s : App) (id : Nat) :
    (clearInterval i s).checkCount id = s.checkCount id := by
  cases id with
  | zero => rfl
  | succ k =>
    unfold clearInterval
    split
    · rename_i j
      split
      · rename_i l hl
        by_cases hjk : j = k
        · subst hjk
          have hlt : j < s.timers.length := (List.getElem?_eq_some.1 hl).1
          simp [App.checkCount, List.getElem?_set, hlt, hl]
        · simp [App.checkCount, List.getElem?_set, hjk]
      · rfl
    · rfl

theorem stop_checkCount (m : String) (i : Option Nat) (s : App) (id : Nat) :
    (backToOptions (showError m (clearInterval i s))).checkCount id = s.checkCount id :=
  (checkCount_congr rfl id).trans (clearInterval_checkCount i s id)

/-- No statement of the callback after its `await` assigns `checkCount`. -/
theorem tryBlock_checkCount (dates : Nat → Date) (j : Nat) (resp : FetchResult) (s : App)
    (id : Nat) : (tryBlock dates j resp s).state.checkCount id = s.checkCount id := by
  unfold tryBlock
  cases resp with
  | networkError m => rfl
  | httpError m => rfl
  | bodyError m => rfl
  | ok body =>
    simp only
    split
    · rw [checkCount_congr (handleGenerationComplete_quiet dates body _).1 id]
      exact (checkCount_congr rfl id).trans (clearInterval_checkCount _ s id)
    · split
      · exact stop_checkCount _ _ s id
      · exact checkCount_congr
          ((updateProgress_timers body _).trans (emit_timers s _)) id

theorem beginCallback_checkCount (id : Nat) (l : Loop) (s : App) (h : s.timer id = some l) :
    (beginCallback id l s).checkCount id = l.checkCount + 1 := by
  cases id with
  | zero => simp at h
  | succ k =>
    simp only [timer_succ] at h
    have hlt : k < s.timers.length := (List.getElem?_eq_some.1 h).1
    simp [beginCallback, App.checkCount, List.getElem?_set, hlt]

/-- The callback whose query is answered before anything else happens on the
page: `statusCallback` is `beginCallback` followed at once by
`resumeCallback`. -/
theorem resume_begin (dates : Nat → Date) (id : Nat) (l : Loop) (resp : FetchResult) (s : App)
    (h : s.timer id = some l) :
    resumeCallback dates id resp (beginCallback id l s) = statusCallback dates id l resp s := by
  have hc := beginCallback_checkCount id l s h
  have h2 : (match tryBlock dates id resp (beginCallback id l s) with
      | Except.ok s2 => s2
      | Except.error (msg, s2) => catchBlock msg s2).checkCount id = l.checkCount + 1 := by
    have ht := tryBlock_checkCount dates id resp (beginCallback id l s) id
    cases htb : tryBlock dates id resp (beginCallback id l s) with
    | ok s2 =>
      rw [htb] at ht
      exact ht.trans hc
    | error e =>
      obtain ⟨msg, s2⟩ := e
      rw [htb] at ht
      exact (stop_checkCount _ _ s2 id).trans (ht.trans hc)
  unfold resumeCallback statusCallback
  simp only [h2]
  rfl

/-- A period of a timer whose query is answered before anything else happens
is `statusTick`: the schedule on which every answer arrives within the period
of its query. -/
theorem answer_after_period (dates : Nat → Date) (id : Nat) (resp : FetchResult) (b : Browser)
    (h : b.waiting.contains id = false) :
    (Happening.answer id dates resp).apply ((Happening.period id).apply b)
      = { app := statusTick dates id resp b.app, waiting := b.waiting } := by
  have hmem : id ∉ b.waiting := by simpa using h
  unfold statusTick
  cases ht : b.app.timer id with
  | none => simp [Happening.apply, ht, hmem]
  | some l =>
    cases hact : l.active with
    | false => simp [Happening.apply, ht, hact, hmem]
    | true =>
      simp [Happening.apply, ht, hact, resume_begin dates id l resp b.app ht,
        List.erase_append_right _ hmem]

theorem beginCallback_stepped (id : Nat) (l : Loop) (s : App) (h : s.timer id = some l) :
    Stepped id s (beginCallback id l s) := by
  cases id with
  | zero => simp at h
  | succ k =>
    simp only [timer_succ] at h
    have hlt : k < s.timers.length := (List.getElem?_eq_some.1 h).1
    refine ⟨rfl, by simp [beginCallback], ?_, [Event.statusQuery (k + 1) l.fileId], rfl, ?_⟩
    · intro i hi
      cases i with
      | zero => simp [App.active] at hi
      | succ j =>
        by_cases hjk : k = j
        · subst hjk
          simpa [beginCallback, App.active, h, List.getElem?_set, hlt] using hi
        · simpa [beginCallback, App.active, List.getElem?_set, hjk] using hi
    · intro e he
      simp only [List.mem_singleton] at he
      subst he
      exact Or.inr rfl

theorem resumeCallback_stepped (dates : Nat → Date) (id : Nat) (resp : FetchResult) (s : App) :
    Stepped id s (resumeCallback dates id resp s) := by
  have htry := tryBlock_stepped dates id resp s
  have h2 : Stepped id s (match tryBlock dates id resp s with
      | Except.ok s2 => s2
      | Except.error (msg, s2) => catchBlock msg s2) := by
    cases htb : tryBlock dates id resp s with
    | ok s2 =>
      rw [htb] at htry
      exact htry
    | error e =>
      obtain ⟨msg, s2⟩ := e
      rw [htb] at htry
      exact htry.strans (stepped_stop id _ s2)
  unfold resumeCallback
  simp only
  split
  · exact h2.strans (stepped_stop id _ _)
  · exact h2

theorem singleLoop_stepped {id : Nat} {s t : App} (hs : SingleLoop s) (h : Stepped id s t) :
    SingleLoop t := by
  obtain ⟨hi, hl, ha, -⟩ := h
  intro j hj
  obtain ⟨h1, h2⟩ := hs j (ha j hj)
  exact ⟨by rw [hl]; exact h1, by rw [hi]; exact h2⟩

theorem singleLoop_happening (h : Happening) (b : Browser) (hs : SingleLoop b.app) :
    SingleLoop (h.apply b).app := by
  cases h with
  | start f => exact singleLoop_start f b.app hs
  | period id =>
    simp only [Happening.apply]
    cases ht : b.app.timer id with
    | none => exact hs
    | some l =>
      simp only
      split
      · exact singleLoop_stepped hs (beginCallback_stepped id l b.app ht)
      · exact hs
  | answer id dates resp =>
    simp only [Happening.apply]
    split
    · exact singleLoop_stepped hs (resumeCallback_stepped dates id resp b.app)
    · exact hs

/-- With the callbacks split at their `await`, still at most one timer is
scheduled in every state the page reaches: the newest one, which
`this.statusCheckInterval` records. -/
theorem singleLoop_happen (hs : List Happening) :
    ∀ b : Browser, SingleLoop b.app → SingleLoop (happen hs b).app := by
  induction hs with
  | nil => intro b hb; exact hb
  | cons h rest ih => intro b hb; exact ih _ (singleLoop_happening h b hb)
theorem happen_append (xs ys : List Happening) (b : Browser) :
    happen (xs ++ ys) b = happen ys (happen xs b) := by
  induction xs generalizing b with
  | nil => rfl
  | cons h rest ih => exact ih (h.apply b)

/-- On the schedule on which every status query is answered within the period
it is issued in, the page goes through the states of `poll`, and no query is
left without an answer. -/
theorem happen_inPeriod (clock : Nat → Nat → Date) (responses : Nat → FetchResult) (id : Nat)
    (b : Browser) (h : b.waiting.contains id = false) (n : Nat) :
    happen (inPeriod clock responses id n) b
      = { app := poll clock responses id n b.app, waiting := b.waiting } := by
  induction n with
  | zero => rfl
  | succ n ih =>
    rw [inPeriod, happen_append, ih]
    exact answer_after_period (clock (n + 1)) id (responses (n + 1))
      { app := poll clock responses id n b.app, waiting := b.waiting } h
theorem noQuery_queries {s t : App} (h : NoQuery s t) (id : Nat) :
    t.queries id = s.queries id := by
  obtain ⟨L, hL, hq⟩ := h
  unfold App.queries
  rw [hL, List.countP_append]
  have : L.countP (fun e => match e with
      | Event.statusQuery t _ => t == id
      | _ => false) = 0 := by
    rw [List.countP_eq_zero]
    intro e he
    have := hq e he
    cases e <;> simp_all [Event.isQuery]
  rw [this, Nat.add_zero]

/-- The part of a callback after its `await` issues no status query. -/
theorem resumeCallback_noQuery (dates : Nat → Date) (id : Nat) (resp : FetchResult) (s : App) :
    NoQuery s (resumeCallback dates id resp s) := by
  have htry := tryBlock_noQuery dates id resp s
  have h2 : NoQuery s (match tryBlock dates id resp s with
      | Except.ok s2 => s2
      | Except.error (msg, s2) => catchBlock msg s2) := by
    cases htb : tryBlock dates id resp s with
    | ok s2 =>
      rw [htb] at htry
      exact htry
    | error e =>
      obtain ⟨msg, s2⟩ := e
      rw [htb] at htry
      exact htry.ntrans (noQuery_stop _ s2)
  unfold resumeCallback
  simp only
  split
  · exact h2.ntrans (noQuery_stop _ _)
  · exact h2

theorem unscheduled_happening (h : Happening) (b : Browser) (id : Nat)
    (hid : id ≤ b.app.timers.length) (ha : b.app.active id = false) :
    id ≤ (h.apply b).app.timers.length ∧ (h.apply b).app.active id = false ∧
      (h.apply b).app.queries id = b.app.queries id := by
  have keep : ∀ {j : Nat} {t : App}, Stepped j b.app t → t.queries id = b.app.queries id →
      id ≤ t.timers.length ∧ t.active id = false ∧ t.queries id = b.app.queries id := by
    intro j t hst hq
    obtain ⟨-, hl, hact, -⟩ := hst
    refine ⟨by omega, ?_, hq⟩
    cases h' : t.active id with
    | false => rfl
    | true => rw [hact id h'] at ha; cases ha
  cases h with
  | start f =>
    obtain ⟨h1, h2, -, h4⟩ := silent_step (Action.start f) b.app id hid ha
    exact ⟨h1, h2, h4⟩
  | period j =>
    simp only [Happening.apply]
    cases ht : b.app.timer j with
    | none => exact ⟨hid, ha, rfl⟩
    | some l =>
      simp only
      split
      · rename_i hact
        have hj : j ≠ id := by
          intro e
          subst e
          simp [App.active, ht, hact] at ha
        have hst := beginCallback_stepped j l b.app ht
        exact keep hst (quiet_events hj hst.2.2.2).2
      · exact ⟨hid, ha, rfl⟩
  | answer j dates resp =>
    simp only [Happening.apply]
    split
    · exact keep (resumeCallback_stepped dates j resp b.app)
        (noQuery_queries (resumeCallback_noQuery dates j resp b.app) id)
    · exact ⟨hid, ha, rfl⟩

/-- With the callbacks split at their `await`: a timer that is not scheduled
is never scheduled again and issues no further status query, whatever happens
on the page.  Its suspended callbacks are not covered: they still run when
their answers arrive. -/
theorem unscheduled_happen (hs : List Happening) :
    ∀ (b : Browser) (id : Nat), id ≤ b.app.timers.length → b.app.active id = false →
      (happen hs b).app.active id = false ∧ (happen hs b).app.queries id = b.app.queries id := by
  induction hs with
  | nil => intro b id _ ha; exact ⟨ha, rfl⟩
  | cons h rest ih =>
    intro b id hid ha
    obtain ⟨h1, h2, h3⟩ := unscheduled_happening h b id hid ha
    obtain ⟨k1, k2⟩ := ih (h.apply b) id h1 h2
    exact ⟨k1, k2.trans h3⟩

set_option maxRecDepth 1000000 in
/-- C1, the code at the failing input: the server answers `running` to every
status query, the first twenty-nine answers within the period of their query
and the thirtieth after more than a period.  The timer, which is cleared only
when the thirtieth answer is handled, is still scheduled when its thirty-first
period elapses: a thirty-first status query is issued, and the timeout error
is surfaced twice, once by each of the two callbacks that end with
`checkCount` at 31. -/
theorem thirty_first_query_when_thirtieth_answer_is_late :
    (happen (Sample.lateThirtieth.take 61) (Browser.load none)).app.queries 1 = 31 ∧
      (happen (Sample.lateThirtieth.take 61) (Browser.load none)).app.active 1 = true ∧
      (happen (Sample.lateThirtieth.take 61) (Browser.load none)).app.errors = [] ∧
      (happen Sample.lateThirtieth (Browser.load none)).app.queries 1 = 31 ∧
      (happen Sample.lateThirtieth (Browser.load none)).app.active 1 = false ∧
      (happen Sample.lateThirtieth (Browser.load none)).app.errors
        = [timeoutMessage, timeoutMessage] :=
  ⟨rfl, rfl, rfl, rfl, rfl, rfl⟩

set_option maxRecDepth 1000000 in
/-- C2, the code at the failing input: the server answers `running` to the
first two status queries and `completed`, with two reels, from the third on;
the third answer takes longer than a period.  The fourth period elapses before
it, so four status queries are issued, both completed answers are handed to
`handleGenerationComplete`, and the two reels are in the gallery twice. -/
theorem late_completion_is_handled_twice :
    (happen Sample.lateCompletion (Browser.load none)).app.queries 1 = 4 ∧
      (happen Sample.lateCompletion (Browser.load none)).app.completions
        = [Sample.done, Sample.done] ∧
      (happen Sample.lateCompletion (Browser.load none)).app.reels
        = JsVal.arr (Sample.done.artifacts (Sample.clock 0)
            ++ Sample.done.artifacts (Sample.clock 0)) ∧
      (Sample.done.artifacts (Sample.clock 0)).length = 2 :=
  ⟨rfl, rfl, rfl, rfl⟩

set_option maxRecDepth 1000000 in
/-- C4, the code at the failing input: the second status query fails with
HTTP status 500, after more than a period.  The third period elapses before
the failure is handled, so a third status query is issued, and its answer is
handled as well: when it fails too, the status-check error is surfaced twice;
when it is `completed`, two reels are appended to the gallery after the
failure. -/
theorem late_failure_does_not_stop_next_query :
    (happen (Sample.lateFailure (FetchResult.httpError 500)) (Browser.load none)).app.queries 1
        = 3 ∧
      (happen (Sample.lateFailure (FetchResult.httpError 500)) (Browser.load none)).app.errors
        = ["Status check failed: Status check failed: 500",
           "Status check failed: Status check failed: 500"] ∧
      (happen (Sample.lateFailure (FetchResult.ok Sample.done)) (Browser.load none)).app.queries 1
        = 3 ∧
      (happen (Sample.lateFailure (FetchResult.ok Sample.done)) (Browser.load none)).app.errors
        = ["Status check failed: Status check failed: 500"] ∧
      (happen (Sample.lateFailure (FetchResult.ok Sample.done)) (Browser.load none)).app.reels
        = JsVal.arr (Sample.done.artifacts (Sample.clock 0)) :=
  ⟨rfl, rfl, rfl, rfl, rfl⟩

set_option maxRecDepth 1000000 in
/-- C6, the code at the failing input: the loop of timer 1 is cancelled, by the
`startStatusCheck` of a second submission, after its first status query was
issued and before the answer has arrived.  The timer is unscheduled from then
on, and the answer is still handled: `updateProgress` is called by the
cancelled loop after the cancellation.  With two status queries under way at
the cancellation, two such callbacks follow it. -/
theorem answer_after_cancel_is_handled :
    (happen [Happening.start "abc", Happening.period 1, Happening.start "xyz"]
        (Browser.load none)).app.active 1 = false ∧
      (happen [Happening.start "abc", Happening.period 1, Happening.start "xyz"]
        (Browser.load none)).app.eventsOf 1 = [Event.statusQuery 1 "abc"] ∧
      (happen (Sample.overtaken (FetchResult.ok Sample.running)) (Browser.load none)).app.eventsOf 1
        = [Event.statusQuery 1 "abc", Event.progress 1 Sample.running] ∧
      (happen (Sample.overtaken (FetchResult.ok Sample.running))
        (Browser.load none)).app.progressText = "40%" ∧
      (happen (Sample.overtakenTwice.take 4) (Browser.load none)).app.active 1 = false ∧
      (happen (Sample.overtakenTwice.take 4) (Browser.load none)).app.progressCalls = [] ∧
      (happen Sample.overtakenTwice (Browser.load none)).app.progressCalls
        = [Sample.running, Sample.running] :=
  ⟨rfl, rfl, rfl, rfl, rfl, rfl, rfl⟩

set_option maxRecDepth 1000000 in
/-- C7, the code at the failing input: a second submission starts the loop of
timer 2 while the first status query of timer 1 has no answer yet, and that
answer is `completed`.  The callback of the cancelled loop hands it to
`handleGenerationComplete`, and its `clearInterval(this.statusCheckInterval)`
clears timer 2, which the field records by then: the loop of the second
submission is unscheduled before its first period and never issues a status
query. -/
theorem old_loop_completes_and_clears_new_loop :
    (happen [Happening.start "abc", Happening.period 1, Happening.start "xyz"]
        (Browser.load none)).app.active 2 = true ∧
      (happen (Sample.overtaken (FetchResult.ok Sample.done)) (Browser.load none)).app.eventsOf 1
        = [Event.statusQuery 1 "abc", Event.completed 1 Sample.done] ∧
      (happen (Sample.overtaken (FetchResult.ok Sample.done)) (Browser.load none)).app.completions
        = [Sample.done] ∧
      (happen (Sample.overtaken (FetchResult.ok Sample.done))
        (Browser.load none)).app.statusCheckInterval = some 2 ∧
      (happen (Sample.overtaken (FetchResult.ok Sample.done)) (Browser.load none)).app.active 2
        = false ∧
      (happen (Sample.overtaken (FetchResult.ok Sample.done) ++ [Happening.period 2])
        (Browser.load none)).app.queries 2 = 0 :=
  ⟨rfl, rfl, rfl, rfl, rfl, rfl⟩
/-! ## A stored value that is no gallery -/

/-- On a gallery that is an array without a `null` entry,
`updateReelsGallery()` returns. -/
theorem tryUpdateReelsGallery_arr (s : App) (xs : List JsVal) (h : s.reels = JsVal.arr xs)
    (hx : xs.any JsVal.isNull = false) :
    tryUpdateReelsGallery s = Except.ok (updateReelsGallery s) := by
  unfold tryUpdateReelsGallery
  rw [h]
  simp [hx]

/-- With nothing stored, or the empty text, the constructor returns and the
gallery is empty. -/
theorem tryInit_absent (storage : Option String) (h : storage = none ∨ storage = some "") :
    App.tryInit storage = Except.ok (App.init storage) ∧
      (App.init storage).reels = JsVal.arr [] := by
  rcases h with h | h <;> subst h <;> exact ⟨rfl, rfl⟩

/-- C9, the code at the failing input: the stored text `null`, which is the
serialization of no array.  `JSON.parse` accepts it, so the `catch` of
`loadReels` does not run and `this.reels` becomes `null`, not the empty
sequence; `init()` then calls `updateReelsGallery()`, whose read of
`this.reels.length` throws, and the error escapes the constructor.  On a text
that `JSON.parse` rejects, the `catch` of the same function resets the gallery
to `[]` and the constructor returns. -/
theorem stored_null_breaks_init :
    (∀ xs, JSON.stringify (JsVal.arr xs) ≠ "null") ∧
      (loadReels (App.fresh (some "null"))).reels = JsVal.null ∧
      (loadReels (App.fresh (some "null"))).reels ≠ JsVal.arr [] ∧
      App.tryInit (some "null")
        = Except.error ("Cannot read properties of null (reading 'length')",
            loadReels (App.fresh (some "null"))) ∧
      App.tryInit (some Sample.brokenText) = Except.ok (App.init (some Sample.brokenText)) ∧
      (App.init (some Sample.brokenText)).reels = JsVal.arr [] := by
  refine ⟨?_, rfl, ?_, rfl, rfl, rfl⟩
  · intro xs h
    have := congrArg String.data h
    simp [JSON.stringify, JSON.write] at this
  · intro h
    have h2 : (loadReels (App.fresh (some "null"))).reels = JsVal.null := rfl
    rw [h2] at h
    cases h

/-! ## Names and ids of different types -/

/-- C16, counterexample: at one and the same timestamp, the number `1` and the
string `"1"` are two different ids with one name, `1 (1/5/2026, 10:00:00 AM)`,
and so are a missing id and the string `"undefined"`. -/
theorem ids_that_print_alike_share_a_name :
    (some (JsVal.num 1) : Option JsVal) ≠ some (JsVal.str "1") ∧
      nameOf (reelData none { Sample.reel "" "/r/1.mp4" with id := some (JsVal.num 1) }
          (Sample.clock 0 0) (Sample.clock 0 1))
        = nameOf (reelData none { Sample.reel "" "/r/2.mp4" with id := some (JsVal.str "1") }
          (Sample.clock 0 0) (Sample.clock 0 1)) ∧
      nameOf (reelData none { Sample.reel "" "/r/1.mp4" with id := some (JsVal.num 1) }
          (Sample.clock 0 0) (Sample.clock 0 1)) = some "1 (1/5/2026, 10:00:00 AM)" ∧
      (none : Option JsVal) ≠ some (JsVal.str "undefined") ∧
      nameOf (reelData none { Sample.reel "" "/r/1.mp4" with id := none }
          (Sample.clock 0 0) (Sample.clock 0 1))
        = nameOf (reelData none
          { Sample.reel "" "/r/2.mp4" with id := some (JsVal.str "undefined") }
          (Sample.clock 0 0) (Sample.clock 0 1)) := by
  refine ⟨?_, rfl, rfl, ?_, rfl⟩
  · intro h
    injection h with h
    cases h
  · intro h
    cases h

/-- C16, amended: the display name `<id> (<timestamp>)` of an artifact tells
timestamps apart and tells printed ids apart.  Two artifacts with one and the
same reel id have the same name exactly when their timestamp strings are the
same; two artifacts with one and the same timestamp string have the same name
exactly when their ids print the same; and when both ids are strings, exactly
when the ids are the same. -/
theorem name_separates_timestamps_and_printed_ids (f1 f2 : Option JsVal) (r1 r2 : ReelInfo)
    (st1 st2 c1 c2 : Date) (a b : String) :
    (nameOf (reelData f1 r1 st1 c1) = nameOf (reelData f2 { r2 with id := r1.id } st2 c2)
        ↔ st1.localeString = st2.localeString) ∧
      (nameOf (reelData f1 r1 st1 c1)
          = nameOf (reelData f2 r2 { st2 with localeString := st1.localeString } c2)
        ↔ jsString r1.id = jsString r2.id) ∧
      (nameOf (reelData f1 { r1 with id := some (JsVal.str a) } st1 c1)
          = nameOf (reelData f2 { r2 with id := some (JsVal.str b) }
              { st2 with localeString := st1.localeString } c2)
        ↔ a = b) := by
  simp only [nameOf_reelData]
  refine ⟨⟨?_, ?_⟩, ⟨?_, ?_⟩, ⟨?_, ?_⟩⟩
  · intro h
    injection h with h
    exact (displayName_inj _ _ _ _ h).2 rfl
  · intro h
    rw [h]
  · intro h
    injection h with h
    exact (displayName_inj _ _ _ _ h).1 rfl
  · intro h
    simp only [displayName, h]
  · intro h
    injection h with h
    have := (displayName_inj _ _ _ _ h).1 rfl
    simpa [jsString, toStr] using this
  · intro h
    rw [h]

end SmartMeetingAI
